import Mathlib

/-! Contact table and frame aggregation of the RDPEI client channel.

Shallow embedding of `Rdp/src/channels/rdpei/client/rdpei_main.c`.

* The array `rdpei->contactPoints` (allocated with `maxTouchContacts`
  entries) is a `List RDPINPUT_CONTACT_POINT`; `maxTouchContacts` is its length.
* Every function that indexes an array returns an `Option`; `none` stands for
  an access outside the array (undefined in C).
* `context->AddContact` and `context->TouchUpdate` are the function pointers
  installed by `DVCPluginEntry`, i.e. `rdpei_add_contact` and
  `rdpei_touch_update`.
* The lock and the wake event do not change the contact table and are left
  out of the sequential model of the operations; the dispatch loop is modelled
  with the lock and the wake event as flags.
-/

namespace Rdpei

/-! ## Constants and records of the headers -/

/-- Modelled from the spec: the success code `CHANNEL_RC_OK` of the channel
API; the header that defines it is not part of the sources, and every
function documents "0 on success". -/
def CHANNEL_RC_OK : Nat := 0

/-- Size of the array `rdpei->contacts` (`#define MAX_CONTACTS 512`). -/
def MAX_CONTACTS : Nat := 512

/-- Modelled from the spec: the contact flag DOWN.  The header `rdpei.h` that
defines the six contact flags is not part of the sources; they are distinct
single bits, here with the values of the published protocol. -/
def CONTACT_FLAG_DOWN : Nat := 0x0001

/-- Modelled from the spec: the contact flag UPDATE of the missing header. -/
def CONTACT_FLAG_UPDATE : Nat := 0x0002

/-- Modelled from the spec: the contact flag UP of the missing header. -/
def CONTACT_FLAG_UP : Nat := 0x0004

/-- Modelled from the spec: the contact flag IN_RANGE of the missing header. -/
def CONTACT_FLAG_INRANGE : Nat := 0x0008

/-- Modelled from the spec: the contact flag IN_CONTACT of the missing header. -/
def CONTACT_FLAG_INCONTACT : Nat := 0x0010

/-- Modelled from the spec: the contact flag CANCELED of the missing header. -/
def CONTACT_FLAG_CANCELED : Nat := 0x0020

/-- Modelled from the spec: the contact state ENGAGED of the missing header
(value of the published protocol; the state is written, never read). -/
def RDPINPUT_CONTACT_STATE_ENGAGED : Nat := 1

/-- Modelled from the spec: the contact state OUT_OF_RANGE of the missing
header (value of the published protocol; the state is written, never read). -/
def RDPINPUT_CONTACT_STATE_OUT_OF_RANGE : Nat := 3

/-- Modelled from the spec: the contact report record of the missing header
`rdpei.h` (contact id, field-presence mask, position, contact flags,
rectangle, orientation, pressure).  The source of this repository reads and
writes `contactId`, `x`, `y` and `contactFlags` and zeroes the rest. -/
structure RDPINPUT_CONTACT_DATA where
  contactId : Nat
  fieldsPresent : Nat
  x : Int
  y : Int
  contactFlags : Nat
  contactRectLeft : Int
  contactRectTop : Int
  contactRectRight : Int
  contactRectBottom : Int
  orientation : Nat
  pressure : Nat
  deriving DecidableEq, Repr

/-- Modelled from the spec: one slot of the contact table, the record
`RDPINPUT_CONTACT_POINT` of the missing header; the fields are the ones
`rdpei_main.c` reads and writes. -/
structure RDPINPUT_CONTACT_POINT where
  lastX : Int
  lastY : Int
  dirty : Bool
  active : Bool
  state : Nat
  flags : Nat
  contactId : Nat
  externalId : Int
  data : RDPINPUT_CONTACT_DATA
  deriving DecidableEq, Repr

/-- The record left by `ZeroMemory(&contact, sizeof(RDPINPUT_CONTACT_DATA))`. -/
def zeroContact : RDPINPUT_CONTACT_DATA :=
  { contactId := 0, fieldsPresent := 0, x := 0, y := 0, contactFlags := 0,
    contactRectLeft := 0, contactRectTop := 0, contactRectRight := 0,
    contactRectBottom := 0, orientation := 0, pressure := 0 }

/-- A slot as `calloc` leaves it in `DVCPluginEntry`. -/
def zeroPoint : RDPINPUT_CONTACT_POINT :=
  { lastX := 0, lastY := 0, dirty := false, active := false, state := 0,
    flags := 0, contactId := 0, externalId := 0, data := zeroContact }

/-- The contact table right after `DVCPluginEntry`: `maxTouchContacts` zeroed slots. -/
def initialTable (maxTouchContacts : Nat) : List RDPINPUT_CONTACT_POINT :=
  List.replicate maxTouchContacts zeroPoint

/-- Conversion of a `UINT32` to `int` (`contactIdlocal = contactPoint->contactId`). -/
def toInt32 (n : Nat) : Int :=
  if n % 2 ^ 32 < 2 ^ 31 then ((n % 2 ^ 32 : Nat) : Int)
  else ((n % 2 ^ 32 : Nat) : Int) - 2 ^ 32

/-- Conversion of an `int` to `UINT32` (`(UINT32) contactIdlocal`). -/
def toUInt32 (z : Int) : Nat := (z % 2 ^ 32).toNat

/-- What a touch operation leaves behind: the contact table, the returned
`UINT` and the value stored through `int* contactId` (`none` when the
function returns without storing). -/
structure TouchResult where
  contactPoints : List RDPINPUT_CONTACT_POINT
  error : Nat
  contactId : Option Int
  deriving DecidableEq, Repr

/-- What one aggregation cycle leaves behind: the contact table, the frame
(`frame.contactCount` and the first `contactCount` entries of
`rdpei->contacts`) and the returned `UINT`. -/
structure FrameResult where
  contactPoints : List RDPINPUT_CONTACT_POINT
  contactCount : Nat
  contacts : List RDPINPUT_CONTACT_DATA
  error : Nat
  deriving DecidableEq, Repr

/-! ## `rdpei_add_frame` -/

/-- The `for` loop of `rdpei_add_frame` over the remaining slots; `contacts`
holds the `frame.contactCount` entries written so far.  A write to
`rdpei->contacts[frame.contactCount]` past `MAX_CONTACTS` gives `none`. -/
def rdpei_add_frame_loop :
    List RDPINPUT_CONTACT_POINT → List RDPINPUT_CONTACT_DATA →
      Option (List RDPINPUT_CONTACT_POINT × List RDPINPUT_CONTACT_DATA)
  | [], contacts => some ([], contacts)
  | contactPoint :: rest, contacts =>
    if contactPoint.dirty then
      if contacts.length < MAX_CONTACTS then
        match rdpei_add_frame_loop rest (contacts ++ [contactPoint.data]) with
        | none => none
        | some (rest', contacts') =>
          some ({ contactPoint with dirty := false } :: rest', contacts')
      else none
    else if contactPoint.active then
      let contact : RDPINPUT_CONTACT_DATA :=
        if contactPoint.data.contactFlags &&& CONTACT_FLAG_DOWN ≠ 0 then
          { contactPoint.data with
            contactFlags :=
              (CONTACT_FLAG_UPDATE ||| CONTACT_FLAG_INRANGE) ||| CONTACT_FLAG_INCONTACT }
        else contactPoint.data
      if contacts.length < MAX_CONTACTS then
        match rdpei_add_frame_loop rest (contacts ++ [contact]) with
        | none => none
        | some (rest', contacts') =>
          some ({ contactPoint with data := contact } :: rest', contacts')
      else none
    else
      match rdpei_add_frame_loop rest contacts with
      | none => none
      | some (rest', contacts') => some (contactPoint :: rest', contacts')

/-- One aggregation cycle, `rdpei_add_frame`: `frame.contactCount = 0`, then the loop. -/
def rdpei_add_frame (contactPoints : List RDPINPUT_CONTACT_POINT) : Option FrameResult :=
  match rdpei_add_frame_loop contactPoints [] with
  | none => none
  | some (contactPoints', contacts) =>
    some { contactPoints := contactPoints', contactCount := contacts.length,
           contacts := contacts, error := CHANNEL_RC_OK }

/-! ## `rdpei_add_contact` -/

/-- The raw upsert `rdpei_add_contact`: copies the record into
`contactPoints[contact->contactId].data` and sets `dirty`; there is no bounds
check in the source, so an id outside the table gives `none`. -/
def rdpei_add_contact (contactPoints : List RDPINPUT_CONTACT_POINT)
    (contact : RDPINPUT_CONTACT_DATA) : Option (List RDPINPUT_CONTACT_POINT × Nat) :=
  if contact.contactId < contactPoints.length then
    some (contactPoints.modify
            (fun contactPoint => { contactPoint with data := contact, dirty := true })
            contact.contactId,
          CHANNEL_RC_OK)
  else none

/-! ## `rdpei_touch_begin` -/

/-- The scan of `rdpei_touch_begin`: the first index, counted from `i`, whose
slot is not active. -/
def findInactive : List RDPINPUT_CONTACT_POINT → Nat → Option Nat
  | [], _ => none
  | contactPoint :: rest, i =>
    if !contactPoint.active then some i else findInactive rest (i + 1)

/-- The operation `rdpei_touch_begin`.  The loop index stays below
`maxTouchContacts`, a `UINT16`, so the conversions of `i` to `UINT32`
(`contactPoint->contactId = i`), to `int` (`contactIdlocal`) and back to
`UINT32` (`contact.contactId`) do not change its value. -/
def rdpei_touch_begin (contactPoints : List RDPINPUT_CONTACT_POINT)
    (externalId x y : Int) : Option TouchResult :=
  match findInactive contactPoints 0 with
  | none =>
    some { contactPoints := contactPoints, error := CHANNEL_RC_OK, contactId := some (-1) }
  | some i =>
    let claimed := contactPoints.modify
      (fun contactPoint =>
        { contactPoint with
          contactId := i, externalId := externalId, active := true,
          state := RDPINPUT_CONTACT_STATE_ENGAGED }) i
    let contactIdlocal : Int := (i : Int)
    if contactIdlocal ≥ 0 then
      let moved := claimed.modify
        (fun contactPoint => { contactPoint with lastX := x, lastY := y }) i
      let contact : RDPINPUT_CONTACT_DATA :=
        { zeroContact with
          x := x, y := y, contactId := i,
          contactFlags :=
            ((0 ||| CONTACT_FLAG_DOWN) ||| CONTACT_FLAG_INRANGE) ||| CONTACT_FLAG_INCONTACT }
      match rdpei_add_contact moved contact with
      | none => none
      | some (contactPoints', error) =>
        some { contactPoints := contactPoints', error := error,
               contactId := some contactIdlocal }
    else
      some { contactPoints := claimed, error := CHANNEL_RC_OK,
             contactId := some contactIdlocal }

/-! ## `rdpei_touch_update` and `rdpei_touch_end` -/

/-- The lookup loop shared by `rdpei_touch_update` and `rdpei_touch_end`: the
first index, counted from `i`, whose slot is active and carries
`externalId`, together with that slot. -/
def findExternal (externalId : Int) :
    List RDPINPUT_CONTACT_POINT → Nat → Option (Nat × RDPINPUT_CONTACT_POINT)
  | [], _ => none
  | contactPoint :: rest, i =>
    if !contactPoint.active then findExternal externalId rest (i + 1)
    else if contactPoint.externalId = externalId then some (i, contactPoint)
    else findExternal externalId rest (i + 1)

/-- The operation `rdpei_touch_update`. -/
def rdpei_touch_update (contactPoints : List RDPINPUT_CONTACT_POINT)
    (externalId x y : Int) : Option TouchResult :=
  match findExternal externalId contactPoints 0 with
  | none =>
    some { contactPoints := contactPoints, error := CHANNEL_RC_OK, contactId := some (-1) }
  | some (i, contactPoint) =>
    let contactIdlocal : Int := toInt32 contactPoint.contactId
    if contactIdlocal ≥ 0 then
      let moved := contactPoints.modify
        (fun contactPoint => { contactPoint with lastX := x, lastY := y }) i
      let contact : RDPINPUT_CONTACT_DATA :=
        { zeroContact with
          x := x, y := y, contactId := toUInt32 contactIdlocal,
          contactFlags :=
            ((0 ||| CONTACT_FLAG_UPDATE) ||| CONTACT_FLAG_INRANGE) ||| CONTACT_FLAG_INCONTACT }
      match rdpei_add_contact moved contact with
      | none => none
      | some (contactPoints', error) =>
        some { contactPoints := contactPoints', error := error,
               contactId := some contactIdlocal }
    else
      some { contactPoints := contactPoints, error := CHANNEL_RC_OK,
             contactId := some contactIdlocal }

/-- The tail of `rdpei_touch_end` (source lines 1050 to 1070): the UP record is
written through `AddContact`, then the slot found by the lookup is reset. -/
def rdpei_touch_end_release (contactPoints : List RDPINPUT_CONTACT_POINT)
    (i : Nat) (x y contactIdlocal : Int) : Option TouchResult :=
  let contact : RDPINPUT_CONTACT_DATA :=
    { zeroContact with
      x := x, y := y, contactId := toUInt32 contactIdlocal,
      contactFlags := 0 ||| CONTACT_FLAG_UP }
  match rdpei_add_contact contactPoints contact with
  | none => none
  | some (contactPoints', error) =>
    if error ≠ 0 then
      some { contactPoints := contactPoints', error := error, contactId := none }
    else
      some { contactPoints := contactPoints'.modify
               (fun contactPoint =>
                 { contactPoint with
                   externalId := 0, active := false, flags := 0, contactId := 0,
                   state := RDPINPUT_CONTACT_STATE_OUT_OF_RANGE }) i,
             error := CHANNEL_RC_OK, contactId := some contactIdlocal }

/-- The operation `rdpei_touch_end`. -/
def rdpei_touch_end (contactPoints : List RDPINPUT_CONTACT_POINT)
    (externalId x y : Int) : Option TouchResult :=
  match findExternal externalId contactPoints 0 with
  | none =>
    some { contactPoints := contactPoints, error := CHANNEL_RC_OK, contactId := some (-1) }
  | some (i, contactPoint) =>
    let contactIdlocal : Int := toInt32 contactPoint.contactId
    if contactIdlocal ≥ 0 then
      if contactPoint.lastX ≠ x ∧ contactPoint.lastY ≠ y then
        match rdpei_touch_update contactPoints externalId x y with
        | none => none
        | some updated =>
          if updated.error ≠ 0 then
            some { contactPoints := updated.contactPoints, error := updated.error,
                   contactId := none }
          else rdpei_touch_end_release updated.contactPoints i x y contactIdlocal
      else rdpei_touch_end_release contactPoints i x y contactIdlocal
    else
      some { contactPoints := contactPoints, error := CHANNEL_RC_OK,
             contactId := some contactIdlocal }

/-! ## Sequences of calls and derived notions -/

/-- A run of `rdpei_touch_begin` calls, one per `(externalId, x, y)` of the
list, in order; gives the final table and the values stored through
`contactId`, one per call. -/
def touchBeginAll :
    List RDPINPUT_CONTACT_POINT → List (Int × Int × Int) →
      Option (List RDPINPUT_CONTACT_POINT × List (Option Int))
  | t, [] => some (t, [])
  | t, (externalId, x, y) :: calls =>
    match rdpei_touch_begin t externalId x y with
    | none => none
    | some r =>
      match touchBeginAll r.contactPoints calls with
      | none => none
      | some (t', ids) => some (t', r.contactId :: ids)

/-- The record that `rdpei_touch_begin` hands to `AddContact` for slot `i`. -/
def downContact (i : Nat) (x y : Int) : RDPINPUT_CONTACT_DATA :=
  { zeroContact with
    x := x, y := y, contactId := i,
    contactFlags := (CONTACT_FLAG_DOWN ||| CONTACT_FLAG_INRANGE) ||| CONTACT_FLAG_INCONTACT }

/-- The record that `rdpei_touch_update` hands to `AddContact` for contact id `c`. -/
def updateContact (c : Nat) (x y : Int) : RDPINPUT_CONTACT_DATA :=
  { zeroContact with
    x := x, y := y, contactId := c,
    contactFlags := (CONTACT_FLAG_UPDATE ||| CONTACT_FLAG_INRANGE) ||| CONTACT_FLAG_INCONTACT }

/-- The record that `rdpei_touch_end` hands to `AddContact` for contact id `c`. -/
def upContact (c : Nat) (x y : Int) : RDPINPUT_CONTACT_DATA :=
  { zeroContact with x := x, y := y, contactId := c, contactFlags := CONTACT_FLAG_UP }

/-- The slot `i` as a successful `rdpei_touch_begin` leaves it. -/
def beganPoint (i : Nat) (externalId x y : Int) (p : RDPINPUT_CONTACT_POINT) :
    RDPINPUT_CONTACT_POINT :=
  { p with
    contactId := i, externalId := externalId, active := true,
    state := RDPINPUT_CONTACT_STATE_ENGAGED, lastX := x, lastY := y,
    data := downContact i x y, dirty := true }

/-- The `else if (active)` branch of `rdpei_add_frame` on the stored record: a
record that shows DOWN is rewritten to UPDATE | INRANGE | INCONTACT. -/
def continuedContact (d : RDPINPUT_CONTACT_DATA) : RDPINPUT_CONTACT_DATA :=
  if d.contactFlags &&& CONTACT_FLAG_DOWN ≠ 0 then
    { d with
      contactFlags :=
        (CONTACT_FLAG_UPDATE ||| CONTACT_FLAG_INRANGE) ||| CONTACT_FLAG_INCONTACT }
  else d

/-- The entry that one slot adds to the frame of a cycle, if any. -/
def frameEntry (p : RDPINPUT_CONTACT_POINT) : Option RDPINPUT_CONTACT_DATA :=
  if p.dirty then some p.data
  else if p.active then some (continuedContact p.data)
  else none

/-- The slot as one cycle leaves it. -/
def afterCycle (p : RDPINPUT_CONTACT_POINT) : RDPINPUT_CONTACT_POINT :=
  if p.dirty then { p with dirty := false }
  else if p.active then { p with data := continuedContact p.data }
  else p

/-- A run of `n` consecutive aggregation cycles with no contact event in
between: the frames in the order they are built, and the final table. -/
def aggregationCycles :
    Nat → List RDPINPUT_CONTACT_POINT →
      Option (List (List RDPINPUT_CONTACT_DATA) × List RDPINPUT_CONTACT_POINT)
  | 0, t => some ([], t)
  | n + 1, t =>
    match rdpei_add_frame t with
    | none => none
    | some r =>
      match aggregationCycles n r.contactPoints with
      | none => none
      | some (frames, t') => some (r.contacts :: frames, t')

/-- The slot found by the lookup as `rdpei_touch_update` leaves it when the
record goes to that same slot (contact id `i`). -/
def updatedPoint (i : Nat) (x y : Int) (p : RDPINPUT_CONTACT_POINT) :
    RDPINPUT_CONTACT_POINT :=
  { p with lastX := x, lastY := y, data := updateContact i x y, dirty := true }

/-- The slot found by the lookup as `rdpei_touch_end` leaves it when the
record goes to that same slot (contact id `i`): the last position is only
touched by the update made when both axes differ. -/
def endedPoint (i : Nat) (x y : Int) (p : RDPINPUT_CONTACT_POINT) :
    RDPINPUT_CONTACT_POINT :=
  { p with
    lastX := if p.lastX ≠ x ∧ p.lastY ≠ y then x else p.lastX,
    lastY := if p.lastX ≠ x ∧ p.lastY ≠ y then y else p.lastY,
    data := upContact i x y, dirty := true,
    externalId := 0, active := false, flags := 0, contactId := 0,
    state := RDPINPUT_CONTACT_STATE_OUT_OF_RANGE }

/-- Every active slot stores its own index in `contactId`. -/
def OwnIndex (t : List RDPINPUT_CONTACT_POINT) : Prop :=
  ∀ (j : Nat) (p : RDPINPUT_CONTACT_POINT), t[j]? = some p → p.active = true → p.contactId = j

/-- The contact tables that the operations can produce from the zeroed table
of `DVCPluginEntry` (with `maxTouchContacts` within the frame array
`rdpei->contacts`), the raw upsert being called with records that satisfy `P`. -/
inductive ReachableWith (P : RDPINPUT_CONTACT_DATA → Prop) :
    List RDPINPUT_CONTACT_POINT → Prop
  | init (maxTouchContacts : Nat) (h : maxTouchContacts ≤ MAX_CONTACTS) :
      ReachableWith P (initialTable maxTouchContacts)
  | touchBegin {t : List RDPINPUT_CONTACT_POINT} (e x y : Int) {r : TouchResult} :
      ReachableWith P t → rdpei_touch_begin t e x y = some r →
      ReachableWith P r.contactPoints
  | touchUpdate {t : List RDPINPUT_CONTACT_POINT} (e x y : Int) {r : TouchResult} :
      ReachableWith P t → rdpei_touch_update t e x y = some r →
      ReachableWith P r.contactPoints
  | touchEnd {t : List RDPINPUT_CONTACT_POINT} (e x y : Int) {r : TouchResult} :
      ReachableWith P t → rdpei_touch_end t e x y = some r →
      ReachableWith P r.contactPoints
  | addContact {t : List RDPINPUT_CONTACT_POINT} (c : RDPINPUT_CONTACT_DATA)
      {t' : List RDPINPUT_CONTACT_POINT} {err : Nat} :
      ReachableWith P t → P c → rdpei_add_contact t c = some (t', err) →
      ReachableWith P t'
  | addFrame {t : List RDPINPUT_CONTACT_POINT} {r : FrameResult} :
      ReachableWith P t → rdpei_add_frame t = some r →
      ReachableWith P r.contactPoints

/-- The contact tables reachable through `rdpei_touch_begin`,
`rdpei_touch_update`, `rdpei_touch_end`, `rdpei_add_contact` with any record,
and `rdpei_add_frame`. -/
def Reachable (t : List RDPINPUT_CONTACT_POINT) : Prop :=
  ReachableWith (fun _ => True) t

/-- The external id `e` resolves to slot `s`, which holds `p`: slot `s` is
active and carries `e`, and no active slot below `s` carries `e`.  This is the
slot that the lookup of `rdpei_touch_update` and `rdpei_touch_end` finds. -/
def Resolves (t : List RDPINPUT_CONTACT_POINT) (e : Int) (s : Nat)
    (p : RDPINPUT_CONTACT_POINT) : Prop :=
  t[s]? = some p ∧ p.active = true ∧ p.externalId = e ∧
    ∀ (j : Nat) (q : RDPINPUT_CONTACT_POINT), j < s → t[j]? = some q →
      q.active = true → q.externalId ≠ e

/-! ## Sessions: producer calls interleaved with aggregation cycles -/

/-- One step of a session: a producer call or one aggregation cycle. -/
inductive SessionStep where
  | touchBegin (externalId x y : Int)
  | touchUpdate (externalId x y : Int)
  | touchEnd (externalId x y : Int)
  | addFrame
  deriving DecidableEq, Repr

/-- The entries that a cycle copies from dirty slots (first branch of the loop
of `rdpei_add_frame`): the one-shot reports of that cycle, in slot order. -/
def oneShotReports (t : List RDPINPUT_CONTACT_POINT) : List RDPINPUT_CONTACT_DATA :=
  (t.filter (fun p => p.dirty)).map (fun p => p.data)

/-- Whether the slot with index `c` is dirty in `t`. -/
def slotDirty (t : List RDPINPUT_CONTACT_POINT) (c : Int) : Bool :=
  match t[c.toNat]? with
  | some p => p.dirty
  | none => false

/-- Book-keeping of a session: the contact table, the record of every
successful call in call order (`recorded`), the frames built so far, the
one-shot reports of those frames (`reported`), and whether some successful
call wrote its record into a slot that was still dirty (`overwrote`). -/
structure SessionLog where
  contactPoints : List RDPINPUT_CONTACT_POINT
  recorded : List RDPINPUT_CONTACT_DATA
  frames : List (List RDPINPUT_CONTACT_DATA)
  reported : List RDPINPUT_CONTACT_DATA
  overwrote : Bool
  deriving DecidableEq, Repr

/-- The log of a session that starts on table `t`. -/
def startLog (t : List RDPINPUT_CONTACT_POINT) : SessionLog :=
  { contactPoints := t, recorded := [], frames := [], reported := [], overwrote := false }

/-- Book-keeping after a producer call that gave `r`: a call that returned a
slot (a value that is not negative) has recorded `record slot`. -/
def logCall (log : SessionLog) (r : TouchResult)
    (record : Nat → RDPINPUT_CONTACT_DATA) : SessionLog :=
  match r.contactId with
  | some c =>
    if 0 ≤ c then
      { log with
        contactPoints := r.contactPoints,
        recorded := log.recorded ++ [record c.toNat],
        overwrote := log.overwrote || slotDirty log.contactPoints c }
    else { log with contactPoints := r.contactPoints }
  | none => { log with contactPoints := r.contactPoints }

/-- One step of a session on the log. -/
def sessionStep (log : SessionLog) : SessionStep → Option SessionLog
  | SessionStep.touchBegin e x y =>
    match rdpei_touch_begin log.contactPoints e x y with
    | none => none
    | some r => some (logCall log r (fun c => downContact c x y))
  | SessionStep.touchUpdate e x y =>
    match rdpei_touch_update log.contactPoints e x y with
    | none => none
    | some r => some (logCall log r (fun c => updateContact c x y))
  | SessionStep.touchEnd e x y =>
    match rdpei_touch_end log.contactPoints e x y with
    | none => none
    | some r => some (logCall log r (fun c => upContact c x y))
  | SessionStep.addFrame =>
    match rdpei_add_frame log.contactPoints with
    | none => none
    | some r =>
      some { log with
             contactPoints := r.contactPoints,
             frames := log.frames ++ [r.contacts],
             reported := log.reported ++ oneShotReports log.contactPoints }

/-- A whole session: the steps in order. -/
def runSession : SessionLog → List SessionStep → Option SessionLog
  | log, [] => some log
  | log, step :: steps =>
    match sessionStep log step with
    | none => none
    | some log' => runSession log' steps

/-- What holds of the log all along a session that starts on a reachable
table: the table stays reachable; as long as no call overwrote a dirty slot,
the recorded one-shot events are, up to order, the ones reported so far
together with the ones still pending in dirty slots; and every reported
one-shot entry is an entry of a frame that was built. -/
def SessionInv (log : SessionLog) : Prop :=
  Reachable log.contactPoints ∧
    (log.overwrote = false →
      log.recorded.Perm (log.reported ++ oneShotReports log.contactPoints)) ∧
    ∀ c ∈ log.reported, ∃ f ∈ log.frames, c ∈ f

/-! ## Sample tables -/

/-- Two slots, after `touchBegin(42, 100, 100)` on the zeroed table. -/
def sampleBegun : List RDPINPUT_CONTACT_POINT :=
  [beganPoint 0 42 100 100 zeroPoint, zeroPoint]

/-- The table `sampleBegun` after one aggregation cycle. -/
def sampleReported : List RDPINPUT_CONTACT_POINT :=
  [{ beganPoint 0 42 100 100 zeroPoint with dirty := false }, zeroPoint]

/-- The table `sampleReported` after `touchEnd(42, 105, 100)`. -/
def sampleEnded : List RDPINPUT_CONTACT_POINT :=
  [endedPoint 0 105 100 { beganPoint 0 42 100 100 zeroPoint with dirty := false }, zeroPoint]

/-- Two slots, after `touchBegin(1, 10, 10)` and `touchBegin(2, 20, 20)`. -/
def sampleTwo : List RDPINPUT_CONTACT_POINT :=
  [beganPoint 0 1 10 10 zeroPoint, beganPoint 1 2 20 20 zeroPoint]

/-- Every slot that reports (dirty or active) stores its own index as the
contact id of its record. -/
def OwnData (t : List RDPINPUT_CONTACT_POINT) : Prop :=
  ∀ (j : Nat) (p : RDPINPUT_CONTACT_POINT), t[j]? = some p →
    (p.dirty = true ∨ p.active = true) → p.data.contactId = j

/-! ## External ids of the active slots -/

/-- No two distinct active slots carry the same external id. -/
def InjectiveIds (t : List RDPINPUT_CONTACT_POINT) : Prop :=
  ∀ (i j : Nat) (p q : RDPINPUT_CONTACT_POINT), t[i]? = some p → t[j]? = some q →
    p.active = true → q.active = true → p.externalId = q.externalId → i = j

/-- The contact tables reachable from the zeroed table when
`rdpei_touch_begin` is only called with an external id that no active slot
carries at the time of the call; the other operations are free. -/
inductive ReachableFresh : List RDPINPUT_CONTACT_POINT → Prop
  | init (maxTouchContacts : Nat) (h : maxTouchContacts ≤ MAX_CONTACTS) :
      ReachableFresh (initialTable maxTouchContacts)
  | touchBegin {t : List RDPINPUT_CONTACT_POINT} (e x y : Int) {r : TouchResult} :
      ReachableFresh t → (∀ p ∈ t, p.active = true → p.externalId ≠ e) →
      rdpei_touch_begin t e x y = some r → ReachableFresh r.contactPoints
  | touchUpdate {t : List RDPINPUT_CONTACT_POINT} (e x y : Int) {r : TouchResult} :
      ReachableFresh t → rdpei_touch_update t e x y = some r →
      ReachableFresh r.contactPoints
  | touchEnd {t : List RDPINPUT_CONTACT_POINT} (e x y : Int) {r : TouchResult} :
      ReachableFresh t → rdpei_touch_end t e x y = some r →
      ReachableFresh r.contactPoints
  | addContact {t : List RDPINPUT_CONTACT_POINT} (c : RDPINPUT_CONTACT_DATA)
      {t' : List RDPINPUT_CONTACT_POINT} {err : Nat} :
      ReachableFresh t → rdpei_add_contact t c = some (t', err) → ReachableFresh t'
  | addFrame {t : List RDPINPUT_CONTACT_POINT} {r : FrameResult} :
      ReachableFresh t → rdpei_add_frame t = some r → ReachableFresh r.contactPoints

/-- Two slots, after `touchBegin(7, 1, 1)` and `touchBegin(7, 2, 2)`. -/
def sampleTwin : List RDPINPUT_CONTACT_POINT :=
  [beganPoint 0 7 1 1 zeroPoint, beganPoint 1 7 2 2 zeroPoint]

/-! ## Reference of the reconciliation rule -/

/-- Reference, in the words of the specification: what one slot contributes to
the frame.  A dirty slot contributes its pending record verbatim; a slot that
is not dirty but active contributes its record, with the flags replaced by
UPDATE | INRANGE | INCONTACT when they contain DOWN; any other slot
contributes nothing. -/
def referenceContribution (p : RDPINPUT_CONTACT_POINT) : Option RDPINPUT_CONTACT_DATA :=
  if p.dirty then some p.data
  else if p.active then
    if p.data.contactFlags &&& CONTACT_FLAG_DOWN ≠ 0 then
      some { p.data with
             contactFlags :=
               (CONTACT_FLAG_UPDATE ||| CONTACT_FLAG_INRANGE) ||| CONTACT_FLAG_INCONTACT }
    else some p.data
  else none

/-- Reference, in the words of the specification: the frame of one cycle, the
contributions of the slots 0, 1, .., `maxTouchContacts - 1` in this order. -/
def referenceFrame (t : List RDPINPUT_CONTACT_POINT) : List RDPINPUT_CONTACT_DATA :=
  (List.range t.length).filterMap (fun i => (t[i]?).bind referenceContribution)

/-- Three slots: slot 0 just ended (dirty, inactive), slot 1 begun and reported
once (active, not dirty, record still DOWN), slot 2 idle. -/
def sampleMixed : List RDPINPUT_CONTACT_POINT :=
  [endedPoint 0 5 5 { beganPoint 0 1 1 1 zeroPoint with dirty := false },
   { beganPoint 1 2 20 20 zeroPoint with dirty := false }, zeroPoint]

/-! ## The frame writers and the session state -/

/-- Modelled from the spec: the allocation failure code `CHANNEL_RC_NO_MEMORY`
of the channel API (missing header); any value other than `CHANNEL_RC_OK`. -/
def CHANNEL_RC_NO_MEMORY : Nat := 12

/-- Modelled from the spec: event kind CS_READY of the missing header `rdpei.h`
(value of the published protocol). -/
def EVENTID_CS_READY : Nat := 0x0002

/-- Modelled from the spec: event kind TOUCH of the missing header. -/
def EVENTID_TOUCH : Nat := 0x0003

/-- Modelled from the spec: event kind PEN of the missing header. -/
def EVENTID_PEN : Nat := 0x0008

/-- Modelled from the spec: length of the PDU header, a 2-byte event kind and
a 4-byte length (`RDPINPUT_HEADER_LENGTH` of the missing header). -/
def RDPINPUT_HEADER_LENGTH : Nat := 6

/-- Modelled from the spec: the "show touch visuals" bit of the CS_READY flags
(missing header). -/
def READY_FLAGS_SHOW_TOUCH_VISUALS : Nat := 0x00000001

/-- Modelled from the spec: the protocol version constant sent in CS_READY
(`RDPINPUT_PROTOCOL_V200` of the missing header). -/
def RDPINPUT_PROTOCOL_V200 : Nat := 0x00020000

/-- Modelled from the spec: field-presence bit "contact rectangle present" of
the missing header. -/
def CONTACT_DATA_CONTACTRECT_PRESENT : Nat := 0x0001

/-- Modelled from the spec: presence bit of the pen flags (missing header). -/
def PEN_CONTACT_PENFLAGS_PRESENT : Nat := 0x0001

/-- Modelled from the spec: presence bit of the pen pressure (missing header). -/
def PEN_CONTACT_PRESSURE_PRESENT : Nat := 0x0002

/-- Modelled from the spec: presence bit of the pen rotation (missing header). -/
def PEN_CONTACT_ROTATION_PRESENT : Nat := 0x0004

/-- Modelled from the spec: presence bit of the pen tilt-x (missing header). -/
def PEN_CONTACT_TILTX_PRESENT : Nat := 0x0008

/-- Modelled from the spec: presence bit of the pen tilt-y (missing header). -/
def PEN_CONTACT_TILTY_PRESENT : Nat := 0x0010

/-- Modelled from the spec: pointer flag "in range" of the pointer record given
by the producer (the header `windows.h` is not part of the sources). -/
def POINTER_FLAG_INRANGE : Nat := 0x00000002

/-- Modelled from the spec: pointer flag "in contact" (missing header). -/
def POINTER_FLAG_INCONTACT : Nat := 0x00000004

/-- Modelled from the spec: pointer flag "canceled" (missing header). -/
def POINTER_FLAG_CANCELED : Nat := 0x00008000

/-- Modelled from the spec: pointer flag "down" (missing header). -/
def POINTER_FLAG_DOWN : Nat := 0x00010000

/-- Modelled from the spec: pointer flag "update" (missing header). -/
def POINTER_FLAG_UPDATE : Nat := 0x00020000

/-- Modelled from the spec: pointer flag "up" (missing header). -/
def POINTER_FLAG_UP : Nat := 0x00040000

/-- Modelled from the spec: pen flag "barrel" of the producer (missing header). -/
def PEN_FLAG_BARREL : Nat := 0x00000001

/-- Modelled from the spec: pen flag "inverted" of the producer (missing header). -/
def PEN_FLAG_INVERTED : Nat := 0x00000002

/-- Modelled from the spec: pen flag "eraser" of the producer (missing header). -/
def PEN_FLAG_ERASER : Nat := 0x00000004

/-- Modelled from the spec: the pointer record of the producer, with the fields
that `rdpei_main.c` reads (`pointerId`, `pointerFlags`, `ptPixelLocation`). -/
structure POINTER_INFO where
  pointerId : Nat
  pointerFlags : Nat
  x : Int
  y : Int
  deriving DecidableEq, Repr

/-- Modelled from the spec: the pen record of the producer, with the fields
that `rdpei_main.c` reads. -/
structure POINTER_PEN_INFO where
  pointerInfo : POINTER_INFO
  penFlags : Nat
  penMask : Nat
  pressure : Nat
  rotation : Nat
  tiltX : Int
  tiltY : Int
  deriving DecidableEq, Repr

/-- One field put on the stream.  The compact writers `rdpei_write_*` of
`rdpei_common.c` are taken as opaque field writers: a field is the kind of
writer together with the value handed to it. -/
inductive WireField where
  | uint8 (value : Nat)
  | twoByteUnsigned (value : Nat)
  | twoByteSigned (value : Int)
  | fourByteUnsigned (value : Nat)
  | fourByteSigned (value : Int)
  | eightByteUnsigned (value : Nat)
  deriving DecidableEq, Repr

/-- Arithmetic on `INT32`: the result of an `INT32` operation, reduced to 32
bits in two's complement. -/
def wrapInt32 (z : Int) : Int := toInt32 (toUInt32 z)

/-- The function `pointer_flag_to_contact_flags`. -/
def pointer_flag_to_contact_flags (pointer_flags : Nat) : Nat :=
  let contact_flags : Nat := 0
  let contact_flags :=
    if pointer_flags &&& POINTER_FLAG_DOWN ≠ 0 then contact_flags ||| CONTACT_FLAG_DOWN
    else contact_flags
  let contact_flags :=
    if pointer_flags &&& POINTER_FLAG_UPDATE ≠ 0 then contact_flags ||| CONTACT_FLAG_UPDATE
    else contact_flags
  let contact_flags :=
    if pointer_flags &&& POINTER_FLAG_UP ≠ 0 then contact_flags ||| CONTACT_FLAG_UP
    else contact_flags
  let contact_flags :=
    if pointer_flags &&& POINTER_FLAG_INRANGE ≠ 0 then contact_flags ||| CONTACT_FLAG_INRANGE
    else contact_flags
  let contact_flags :=
    if pointer_flags &&& POINTER_FLAG_INCONTACT ≠ 0 then
      contact_flags ||| CONTACT_FLAG_INCONTACT
    else contact_flags
  let contact_flags :=
    if pointer_flags &&& POINTER_FLAG_CANCELED ≠ 0 then contact_flags ||| CONTACT_FLAG_CANCELED
    else contact_flags
  contact_flags

/-- The body of the `for` loop of `rdpei_write_touch_frame_new` for one pointer. -/
def rdpei_write_touch_contact (pointer : POINTER_INFO) : List WireField :=
  let x : Int := pointer.x
  let y : Int := pointer.y
  let Left : Int := wrapInt32 (x - 2)
  let Top : Int := wrapInt32 (y - 2)
  let Right : Int := wrapInt32 (x + 2)
  let Bottom : Int := wrapInt32 (y + 2)
  [ WireField.uint8 (pointer.pointerId % 10),
    WireField.twoByteUnsigned CONTACT_DATA_CONTACTRECT_PRESENT,
    WireField.fourByteSigned x,
    WireField.fourByteSigned y,
    WireField.fourByteUnsigned (pointer_flag_to_contact_flags pointer.pointerFlags),
    WireField.twoByteSigned Left,
    WireField.twoByteSigned Top,
    WireField.twoByteSigned Right,
    WireField.twoByteSigned Bottom ]

/-- The function `rdpei_write_touch_frame_new` on the `count` pointers of the
list (`count` is an `int`, so it is its own value as `UINT32`): the returned
`UINT` and the fields written.  `ensureCapacity` is the outcome of
`Stream_EnsureRemainingCapacity`. -/
def rdpei_write_touch_frame_new (pointers : List POINTER_INFO) (offset : Nat)
    (ensureCapacity : Bool) : Nat × List WireField :=
  let written : List WireField :=
    [ WireField.twoByteUnsigned pointers.length,
      WireField.eightByteUnsigned (offset * 1000 % 2 ^ 64) ]
  if !ensureCapacity then (CHANNEL_RC_NO_MEMORY, written)
  else (CHANNEL_RC_OK, written ++ pointers.flatMap rdpei_write_touch_contact)

/-- The function `pen_mask_to_fields_present` on a `UINT16`. -/
def pen_mask_to_fields_present (mask : Nat) : Nat :=
  (PEN_CONTACT_PENFLAGS_PRESENT ||| ((mask % 2 ^ 16) <<< 1)) % 2 ^ 16

/-- The function `pen_flag_to_rdp_pen_flag`. -/
def pen_flag_to_rdp_pen_flag (flag : Nat) : Nat :=
  let rdpPenFlag : Nat := 0
  let rdpPenFlag := if flag &&& PEN_FLAG_BARREL ≠ 0 then rdpPenFlag ||| 1 else rdpPenFlag
  let rdpPenFlag := if flag &&& PEN_FLAG_ERASER ≠ 0 then rdpPenFlag ||| 2 else rdpPenFlag
  let rdpPenFlag := if flag &&& PEN_FLAG_INVERTED ≠ 0 then rdpPenFlag ||| 4 else rdpPenFlag
  rdpPenFlag

/-- The body of the `for` loop of `rdpei_write_pen_frame_new` for one pen
record; `tiltX` and `tiltY` are `INT32` handed to a writer of `UINT32`. -/
def rdpei_write_pen_contact (penInfo : POINTER_PEN_INFO) : List WireField :=
  [ WireField.uint8 0,
    WireField.twoByteUnsigned (pen_mask_to_fields_present penInfo.penMask),
    WireField.fourByteSigned penInfo.pointerInfo.x,
    WireField.fourByteSigned penInfo.pointerInfo.y,
    WireField.fourByteUnsigned
      (pointer_flag_to_contact_flags penInfo.pointerInfo.pointerFlags) ]
  ++ (if pen_mask_to_fields_present penInfo.penMask &&& PEN_CONTACT_PENFLAGS_PRESENT ≠ 0 then
        [WireField.fourByteUnsigned (pen_flag_to_rdp_pen_flag penInfo.penFlags)] else [])
  ++ (if pen_mask_to_fields_present penInfo.penMask &&& PEN_CONTACT_PRESSURE_PRESENT ≠ 0 then
        [WireField.fourByteUnsigned penInfo.pressure] else [])
  ++ (if pen_mask_to_fields_present penInfo.penMask &&& PEN_CONTACT_ROTATION_PRESENT ≠ 0 then
        [WireField.twoByteUnsigned penInfo.rotation] else [])
  ++ (if pen_mask_to_fields_present penInfo.penMask &&& PEN_CONTACT_TILTX_PRESENT ≠ 0 then
        [WireField.twoByteUnsigned (toUInt32 penInfo.tiltX)] else [])
  ++ (if pen_mask_to_fields_present penInfo.penMask &&& PEN_CONTACT_TILTY_PRESENT ≠ 0 then
        [WireField.twoByteUnsigned (toUInt32 penInfo.tiltY)] else [])

/-- The function `rdpei_write_pen_frame_new` on the `count` pen records of the list. -/
def rdpei_write_pen_frame_new (pen_info : List POINTER_PEN_INFO) (offset : Nat)
    (ensureCapacity : Bool) : Nat × List WireField :=
  let written : List WireField :=
    [ WireField.twoByteUnsigned pen_info.length,
      WireField.eightByteUnsigned (offset * 1000 % 2 ^ 64) ]
  if !ensureCapacity then (CHANNEL_RC_NO_MEMORY, written)
  else (CHANNEL_RC_OK, written ++ pen_info.flatMap rdpei_write_pen_contact)

/-- What the environment does during one send: whether `Stream_New` gives a
stream, whether `Stream_EnsureRemainingCapacity` succeeds, and the status that
the channel `Write` returns. -/
structure SendOutcome where
  streamNew : Bool
  ensureCapacity : Bool
  writeStatus : Nat
  deriving DecidableEq, Repr

/-- A PDU handed to the channel `Write`: the event kind put in the header and
the fields of the body (the header length is the measured stream length). -/
structure SentPdu where
  eventId : Nat
  body : List WireField
  deriving DecidableEq, Repr

/-- The function `rdpei_send_touch_event_pdu_new`: the returned `UINT` and the
PDU handed to the channel, if `Write` was reached. -/
def rdpei_send_touch_event_pdu_new (pointers : List POINTER_INFO) (offset : Nat)
    (env : SendOutcome) : Nat × Option SentPdu :=
  if !env.streamNew then (CHANNEL_RC_NO_MEMORY, none)
  else
    let head : List WireField :=
      [WireField.fourByteUnsigned (offset % 2 ^ 32), WireField.twoByteUnsigned 1]
    let frame := rdpei_write_touch_frame_new pointers offset env.ensureCapacity
    if frame.1 ≠ 0 then (frame.1, none)
    else (env.writeStatus, some { eventId := EVENTID_TOUCH, body := head ++ frame.2 })

/-- The function `rdpei_send_pen_event_pdu_new` (`count` is 1: one pen record). -/
def rdpei_send_pen_event_pdu_new (pens : POINTER_PEN_INFO) (offset : Nat)
    (env : SendOutcome) : Nat × Option SentPdu :=
  if !env.streamNew then (CHANNEL_RC_NO_MEMORY, none)
  else
    let head : List WireField :=
      [WireField.fourByteUnsigned (offset % 2 ^ 32), WireField.twoByteUnsigned 1]
    let frame := rdpei_write_pen_frame_new [pens] offset env.ensureCapacity
    if frame.1 ≠ 0 then (frame.1, none)
    else (env.writeStatus, some { eventId := EVENTID_PEN, body := head ++ frame.2 })

/-- Modelled from the spec: the frame record `RDPINPUT_TOUCH_FRAME` of the
missing header, without the pointer to the entries. -/
structure RDPINPUT_TOUCH_FRAME where
  contactCount : Nat
  frameOffset : Nat
  deriving DecidableEq, Repr

/-- The fields of `struct _RDPEI_PLUGIN` that the operations on frames and
contacts read and write. -/
structure RDPEI_PLUGIN where
  version : Int
  maxTouchContacts : Nat
  currentFrameTime : Nat
  previousFrameTime : Nat
  frame : RDPINPUT_TOUCH_FRAME
  contactPoints : List RDPINPUT_CONTACT_POINT
  deriving DecidableEq, Repr

/-- The plugin as `DVCPluginEntry` leaves it. -/
def freshPlugin : RDPEI_PLUGIN :=
  { version := 1, maxTouchContacts := 10, currentFrameTime := 0, previousFrameTime := 0,
    frame := { contactCount := 0, frameOffset := 0 }, contactPoints := initialTable 10 }

/-- Subtraction on `UINT64`. -/
def subUInt64 (a b : Nat) : Nat := (((a : Int) - (b : Int)) % 2 ^ 64).toNat

/-- What a send leaves behind: the plugin, the returned `UINT` and the PDU
handed to the channel, if any. -/
structure SendResult where
  plugin : RDPEI_PLUGIN
  error : Nat
  sent : Option SentPdu
  deriving DecidableEq, Repr

/-- The two branches that set `currentFrameTime` and `frame.frameOffset` at the
start of `rdpei_send_touch_frame` and `rdpei_send_pen_frame`; `currentTime` is
the reading of `GetTickCount64`. -/
def stampFrame (rdpei : RDPEI_PLUGIN) (currentTime : Nat) : RDPEI_PLUGIN :=
  if rdpei.previousFrameTime = 0 ∧ rdpei.currentFrameTime = 0 then
    { rdpei with
      currentFrameTime := currentTime,
      frame := { rdpei.frame with frameOffset := 0 } }
  else
    { rdpei with
      currentFrameTime := currentTime,
      frame := { rdpei.frame with
                 frameOffset := subUInt64 currentTime rdpei.previousFrameTime } }

/-- The function `rdpei_send_touch_frame`. -/
def rdpei_send_touch_frame (rdpei : RDPEI_PLUGIN) (pointers : List POINTER_INFO)
    (currentTime : Nat) (env : SendOutcome) : SendResult :=
  let stamped := stampFrame rdpei currentTime
  let send := rdpei_send_touch_event_pdu_new pointers stamped.frame.frameOffset env
  if send.1 ≠ 0 then { plugin := stamped, error := send.1, sent := send.2 }
  else
    { plugin :=
        { stamped with
          previousFrameTime := stamped.currentFrameTime,
          frame := { stamped.frame with contactCount := 0 } },
      error := send.1, sent := send.2 }

/-- The function `rdpei_send_pen_frame`. -/
def rdpei_send_pen_frame (rdpei : RDPEI_PLUGIN) (pointers : POINTER_PEN_INFO)
    (currentTime : Nat) (env : SendOutcome) : SendResult :=
  let stamped := stampFrame rdpei currentTime
  let send := rdpei_send_pen_event_pdu_new pointers stamped.frame.frameOffset env
  if send.1 ≠ 0 then { plugin := stamped, error := send.1, sent := send.2 }
  else
    { plugin :=
        { stamped with
          previousFrameTime := stamped.currentFrameTime,
          frame := { stamped.frame with contactCount := 0 } },
      error := send.1, sent := send.2 }

/-- The function `rdpei_add_frame` on the plugin: the contact table and
`frame.contactCount` are written, the entries go to `rdpei->contacts`. -/
def rdpei_add_frame_plugin (rdpei : RDPEI_PLUGIN) :
    Option (RDPEI_PLUGIN × List RDPINPUT_CONTACT_DATA) :=
  match rdpei_add_frame rdpei.contactPoints with
  | none => none
  | some r =>
    some ({ rdpei with
            contactPoints := r.contactPoints,
            frame := { rdpei.frame with contactCount := r.contactCount } },
          r.contacts)

/-- Reference, in the words of the specification: the optional pen fields in
their fixed order (pen flags, pressure, rotation, tilt-x, tilt-y), each with
the presence bit that gates it. -/
def penOptionalFields (penInfo : POINTER_PEN_INFO) : List (Nat × WireField) :=
  [ (PEN_CONTACT_PENFLAGS_PRESENT,
      WireField.fourByteUnsigned (pen_flag_to_rdp_pen_flag penInfo.penFlags)),
    (PEN_CONTACT_PRESSURE_PRESENT, WireField.fourByteUnsigned penInfo.pressure),
    (PEN_CONTACT_ROTATION_PRESENT, WireField.twoByteUnsigned penInfo.rotation),
    (PEN_CONTACT_TILTX_PRESENT, WireField.twoByteUnsigned (toUInt32 penInfo.tiltX)),
    (PEN_CONTACT_TILTY_PRESENT, WireField.twoByteUnsigned (toUInt32 penInfo.tiltY)) ]

/-- Reference, in the words of the specification: the optional fields that a
decoder expects after reading the presence mask `mask`. -/
def referencePenOptional (mask : Nat) (penInfo : POINTER_PEN_INFO) : List WireField :=
  ((penOptionalFields penInfo).filter (fun gated => mask &&& gated.1 ≠ 0)).map
    (fun gated => gated.2)

/-- A pointer that goes down at (100, 100). -/
def samplePointer : POINTER_INFO :=
  { pointerId := 1,
    pointerFlags := (POINTER_FLAG_DOWN ||| POINTER_FLAG_INRANGE) ||| POINTER_FLAG_INCONTACT,
    x := 100, y := 100 }

/-- A pen at (7, 8) with pressure and tilt-x. -/
def samplePen : POINTER_PEN_INFO :=
  { pointerInfo := { pointerId := 3, pointerFlags := POINTER_FLAG_UPDATE, x := 7, y := 8 },
    penFlags := PEN_FLAG_ERASER, penMask := 5, pressure := 512, rotation := 90,
    tiltX := -3, tiltY := 4 }

/-- A send in which every step succeeds. -/
def sendSucceeds : SendOutcome :=
  { streamNew := true, ensureCapacity := true, writeStatus := 0 }

/-- A send in which `Stream_New` gives no stream. -/
def sendNoStream : SendOutcome :=
  { streamNew := false, ensureCapacity := true, writeStatus := 0 }

/-- A send in which the channel `Write` returns the error code 1. -/
def sendWriteFails : SendOutcome :=
  { streamNew := true, ensureCapacity := true, writeStatus := 1 }

/-- The plugin with the two-slot table `sampleBegun`, before any cycle. -/
def samplePluginBegun : RDPEI_PLUGIN :=
  { freshPlugin with maxTouchContacts := 2, contactPoints := sampleBegun }

/-- The plugin `samplePluginBegun` after one aggregation cycle: one entry in the frame. -/
def samplePluginPending : RDPEI_PLUGIN :=
  { freshPlugin with
    maxTouchContacts := 2, contactPoints := sampleReported,
    frame := { contactCount := 1, frameOffset := 0 } }

/-! ## Byte streams and the CS_READY PDU -/

/-- The stream of the stream library, as far as this file uses it: the buffer
(bytes), the position and the length.  The library is not part of the
repository; its integer writers and readers are little-endian, the same byte
order on both sides. -/
structure wStream where
  buffer : List Nat
  pointer : Nat
  length : Nat
  deriving DecidableEq, Repr

/-- A stream from `Stream_New(NULL, size)` that did not fail; `junk` is the
content of the fresh buffer. -/
def Stream_New (junk : Nat → Nat) (size : Nat) : wStream :=
  { buffer := (List.range size).map junk, pointer := 0, length := size }

/-- The stream over a received buffer, at position 0. -/
def Stream_Of (data : List Nat) : wStream :=
  { buffer := data, pointer := 0, length := data.length }

/-- The call `Stream_Seek`. -/
def Stream_Seek (s : wStream) (offset : Nat) : wStream :=
  { s with pointer := s.pointer + offset }

/-- The call `Stream_SetPosition`. -/
def Stream_SetPosition (s : wStream) (position : Nat) : wStream :=
  { s with pointer := position }

/-- The call `Stream_SealLength`. -/
def Stream_SealLength (s : wStream) : wStream :=
  { s with length := s.pointer }

/-- Bytes put at the position; `none` when they do not fit in the buffer. -/
def Stream_Write (s : wStream) (bytes : List Nat) : Option wStream :=
  if s.pointer + bytes.length ≤ s.buffer.length then
    some { s with
           buffer := s.buffer.take s.pointer ++ bytes ++
             s.buffer.drop (s.pointer + bytes.length),
           pointer := s.pointer + bytes.length }
  else none

/-- The call `Stream_Write_UINT16`. -/
def Stream_Write_UINT16 (s : wStream) (v : Nat) : Option wStream :=
  Stream_Write s [v % 256, v / 256 % 256]

/-- The call `Stream_Write_UINT32`. -/
def Stream_Write_UINT32 (s : wStream) (v : Nat) : Option wStream :=
  Stream_Write s [v % 256, v / 256 % 256, v / 65536 % 256, v / 16777216 % 256]

/-- The call `Stream_Read_UINT16`; `none` when the buffer ends before. -/
def Stream_Read_UINT16 (s : wStream) : Option (Nat × wStream) :=
  match s.buffer.drop s.pointer with
  | b0 :: b1 :: _ => some (b0 + 256 * b1, { s with pointer := s.pointer + 2 })
  | _ => none

/-- The call `Stream_Read_UINT32`; `none` when the buffer ends before. -/
def Stream_Read_UINT32 (s : wStream) : Option (Nat × wStream) :=
  match s.buffer.drop s.pointer with
  | b0 :: b1 :: b2 :: b3 :: _ =>
    some (b0 + 256 * b1 + 65536 * b2 + 16777216 * b3, { s with pointer := s.pointer + 4 })
  | _ => none

/-- The function `rdpei_send_pdu`: the header is put at position 0, then the
first `Stream_Length` bytes of the buffer go to the channel `Write`, whose
status is returned. -/
def rdpei_send_pdu (s : wStream) (eventId pduLength writeStatus : Nat) :
    Option (Nat × List Nat) :=
  match Stream_Write_UINT16 (Stream_SetPosition s 0) eventId with
  | none => none
  | some s1 =>
    match Stream_Write_UINT32 s1 pduLength with
    | none => none
    | some s2 =>
      let s3 := Stream_SetPosition s2 s2.length
      some (writeStatus, s3.buffer.take s3.length)

/-- The function `rdpei_send_cs_ready_pdu`: the returned `UINT` and the bytes
handed to the channel, if `Write` was reached. -/
def rdpei_send_cs_ready_pdu (maxTouchContacts : Nat) (junk : Nat → Nat)
    (env : SendOutcome) : Option (Nat × Option (List Nat)) :=
  let flags : Nat := 0 ||| READY_FLAGS_SHOW_TOUCH_VISUALS
  let pduLength : Nat := RDPINPUT_HEADER_LENGTH + 10
  if !env.streamNew then some (CHANNEL_RC_NO_MEMORY, none)
  else
    let s := Stream_Seek (Stream_New junk pduLength) RDPINPUT_HEADER_LENGTH
    match Stream_Write_UINT32 s flags with
    | none => none
    | some s1 =>
      match Stream_Write_UINT32 s1 RDPINPUT_PROTOCOL_V200 with
      | none => none
      | some s2 =>
        match Stream_Write_UINT16 s2 maxTouchContacts with
        | none => none
        | some s3 =>
          match rdpei_send_pdu (Stream_SealLength s3) EVENTID_CS_READY pduLength
              env.writeStatus with
          | none => none
          | some (status, bytes) => some (status, some bytes)

/-- The first two reads of `rdpei_recv_pdu`: the event kind (2 bytes) and the
PDU length (4 bytes) of a received buffer. -/
def rdpei_recv_pdu_header (data : List Nat) : Option (Nat × Nat) :=
  match Stream_Read_UINT16 (Stream_Of data) with
  | none => none
  | some (eventId, s1) =>
    match Stream_Read_UINT32 s1 with
    | none => none
    | some (pduLength, _) => some (eventId, pduLength)

/-! ## Inbound PDUs: `rdpei_recv_pdu` -/

/-- Modelled from the spec: the event kind SC_READY of the missing header
`rdpei.h` (index 1 of `RDPEI_EVENTID_STRINGS`). -/
def EVENTID_SC_READY : Nat := 0x0001

/-- Modelled from the spec: the event kind SUSPEND_TOUCH of the missing header
(index 4 of `RDPEI_EVENTID_STRINGS`). -/
def EVENTID_SUSPEND_TOUCH : Nat := 0x0004

/-- Modelled from the spec: the event kind RESUME_TOUCH of the missing header
(index 5 of `RDPEI_EVENTID_STRINGS`). -/
def EVENTID_RESUME_TOUCH : Nat := 0x0005

/-- The two host callbacks of `RdpeiClientContext` that `rdpei_main.c` calls. -/
inductive HostCall where
  | SuspendTouch
  | ResumeTouch
  deriving DecidableEq, Repr

/-- Modelled from the spec: the callback slots `SuspendTouch` and `ResumeTouch`
of the record `RdpeiClientContext` (missing header `rdpei.h`).  A slot is
`none` when no callback is installed (a NULL pointer); an installed callback
is given by the `UINT` that its call returns. -/
structure RdpeiClientContext where
  SuspendTouch : Option Nat
  ResumeTouch : Option Nat
  deriving DecidableEq, Repr

/-- Modelled from the spec: the macro `IFCALLRET(cb, ret, ...)` of the missing
header: when the callback is installed it is called once and `ret` takes its
result, otherwise `ret` keeps its value.  Gives the new `ret` and the calls
made. -/
def IFCALLRET (cb : Option Nat) (ret : Nat) (call : HostCall) : Nat × List HostCall :=
  match cb with
  | none => (ret, [])
  | some result => (result, [call])

/-- What `rdpei_recv_pdu` leaves behind: the plugin, the returned `UINT`, the
host callbacks invoked, in order, and the buffers handed to the channel
`Write`, in order. -/
structure RecvResult where
  plugin : RDPEI_PLUGIN
  error : Nat
  calls : List HostCall
  sent : List (List Nat)
  deriving DecidableEq, Repr

/-- The function `rdpei_recv_sc_ready_pdu`: the protocol version is read (4
bytes) and not looked at, the check being compiled out (`#if 0`). -/
def rdpei_recv_sc_ready_pdu (s : wStream) : Option (Nat × wStream) :=
  match Stream_Read_UINT32 s with
  | none => none
  | some (_, s1) => some (CHANNEL_RC_OK, s1)

/-- The function `rdpei_recv_suspend_touch_pdu`. -/
def rdpei_recv_suspend_touch_pdu (context : RdpeiClientContext) : Nat × List HostCall :=
  let error : Nat := CHANNEL_RC_OK
  IFCALLRET context.SuspendTouch error HostCall.SuspendTouch

/-- The function `rdpei_recv_resume_touch_pdu`. -/
def rdpei_recv_resume_touch_pdu (context : RdpeiClientContext) : Nat × List HostCall :=
  let error : Nat := CHANNEL_RC_OK
  IFCALLRET context.ResumeTouch error HostCall.ResumeTouch

/-- The function `rdpei_recv_pdu` on a received buffer: the header is read,
then the `switch` on the event kind.  `junk` and `env` are the fresh buffer
and the outcomes of the reply that SC_READY triggers.  A read past the end of
the buffer gives `none`. -/
def rdpei_recv_pdu (rdpei : RDPEI_PLUGIN) (context : RdpeiClientContext) (data : List Nat)
    (junk : Nat → Nat) (env : SendOutcome) : Option RecvResult :=
  match Stream_Read_UINT16 (Stream_Of data) with
  | none => none
  | some (eventId, s1) =>
    match Stream_Read_UINT32 s1 with
    | none => none
    | some (_, s2) =>
      if eventId = EVENTID_SC_READY then
        match rdpei_recv_sc_ready_pdu s2 with
        | none => none
        | some (error, _) =>
          if error ≠ 0 then
            some { plugin := rdpei, error := error, calls := [], sent := [] }
          else
            match rdpei_send_cs_ready_pdu rdpei.maxTouchContacts junk env with
            | none => none
            | some (error, handed) =>
              if error ≠ 0 then
                some { plugin := rdpei, error := error, calls := [], sent := handed.toList }
              else
                some { plugin := rdpei, error := CHANNEL_RC_OK, calls := [],
                       sent := handed.toList }
      else if eventId = EVENTID_SUSPEND_TOUCH then
        let received := rdpei_recv_suspend_touch_pdu context
        if received.1 ≠ 0 then
          some { plugin := rdpei, error := received.1, calls := received.2, sent := [] }
        else
          some { plugin := rdpei, error := CHANNEL_RC_OK, calls := received.2, sent := [] }
      else if eventId = EVENTID_RESUME_TOUCH then
        let received := rdpei_recv_resume_touch_pdu context
        if received.1 ≠ 0 then
          some { plugin := rdpei, error := received.1, calls := received.2, sent := [] }
        else
          some { plugin := rdpei, error := CHANNEL_RC_OK, calls := received.2, sent := [] }
      else
        some { plugin := rdpei, error := CHANNEL_RC_OK, calls := [], sent := [] }

/-- The bytes of a PDU header: event kind (2 bytes) and length (4 bytes),
little-endian. -/
def headerBytes (eventId pduLength : Nat) : List Nat :=
  [eventId % 256, eventId / 256 % 256, pduLength % 256, pduLength / 256 % 256,
   pduLength / 65536 % 256, pduLength / 16777216 % 256]

/-- A SUSPEND_TOUCH PDU: the header alone. -/
def sampleSuspendPdu : List Nat := headerBytes EVENTID_SUSPEND_TOUCH 6

/-- A RESUME_TOUCH PDU: the header alone. -/
def sampleResumePdu : List Nat := headerBytes EVENTID_RESUME_TOUCH 6

/-- An SC_READY PDU that announces the protocol version 0x00010000. -/
def sampleScReadyPdu : List Nat := headerBytes EVENTID_SC_READY 10 ++ [0, 0, 1, 0]

/-- A PDU of the event kind 6 (dismiss hovering contact), which the `switch`
does not handle. -/
def sampleOtherPdu : List Nat := headerBytes 6 7 ++ [3]

/-- A host whose `SuspendTouch` fails with code 31 and whose `ResumeTouch`
succeeds. -/
def sampleHost : RdpeiClientContext :=
  { SuspendTouch := some 31, ResumeTouch := some 0 }

/-- A host with no callback installed. -/
def sampleNoHost : RdpeiClientContext :=
  { SuspendTouch := none, ResumeTouch := none }

/-- The status that one send attempt returns, as a function of the outcomes of
that attempt alone: no stream or no capacity gives `CHANNEL_RC_NO_MEMORY`,
otherwise the status of the channel `Write`. -/
def sendStatus (env : SendOutcome) : Nat :=
  if !env.streamNew then CHANNEL_RC_NO_MEMORY
  else if !env.ensureCapacity then CHANNEL_RC_NO_MEMORY
  else env.writeStatus

/-- A received buffer that `rdpei_recv_pdu` can read: the 6 bytes of the header
are there, and for SC_READY the 4 bytes of the protocol version too. -/
def ReadablePdu (data : List Nat) : Prop :=
  match rdpei_recv_pdu_header data with
  | none => False
  | some (eventId, _) => eventId = EVENTID_SC_READY → 10 ≤ data.length

instance decidableReadablePdu (data : List Nat) : Decidable (ReadablePdu data) := by
  unfold ReadablePdu
  split <;> infer_instance

/-! ## The dispatch loop `rdpei_schedule_thread` -/

theorem modify_modify_same {α : Type} (f g : α → α) :
    ∀ (l : List α) (i : Nat), (l.modify f i).modify g i = l.modify (fun a => g (f a)) i
  | [], i => by cases i <;> simp [List.modify]
  | a :: l, 0 => by simp
  | a :: l, i + 1 => by simp [modify_modify_same f g l i]

theorem modify_append_cons {α : Type} (f : α → α) (pre : List α) (a : α) (post : List α) :
    (pre ++ a :: post).modify f pre.length = pre ++ f a :: post := by
  induction pre with
  | nil => simp
  | cons b pre ih => simp [ih]

theorem getElem?_append_cons_self {α : Type} (pre : List α) (a : α) (post : List α) :
    (pre ++ a :: post)[pre.length]? = some a := by
  simp [List.getElem?_append_right (Nat.le_refl pre.length)]

theorem getElem?_append_cons_ne {α : Type} (pre : List α) (a b : α) (post : List α)
    (j : Nat) (hj : j ≠ pre.length) :
    (pre ++ a :: post)[j]? = (pre ++ b :: post)[j]? := by
  rcases Nat.lt_or_gt_of_ne hj with h | h
  · simp [List.getElem?_append_left h]
  · have h1 : pre.length ≤ j := Nat.le_of_lt h
    obtain ⟨k, hk⟩ : ∃ k, j - pre.length = k + 1 := ⟨j - pre.length - 1, by omega⟩
    simp [List.getElem?_append_right h1, hk]

theorem range_map_shift (n k : Nat) :
    (List.range (n + 1)).map (fun i => some (((k + i : Nat) : Int))) =
      some ((k : Nat) : Int) ::
        (List.range n).map (fun i => some (((k + 1 + i : Nat) : Int))) := by
  rw [List.range_succ_eq_map, List.map_cons, List.map_map]
  refine congrArg₂ _ rfl (List.map_congr_left ?_)
  intro i _
  simp only [Function.comp]
  have : k + (i + 1) = k + 1 + i := by omega
  rw [this]

/-! ## The two lookup loops -/

theorem findInactive_none (t : List RDPINPUT_CONTACT_POINT) (k : Nat) :
    findInactive t k = none ↔ ∀ p ∈ t, p.active = true := by
  induction t generalizing k with
  | nil => simp [findInactive]
  | cons a t ih =>
    cases ha : a.active <;> simp [findInactive, ha, ih]

theorem findInactive_some (t : List RDPINPUT_CONTACT_POINT) (k j : Nat) :
    findInactive t k = some j ↔
      ∃ pre p post, t = pre ++ p :: post ∧ j = k + pre.length ∧
        (∀ q ∈ pre, q.active = true) ∧ p.active = false := by
  induction t generalizing k with
  | nil => simp [findInactive]
  | cons a t ih =>
    cases ha : a.active
    · simp only [findInactive, ha, Bool.not_false, if_true, Option.some.injEq]
      constructor
      · intro h
        exact ⟨[], a, t, rfl, by simp [h], by simp, ha⟩
      · rintro ⟨pre, p, post, ht, hj, hpre, hp⟩
        cases pre with
        | nil => simp [hj]
        | cons b pre =>
          simp only [List.cons_append, List.cons.injEq] at ht
          have := hpre b (by simp)
          rw [← ht.1, ha] at this
          cases this
    · simp only [findInactive, ha, Bool.not_true, Bool.false_eq_true, if_false, ih]
      constructor
      · rintro ⟨pre, p, post, ht, hj, hpre, hp⟩
        refine ⟨a :: pre, p, post, by simp [ht], by simp [hj]; omega, ?_, hp⟩
        intro q hq
        rcases List.mem_cons.1 hq with h | h
        · rw [h]; exact ha
        · exact hpre q h
      · rintro ⟨pre, p, post, ht, hj, hpre, hp⟩
        cases pre with
        | nil =>
          simp only [List.nil_append, List.cons.injEq] at ht
          rw [ht.1, hp] at ha
          cases ha
        | cons b pre =>
          simp only [List.cons_append, List.cons.injEq] at ht
          refine ⟨pre, p, post, ht.2, by simp at hj; omega, ?_, hp⟩
          intro q hq
          exact hpre q (by simp [hq])

theorem findExternal_none (e : Int) (t : List RDPINPUT_CONTACT_POINT) (k : Nat) :
    findExternal e t k = none ↔ ∀ p ∈ t, p.active = true → p.externalId ≠ e := by
  induction t generalizing k with
  | nil => simp [findExternal]
  | cons a t ih =>
    cases ha : a.active
    · simp [findExternal, ha, ih]
    · by_cases he : a.externalId = e <;> simp [findExternal, ha, he, ih]

theorem findExternal_some (e : Int) (t : List RDPINPUT_CONTACT_POINT) (k j : Nat)
    (p : RDPINPUT_CONTACT_POINT) :
    findExternal e t k = some (j, p) ↔
      ∃ pre post, t = pre ++ p :: post ∧ j = k + pre.length ∧
        (∀ q ∈ pre, q.active = true → q.externalId ≠ e) ∧
        p.active = true ∧ p.externalId = e := by
  induction t generalizing k with
  | nil => simp [findExternal]
  | cons a t ih =>
    by_cases hm : a.active = true ∧ a.externalId = e
    · have h1 : findExternal e (a :: t) k = some (k, a) := by
        simp [findExternal, hm.1, hm.2]
      rw [h1]
      constructor
      · intro h
        simp only [Option.some.injEq, Prod.mk.injEq] at h
        exact ⟨[], t, by simp [h.2], by simp [h.1], by simp, h.2 ▸ hm.1, h.2 ▸ hm.2⟩
      · rintro ⟨pre, post, ht, hj, hpre, -, -⟩
        cases pre with
        | nil =>
          simp only [List.nil_append, List.cons.injEq] at ht
          simp [hj, ht.1]
        | cons b pre =>
          simp only [List.cons_append, List.cons.injEq] at ht
          have := hpre b (by simp)
          rw [← ht.1] at this
          exact absurd hm.2 (this hm.1)
    · have h1 : findExternal e (a :: t) k = findExternal e t (k + 1) := by
        cases ha : a.active
        · simp [findExternal, ha]
        · have : ¬ a.externalId = e := fun h => hm ⟨ha, h⟩
          simp [findExternal, ha, this]
      rw [h1, ih]
      constructor
      · rintro ⟨pre, post, ht, hj, hpre, hp⟩
        refine ⟨a :: pre, post, by simp [ht], by simp [hj]; omega, ?_, hp⟩
        intro q hq hqa
        rcases List.mem_cons.1 hq with h | h
        · intro hqe
          exact hm ⟨h ▸ hqa, h ▸ hqe⟩
        · exact hpre q h hqa
      · rintro ⟨pre, post, ht, hj, hpre, hp⟩
        cases pre with
        | nil =>
          simp only [List.nil_append, List.cons.injEq] at ht
          exact absurd (ht.1 ▸ hp) hm
        | cons b pre =>
          simp only [List.cons_append, List.cons.injEq] at ht
          refine ⟨pre, post, ht.2, by simp at hj; omega, ?_, hp⟩
          intro q hq
          exact hpre q (by simp [hq])

/-! ## Closed forms of the operations -/

theorem rdpei_touch_begin_full (t : List RDPINPUT_CONTACT_POINT) (e x y : Int)
    (h : ∀ p ∈ t, p.active = true) :
    rdpei_touch_begin t e x y =
      some { contactPoints := t, error := CHANNEL_RC_OK, contactId := some (-1) } := by
  have h0 := (findInactive_none t 0).2 h
  simp [rdpei_touch_begin, h0]

theorem rdpei_touch_begin_free (pre post : List RDPINPUT_CONTACT_POINT)
    (p : RDPINPUT_CONTACT_POINT) (e x y : Int)
    (hpre : ∀ q ∈ pre, q.active = true) (hp : p.active = false) :
    rdpei_touch_begin (pre ++ p :: post) e x y =
      some { contactPoints := pre ++ beganPoint pre.length e x y p :: post,
             error := CHANNEL_RC_OK, contactId := some (pre.length : Int) } := by
  have h0 : findInactive (pre ++ p :: post) 0 = some pre.length :=
    (findInactive_some _ 0 _).2 ⟨pre, p, post, rfl, by simp, hpre, hp⟩
  simp only [rdpei_touch_begin, h0, rdpei_add_contact, modify_modify_same,
    modify_append_cons, List.length_modify, List.length_append, List.length_cons]
  simp [beganPoint, downContact]

theorem toInt32_of_lt (n : Nat) (h : n < 2 ^ 31) : toInt32 n = (n : Int) := by
  have h1 : n % 2 ^ 32 = n := Nat.mod_eq_of_lt (by omega)
  unfold toInt32
  rw [h1, if_pos h]

theorem toUInt32_natCast (n : Nat) (h : n < 2 ^ 31) : toUInt32 (n : Int) = n := by
  unfold toUInt32
  have h1 : ((n : Int) % 2 ^ 32) = (n : Int) := Int.emod_eq_of_lt (by omega) (by omega)
  rw [h1]
  simp

theorem rdpei_add_contact_at (pre post : List RDPINPUT_CONTACT_POINT)
    (p : RDPINPUT_CONTACT_POINT) (c : RDPINPUT_CONTACT_DATA) (hc : c.contactId = pre.length) :
    rdpei_add_contact (pre ++ p :: post) c =
      some (pre ++ { p with data := c, dirty := true } :: post, CHANNEL_RC_OK) := by
  simp [rdpei_add_contact, hc, modify_append_cons]

theorem rdpei_touch_update_found (pre post : List RDPINPUT_CONTACT_POINT)
    (p : RDPINPUT_CONTACT_POINT) (e x y : Int)
    (hpre : ∀ q ∈ pre, q.active = true → q.externalId ≠ e)
    (hpa : p.active = true) (hpe : p.externalId = e)
    (hid : p.contactId = pre.length) (hlt : pre.length < 2 ^ 31) :
    rdpei_touch_update (pre ++ p :: post) e x y =
      some { contactPoints := pre ++ updatedPoint pre.length x y p :: post,
             error := CHANNEL_RC_OK, contactId := some (pre.length : Int) } := by
  have h0 : findExternal e (pre ++ p :: post) 0 = some (pre.length, p) :=
    (findExternal_some e _ 0 _ p).2 ⟨pre, post, rfl, by simp, hpre, hpa, hpe⟩
  have h1 : toInt32 p.contactId = (pre.length : Int) := by rw [hid, toInt32_of_lt _ hlt]
  have h2 : (0 : Int) ≤ (pre.length : Int) := Int.natCast_nonneg _
  simp only [rdpei_touch_update, h0, h1, ge_iff_le, h2, if_true, modify_append_cons,
    toUInt32_natCast _ hlt]
  rw [rdpei_add_contact_at pre post _ _ rfl]
  simp [updatedPoint, updateContact]

theorem rdpei_touch_end_release_at (pre post : List RDPINPUT_CONTACT_POINT)
    (p : RDPINPUT_CONTACT_POINT) (x y : Int) (hlt : pre.length < 2 ^ 31) :
    rdpei_touch_end_release (pre ++ p :: post) pre.length x y (pre.length : Int) =
      some { contactPoints :=
               pre ++ { p with
                        data := upContact pre.length x y, dirty := true,
                        externalId := 0, active := false, flags := 0, contactId := 0,
                        state := RDPINPUT_CONTACT_STATE_OUT_OF_RANGE } :: post,
             error := CHANNEL_RC_OK, contactId := some (pre.length : Int) } := by
  simp only [rdpei_touch_end_release, toUInt32_natCast _ hlt]
  rw [rdpei_add_contact_at pre post _ _ rfl]
  simp [CHANNEL_RC_OK, modify_append_cons, upContact]

theorem rdpei_touch_end_found (pre post : List RDPINPUT_CONTACT_POINT)
    (p : RDPINPUT_CONTACT_POINT) (e x y : Int)
    (hpre : ∀ q ∈ pre, q.active = true → q.externalId ≠ e)
    (hpa : p.active = true) (hpe : p.externalId = e)
    (hid : p.contactId = pre.length) (hlt : pre.length < 2 ^ 31) :
    rdpei_touch_end (pre ++ p :: post) e x y =
      some { contactPoints := pre ++ endedPoint pre.length x y p :: post,
             error := CHANNEL_RC_OK, contactId := some (pre.length : Int) } := by
  have h0 : findExternal e (pre ++ p :: post) 0 = some (pre.length, p) :=
    (findExternal_some e _ 0 _ p).2 ⟨pre, post, rfl, by simp, hpre, hpa, hpe⟩
  have h1 : toInt32 p.contactId = (pre.length : Int) := by rw [hid, toInt32_of_lt _ hlt]
  have h2 : (0 : Int) ≤ (pre.length : Int) := Int.natCast_nonneg _
  simp only [rdpei_touch_end, h0, h1, ge_iff_le, h2, if_true]
  by_cases hboth : p.lastX ≠ x ∧ p.lastY ≠ y
  · rw [if_pos hboth, rdpei_touch_update_found pre post p e x y hpre hpa hpe hid hlt]
    simp only [CHANNEL_RC_OK, ne_eq, not_true_eq_false, if_false]
    rw [rdpei_touch_end_release_at pre post _ x y hlt]
    simp [endedPoint, updatedPoint, hboth, CHANNEL_RC_OK]
  · rw [if_neg hboth, rdpei_touch_end_release_at pre post _ x y hlt]
    simp [endedPoint, hboth]

theorem touch_update_end_unknown_contact_aux (t : List RDPINPUT_CONTACT_POINT) (e x y : Int)
    (hunknown : ∀ p ∈ t, p.active = true → p.externalId ≠ e) :
    rdpei_touch_update t e x y =
        some { contactPoints := t, error := CHANNEL_RC_OK, contactId := some (-1) } ∧
    rdpei_touch_end t e x y =
        some { contactPoints := t, error := CHANNEL_RC_OK, contactId := some (-1) } := by
  have h0 := (findExternal_none e t 0).2 hunknown
  constructor
  · simp [rdpei_touch_update, h0]
  · simp [rdpei_touch_end, h0]

/-! ## Effect of each operation on a table whose active slots store their index -/

theorem ownIndex_at (pre post : List RDPINPUT_CONTACT_POINT) (p : RDPINPUT_CONTACT_POINT)
    (h : OwnIndex (pre ++ p :: post)) (hp : p.active = true) : p.contactId = pre.length :=
  h pre.length p (getElem?_append_cons_self pre p post) hp

theorem ownIndex_replace (pre post : List RDPINPUT_CONTACT_POINT)
    (p p' : RDPINPUT_CONTACT_POINT) (h : OwnIndex (pre ++ p :: post))
    (hp' : p'.active = true → p'.contactId = pre.length) :
    OwnIndex (pre ++ p' :: post) := by
  intro j q hj hq
  by_cases hjs : j = pre.length
  · subst hjs
    rw [getElem?_append_cons_self] at hj
    simp only [Option.some.injEq] at hj
    subst hj
    exact hp' hq
  · rw [getElem?_append_cons_ne pre p' p post j hjs] at hj
    exact h j q hj hq

theorem exists_split_at {α : Type} (t : List α) (i : Nat) (h : i < t.length) :
    ∃ pre a post, t = pre ++ a :: post ∧ pre.length = i := by
  refine ⟨t.take i, t[i], t.drop (i + 1), ?_, ?_⟩
  · rw [← List.drop_eq_getElem_cons h, List.take_append_drop]
  · simp [List.length_take]; omega

theorem rdpei_touch_begin_effect (t : List RDPINPUT_CONTACT_POINT) (e x y : Int) :
    ((∀ p ∈ t, p.active = true) ∧
      rdpei_touch_begin t e x y =
        some { contactPoints := t, error := CHANNEL_RC_OK, contactId := some (-1) }) ∨
    ∃ pre p post, t = pre ++ p :: post ∧ (∀ q ∈ pre, q.active = true) ∧ p.active = false ∧
      rdpei_touch_begin t e x y =
        some { contactPoints := pre ++ beganPoint pre.length e x y p :: post,
               error := CHANNEL_RC_OK, contactId := some (pre.length : Int) } := by
  cases hfind : findInactive t 0 with
  | none =>
    have hall := (findInactive_none t 0).1 hfind
    exact Or.inl ⟨hall, rdpei_touch_begin_full t e x y hall⟩
  | some i =>
    obtain ⟨pre, p, post, ht, -, hpre, hp⟩ := (findInactive_some t 0 i).1 hfind
    subst ht
    exact Or.inr ⟨pre, p, post, rfl, hpre, hp, rdpei_touch_begin_free pre post p e x y hpre hp⟩

theorem findExternal_split (t : List RDPINPUT_CONTACT_POINT) (e : Int)
    (hown : OwnIndex t) (hlen : t.length ≤ MAX_CONTACTS) :
    (∀ p ∈ t, p.active = true → p.externalId ≠ e) ∨
    ∃ pre p post, t = pre ++ p :: post ∧ findExternal e t 0 = some (pre.length, p) ∧
      (∀ q ∈ pre, q.active = true → q.externalId ≠ e) ∧
      p.active = true ∧ p.externalId = e ∧ p.contactId = pre.length ∧ pre.length < 2 ^ 31 := by
  cases hfind : findExternal e t 0 with
  | none => exact Or.inl ((findExternal_none e t 0).1 hfind)
  | some ip =>
    obtain ⟨i, p⟩ := ip
    obtain ⟨pre, post, ht, hi, hpre, hpa, hpe⟩ := (findExternal_some e t 0 i p).1 hfind
    subst ht
    have hlt : pre.length < 2 ^ 31 := by
      simp only [List.length_append, List.length_cons, MAX_CONTACTS] at hlen
      omega
    refine Or.inr ⟨pre, p, post, rfl, ?_, hpre, hpa, hpe, ownIndex_at pre post p hown hpa, hlt⟩
    simp [hi]

theorem rdpei_touch_update_effect (t : List RDPINPUT_CONTACT_POINT) (e x y : Int)
    (hown : OwnIndex t) (hlen : t.length ≤ MAX_CONTACTS) :
    ((∀ p ∈ t, p.active = true → p.externalId ≠ e) ∧
      rdpei_touch_update t e x y =
        some { contactPoints := t, error := CHANNEL_RC_OK, contactId := some (-1) }) ∨
    ∃ pre p post, t = pre ++ p :: post ∧ findExternal e t 0 = some (pre.length, p) ∧
      p.active = true ∧ p.externalId = e ∧
      rdpei_touch_update t e x y =
        some { contactPoints := pre ++ updatedPoint pre.length x y p :: post,
               error := CHANNEL_RC_OK, contactId := some (pre.length : Int) } := by
  rcases findExternal_split t e hown hlen with h | ⟨pre, p, post, ht, hf, hpre, hpa, hpe, hid, hlt⟩
  · exact Or.inl ⟨h, (touch_update_end_unknown_contact_aux t e x y h).1⟩
  · refine Or.inr ⟨pre, p, post, ht, hf, hpa, hpe, ?_⟩
    rw [ht]
    exact rdpei_touch_update_found pre post p e x y hpre hpa hpe hid hlt

theorem rdpei_touch_end_effect (t : List RDPINPUT_CONTACT_POINT) (e x y : Int)
    (hown : OwnIndex t) (hlen : t.length ≤ MAX_CONTACTS) :
    ((∀ p ∈ t, p.active = true → p.externalId ≠ e) ∧
      rdpei_touch_end t e x y =
        some { contactPoints := t, error := CHANNEL_RC_OK, contactId := some (-1) }) ∨
    ∃ pre p post, t = pre ++ p :: post ∧ findExternal e t 0 = some (pre.length, p) ∧
      p.active = true ∧ p.externalId = e ∧
      rdpei_touch_end t e x y =
        some { contactPoints := pre ++ endedPoint pre.length x y p :: post,
               error := CHANNEL_RC_OK, contactId := some (pre.length : Int) } := by
  rcases findExternal_split t e hown hlen with h | ⟨pre, p, post, ht, hf, hpre, hpa, hpe, hid, hlt⟩
  · exact Or.inl ⟨h, (touch_update_end_unknown_contact_aux t e x y h).2⟩
  · refine Or.inr ⟨pre, p, post, ht, hf, hpa, hpe, ?_⟩
    rw [ht]
    exact rdpei_touch_end_found pre post p e x y hpre hpa hpe hid hlt

theorem rdpei_add_contact_effect (t t' : List RDPINPUT_CONTACT_POINT)
    (c : RDPINPUT_CONTACT_DATA) (err : Nat) (h : rdpei_add_contact t c = some (t', err)) :
    ∃ pre p post, t = pre ++ p :: post ∧ pre.length = c.contactId ∧ err = CHANNEL_RC_OK ∧
      t' = pre ++ { p with data := c, dirty := true } :: post := by
  by_cases hlt : c.contactId < t.length
  · obtain ⟨pre, p, post, ht, hpre⟩ := exists_split_at t c.contactId hlt
    subst ht
    rw [rdpei_add_contact_at pre post p c hpre.symm] at h
    simp only [Option.some.injEq, Prod.mk.injEq] at h
    exact ⟨pre, p, post, rfl, hpre, h.2.symm, h.1.symm⟩
  · simp [rdpei_add_contact, hlt] at h

theorem touchBeginAll_fill (post : List RDPINPUT_CONTACT_POINT) :
    ∀ (pre : List RDPINPUT_CONTACT_POINT) (calls : List (Int × Int × Int)),
      (∀ q ∈ pre, q.active = true) → (∀ q ∈ post, q.active = false) →
      calls.length = post.length →
      ∃ t', touchBeginAll (pre ++ post) calls =
          some (t', (List.range post.length).map
                      (fun i => some (((pre.length + i : Nat) : Int)))) ∧
        t'.length = pre.length + post.length ∧ ∀ q ∈ t', q.active = true := by
  induction post with
  | nil =>
    intro pre calls hpre _ hlen
    have hc : calls = [] := List.length_eq_zero.1 (by simpa using hlen)
    subst hc
    exact ⟨pre, by simp [touchBeginAll], by simp, by simpa using hpre⟩
  | cons p post ih =>
    intro pre calls hpre hpost hlen
    match calls, hlen with
    | (e, x, y) :: calls, hlen =>
      have hp : p.active = false := hpost p (by simp)
      have hpre' : ∀ q ∈ pre ++ [beganPoint pre.length e x y p], q.active = true := by
        intro q hq
        rcases List.mem_append.1 hq with h | h
        · exact hpre q h
        · rw [List.mem_singleton.1 h]; rfl
      obtain ⟨t', hrun, hlen', hact⟩ :=
        ih (pre ++ [beganPoint pre.length e x y p]) calls hpre'
          (fun q hq => hpost q (by simp [hq])) (by simpa using hlen)
      refine ⟨t', ?_, ?_, hact⟩
      · have hstep := rdpei_touch_begin_free pre post p e x y hpre hp
        have happ : pre ++ beganPoint pre.length e x y p :: post =
            (pre ++ [beganPoint pre.length e x y p]) ++ post := by simp
        simp only [touchBeginAll, hstep, happ, hrun, List.length_cons, range_map_shift,
          List.length_append, List.length_singleton, List.length_nil, Nat.zero_add]
      · simp only [List.length_append, List.length_singleton] at hlen'
        simp only [List.length_cons]
        omega

/-! ## The aggregation cycle, slot by slot -/

theorem rdpei_add_frame_loop_eq (t : List RDPINPUT_CONTACT_POINT) :
    ∀ contacts : List RDPINPUT_CONTACT_DATA,
      contacts.length + t.length ≤ MAX_CONTACTS →
      rdpei_add_frame_loop t contacts =
        some (t.map afterCycle, contacts ++ t.filterMap frameEntry) := by
  induction t with
  | nil => intro contacts _; simp [rdpei_add_frame_loop]
  | cons p t ih =>
    intro contacts hlen
    simp only [List.length_cons] at hlen
    have hlt : contacts.length < MAX_CONTACTS := by omega
    cases hd : p.dirty
    · cases ha : p.active
      · have h := ih contacts (by omega)
        simp [rdpei_add_frame_loop, hd, ha, h, afterCycle, frameEntry]
      · have h := ih (contacts ++ [continuedContact p.data])
          (by simp only [List.length_append, List.length_singleton]; omega)
        simp [continuedContact] at h
        simp [rdpei_add_frame_loop, hd, ha, hlt, h, afterCycle, frameEntry, continuedContact]
    · have h := ih (contacts ++ [p.data])
        (by simp only [List.length_append, List.length_singleton]; omega)
      simp [rdpei_add_frame_loop, hd, hlt, h, afterCycle, frameEntry]

theorem rdpei_add_frame_eq (t : List RDPINPUT_CONTACT_POINT) (hlen : t.length ≤ MAX_CONTACTS) :
    rdpei_add_frame t =
      some { contactPoints := t.map afterCycle,
             contactCount := (t.filterMap frameEntry).length,
             contacts := t.filterMap frameEntry, error := CHANNEL_RC_OK } := by
  simp [rdpei_add_frame, rdpei_add_frame_loop_eq t [] (by simpa using hlen)]

theorem aggregationCycles_eq (n : Nat) :
    ∀ t : List RDPINPUT_CONTACT_POINT, t.length ≤ MAX_CONTACTS →
      aggregationCycles n t =
        some ((List.range n).map (fun k => (t.map (afterCycle^[k])).filterMap frameEntry),
              t.map (afterCycle^[n])) := by
  induction n with
  | zero => intro t _; simp [aggregationCycles]
  | succ n ih =>
    intro t hlen
    have h := ih (t.map afterCycle) (by simpa using hlen)
    simp only [aggregationCycles, rdpei_add_frame_eq t hlen, h, List.map_map,
      List.range_succ_eq_map, List.map_cons, Function.iterate_zero, Function.iterate_succ]
    simp [Function.comp_def]

theorem continuedContact_flags_no_down (d : RDPINPUT_CONTACT_DATA) :
    (continuedContact d).contactFlags &&& CONTACT_FLAG_DOWN = 0 := by
  unfold continuedContact
  split
  · show ((CONTACT_FLAG_UPDATE ||| CONTACT_FLAG_INRANGE) ||| CONTACT_FLAG_INCONTACT)
      &&& CONTACT_FLAG_DOWN = 0
    decide
  · rename_i h
    simpa using h

theorem continuedContact_of_no_down (d : RDPINPUT_CONTACT_DATA)
    (h : d.contactFlags &&& CONTACT_FLAG_DOWN = 0) : continuedContact d = d := by
  simp [continuedContact, h]

theorem continuedContact_contactId (d : RDPINPUT_CONTACT_DATA) :
    (continuedContact d).contactId = d.contactId := by
  unfold continuedContact
  split <;> rfl

theorem continuedContact_downContact (i : Nat) (x y : Int) :
    continuedContact (downContact i x y) = updateContact i x y := by
  have h : ((CONTACT_FLAG_DOWN ||| CONTACT_FLAG_INRANGE) ||| CONTACT_FLAG_INCONTACT)
      &&& CONTACT_FLAG_DOWN ≠ 0 := by decide
  simp [continuedContact, downContact, updateContact, h]

theorem continuedContact_updateContact (i : Nat) (x y : Int) :
    continuedContact (updateContact i x y) = updateContact i x y := by
  apply continuedContact_of_no_down
  show ((CONTACT_FLAG_UPDATE ||| CONTACT_FLAG_INRANGE) ||| CONTACT_FLAG_INCONTACT)
      &&& CONTACT_FLAG_DOWN = 0
  decide

theorem continuedContact_idem (d : RDPINPUT_CONTACT_DATA) :
    continuedContact (continuedContact d) = continuedContact d :=
  continuedContact_of_no_down _ (continuedContact_flags_no_down d)

theorem frameEntry_afterCycle_no_down (q : RDPINPUT_CONTACT_POINT) (c : RDPINPUT_CONTACT_DATA)
    (h : frameEntry (afterCycle q) = some c) : c.contactFlags &&& CONTACT_FLAG_DOWN = 0 := by
  cases hd : q.dirty <;> cases ha : q.active <;>
    simp [afterCycle, frameEntry, hd, ha] at h
  · rw [← h, continuedContact_of_no_down _ (continuedContact_flags_no_down _)]
    exact continuedContact_flags_no_down _
  · rw [← h]
    exact continuedContact_flags_no_down _

theorem frameEntry_iterate_no_down (k : Nat) (q : RDPINPUT_CONTACT_POINT)
    (c : RDPINPUT_CONTACT_DATA) (h : frameEntry (afterCycle^[k + 1] q) = some c) :
    c.contactFlags &&& CONTACT_FLAG_DOWN = 0 := by
  rw [Function.iterate_succ_apply'] at h
  exact frameEntry_afterCycle_no_down _ c h

theorem frameEntry_iterate_source (k : Nat) :
    ∀ (q : RDPINPUT_CONTACT_POINT) (c : RDPINPUT_CONTACT_DATA),
      frameEntry (afterCycle^[k] q) = some c →
      c.contactId = q.data.contactId ∧ (q.dirty = true ∨ q.active = true) := by
  induction k with
  | zero =>
    intro q c h
    cases hd : q.dirty <;> cases ha : q.active <;>
      simp [frameEntry, hd, ha] at h <;> simp [← h, continuedContact_contactId]
  | succ k ih =>
    intro q c h
    rw [Function.iterate_succ_apply] at h
    obtain ⟨h1, h2⟩ := ih (afterCycle q) c h
    cases hd : q.dirty <;> cases ha : q.active <;>
      simp [afterCycle, hd, ha, continuedContact_contactId] at h1 h2 <;> simp [h1]

theorem afterCycle_iterate_continuing (k : Nat) :
    ∀ (q : RDPINPUT_CONTACT_POINT), q.dirty = false → q.active = true →
      frameEntry (afterCycle^[k] q) = some (continuedContact q.data) := by
  induction k with
  | zero =>
    intro q hd ha
    simp [frameEntry, hd, ha]
  | succ k ih =>
    intro q hd ha
    rw [Function.iterate_succ_apply]
    have h2 := ih (afterCycle q) (by simp [afterCycle, hd, ha]) (by simp [afterCycle, hd, ha])
    rw [h2]
    simp [afterCycle, hd, ha, continuedContact_idem]

theorem afterCycle_iterate_dirty_active (k : Nat) (q : RDPINPUT_CONTACT_POINT)
    (hd : q.dirty = true) (ha : q.active = true) :
    frameEntry (afterCycle^[k + 1] q) = some (continuedContact q.data) := by
  rw [Function.iterate_succ_apply]
  have h2 := afterCycle_iterate_continuing k (afterCycle q)
    (by simp [afterCycle, hd]) (by simp [afterCycle, hd, ha])
  rw [h2]
  simp [afterCycle, hd]

theorem afterCycle_iterate_beganPoint (k i : Nat) (e x y : Int) (p : RDPINPUT_CONTACT_POINT) :
    frameEntry (afterCycle^[k + 1] (beganPoint i e x y p)) = some (updateContact i x y) := by
  rw [afterCycle_iterate_dirty_active k _ rfl rfl]
  exact congrArg some (continuedContact_downContact i x y)

theorem rdpei_touch_begin_slot (t : List RDPINPUT_CONTACT_POINT) (e x y : Int)
    (r : TouchResult) (s : Nat)
    (hbegin : rdpei_touch_begin t e x y = some r) (hslot : r.contactId = some (s : Int)) :
    ∃ pre p post, t = pre ++ p :: post ∧ pre.length = s ∧ (∀ q ∈ pre, q.active = true) ∧
      p.active = false ∧ r.contactPoints = pre ++ beganPoint s e x y p :: post := by
  cases hfind : findInactive t 0 with
  | none =>
    rw [rdpei_touch_begin_full t e x y ((findInactive_none t 0).1 hfind)] at hbegin
    simp only [Option.some.injEq] at hbegin
    rw [← hbegin] at hslot
    simp only [Option.some.injEq] at hslot
    omega
  | some i =>
    obtain ⟨pre, p, post, ht, -, hpre, hp⟩ := (findInactive_some t 0 i).1 hfind
    subst ht
    rw [rdpei_touch_begin_free pre post p e x y hpre hp] at hbegin
    simp only [Option.some.injEq] at hbegin
    rw [← hbegin] at hslot ⊢
    simp only [Option.some.injEq, Nat.cast_inj] at hslot
    subst hslot
    exact ⟨pre, p, post, rfl, rfl, hpre, hp, rfl⟩

theorem frame_filter_other (k s : Nat) (l : List RDPINPUT_CONTACT_POINT)
    (h : ∀ q ∈ l, (q.dirty = true ∨ q.active = true) → q.data.contactId ≠ s) :
    (((l.map (afterCycle^[k])).filterMap frameEntry).filter
      (fun c => decide (c.contactId = s))) = [] := by
  rw [List.filter_eq_nil_iff]
  intro c hc
  obtain ⟨a, ha, hac⟩ := List.mem_filterMap.1 hc
  obtain ⟨q, hq, hqa⟩ := List.mem_map.1 ha
  subst hqa
  obtain ⟨h1, h2⟩ := frameEntry_iterate_source k q c hac
  have := h q hq h2
  simp only [decide_eq_true_eq]
  rw [h1]
  exact this

theorem mem_append_cons_getElem? {α : Type} (pre : List α) (a : α) (post : List α) (q : α)
    (hq : q ∈ pre ∨ q ∈ post) :
    ∃ j, j ≠ pre.length ∧ (pre ++ a :: post)[j]? = some q := by
  rcases hq with hq | hq
  · obtain ⟨n, hn⟩ := List.mem_iff_getElem?.1 hq
    have hlt : n < pre.length := (List.getElem?_eq_some.1 hn).1
    exact ⟨n, by omega, by rw [List.getElem?_append_left hlt]; exact hn⟩
  · obtain ⟨n, hn⟩ := List.mem_iff_getElem?.1 hq
    refine ⟨pre.length + (n + 1), by omega, ?_⟩
    rw [List.getElem?_append_right (by omega)]
    have : pre.length + (n + 1) - pre.length = n + 1 := by omega
    rw [this, List.getElem?_cons_succ]
    exact hn

theorem split_of_getElem? {α : Type} (t : List α) (s : Nat) (a : α) (h : t[s]? = some a) :
    ∃ pre post, t = pre ++ a :: post ∧ pre.length = s := by
  obtain ⟨hlt, ha⟩ := List.getElem?_eq_some.1 h
  obtain ⟨pre, b, post, ht, hpre⟩ := exists_split_at t s hlt
  refine ⟨pre, post, ?_, hpre⟩
  have hb : t[s]? = some b := by
    rw [ht, ← hpre]; exact getElem?_append_cons_self pre b post
  rw [h] at hb
  simp only [Option.some.injEq] at hb
  rw [hb]; exact ht

theorem resolves_iff_findExternal (t : List RDPINPUT_CONTACT_POINT) (e : Int) (s : Nat)
    (p : RDPINPUT_CONTACT_POINT) :
    Resolves t e s p ↔ findExternal e t 0 = some (s, p) := by
  rw [findExternal_some]
  constructor
  · rintro ⟨hs, hpa, hpe, hlow⟩
    obtain ⟨pre, post, ht, hpre⟩ := split_of_getElem? t s p hs
    refine ⟨pre, post, ht, by simp [hpre], ?_, hpa, hpe⟩
    intro q hq hqa
    obtain ⟨n, hn⟩ := List.mem_iff_getElem?.1 hq
    have hlt : n < pre.length := (List.getElem?_eq_some.1 hn).1
    refine hlow n q (by omega) ?_ hqa
    rw [ht, List.getElem?_append_left hlt]; exact hn
  · rintro ⟨pre, post, ht, hs, hpre, hpa, hpe⟩
    have hs' : s = pre.length := by simpa using hs
    subst hs'
    refine ⟨by rw [ht]; exact getElem?_append_cons_self pre p post, hpa, hpe, ?_⟩
    intro j q hj hq hqa
    rw [ht, List.getElem?_append_left hj] at hq
    exact hpre q (List.getElem?_mem hq) hqa

theorem resolves_split (t : List RDPINPUT_CONTACT_POINT) (e : Int) (s : Nat)
    (p : RDPINPUT_CONTACT_POINT) (hown : OwnIndex t) (hlen : t.length ≤ MAX_CONTACTS)
    (h : Resolves t e s p) :
    ∃ pre post, t = pre ++ p :: post ∧ pre.length = s ∧
      (∀ q ∈ pre, q.active = true → q.externalId ≠ e) ∧ p.active = true ∧
      p.externalId = e ∧ p.contactId = pre.length ∧ pre.length < 2 ^ 31 := by
  obtain ⟨pre, post, ht, hs, hpre, hpa, hpe⟩ :=
    (findExternal_some e t 0 s p).1 ((resolves_iff_findExternal t e s p).1 h)
  subst ht
  have hlt : pre.length < 2 ^ 31 := by
    simp only [List.length_append, List.length_cons, MAX_CONTACTS] at hlen
    omega
  exact ⟨pre, post, rfl, by simp [hs], hpre, hpa, hpe, ownIndex_at pre post p hown hpa, hlt⟩

theorem afterCycle_active (p : RDPINPUT_CONTACT_POINT) : (afterCycle p).active = p.active := by
  cases hd : p.dirty <;> cases ha : p.active <;> simp [afterCycle, hd, ha]

theorem afterCycle_dirty (p : RDPINPUT_CONTACT_POINT) : (afterCycle p).dirty = false := by
  cases hd : p.dirty <;> cases ha : p.active <;> simp [afterCycle, hd, ha]

/-! ## Invariants of the reachable tables -/

theorem reachableWith_inv (P : RDPINPUT_CONTACT_DATA → Prop)
    (t : List RDPINPUT_CONTACT_POINT) (h : ReachableWith P t) :
    t.length ≤ MAX_CONTACTS ∧ OwnIndex t ∧
      ∀ p ∈ t, p.dirty = true →
        p.active = true ∨ p.data.contactFlags = CONTACT_FLAG_UP ∨ P p.data := by
  have hrep : ∀ (pre post : List RDPINPUT_CONTACT_POINT) (p p' : RDPINPUT_CONTACT_POINT),
      ((pre ++ p :: post).length ≤ MAX_CONTACTS ∧ OwnIndex (pre ++ p :: post) ∧
        ∀ q ∈ pre ++ p :: post, q.dirty = true →
          q.active = true ∨ q.data.contactFlags = CONTACT_FLAG_UP ∨ P q.data) →
      (p'.active = true → p'.contactId = pre.length) →
      (p'.dirty = true →
          p'.active = true ∨ p'.data.contactFlags = CONTACT_FLAG_UP ∨ P p'.data) →
      ((pre ++ p' :: post).length ≤ MAX_CONTACTS ∧ OwnIndex (pre ++ p' :: post) ∧
        ∀ q ∈ pre ++ p' :: post, q.dirty = true →
          q.active = true ∨ q.data.contactFlags = CONTACT_FLAG_UP ∨ P q.data) := by
    intro pre post p p' ⟨h1, h2, h3⟩ hid hd
    refine ⟨by simpa using h1, ownIndex_replace pre post p p' h2 hid, ?_⟩
    intro q hq
    rcases List.mem_append.1 hq with hq | hq
    · exact h3 q (by simp [hq])
    · rcases List.mem_cons.1 hq with hq | hq
      · subst hq; exact hd
      · exact h3 q (by simp [hq])
  induction h with
  | init n hn =>
    refine ⟨by simpa [initialTable] using hn, ?_, ?_⟩
    · intro j p hj hp
      have hmem := List.getElem?_mem hj
      rw [initialTable, List.mem_replicate] at hmem
      rw [hmem.2] at hp
      cases hp
    · intro p hp hd
      rw [initialTable, List.mem_replicate] at hp
      rw [hp.2] at hd
      cases hd
  | @touchBegin t e x y r _ hr ih =>
    rcases rdpei_touch_begin_effect t e x y with ⟨-, h⟩ | ⟨pre, p, post, ht, -, -, h⟩
    · rw [h] at hr
      simp only [Option.some.injEq] at hr
      rw [← hr]; exact ih
    · rw [h] at hr
      simp only [Option.some.injEq] at hr
      rw [← hr]
      exact hrep pre post p _ (ht ▸ ih) (fun _ => rfl) (fun _ => Or.inl rfl)
  | @touchUpdate t e x y r _ hr ih =>
    rcases rdpei_touch_update_effect t e x y ih.2.1 ih.1 with
      ⟨-, h⟩ | ⟨pre, p, post, ht, -, hpa, -, h⟩
    · rw [h] at hr
      simp only [Option.some.injEq] at hr
      rw [← hr]; exact ih
    · rw [h] at hr
      simp only [Option.some.injEq] at hr
      rw [← hr]
      exact hrep pre post p _ (ht ▸ ih)
        (fun _ => ownIndex_at pre post p (ht ▸ ih.2.1) hpa) (fun _ => Or.inl hpa)
  | @touchEnd t e x y r _ hr ih =>
    rcases rdpei_touch_end_effect t e x y ih.2.1 ih.1 with
      ⟨-, h⟩ | ⟨pre, p, post, ht, -, hpa, -, h⟩
    · rw [h] at hr
      simp only [Option.some.injEq] at hr
      rw [← hr]; exact ih
    · rw [h] at hr
      simp only [Option.some.injEq] at hr
      rw [← hr]
      exact hrep pre post p _ (ht ▸ ih)
        (fun ha => by simp [endedPoint] at ha) (fun _ => Or.inr (Or.inl rfl))
  | @addContact t c t' err _ hP hr ih =>
    obtain ⟨pre, p, post, ht, -, -, ht'⟩ := rdpei_add_contact_effect t t' c err hr
    rw [ht']
    exact hrep pre post p _ (ht ▸ ih)
      (fun ha => ownIndex_at pre post p (ht ▸ ih.2.1) ha) (fun _ => Or.inr (Or.inr hP))
  | @addFrame t r _ hr ih =>
    rw [rdpei_add_frame_eq t ih.1] at hr
    simp only [Option.some.injEq] at hr
    rw [← hr]
    refine ⟨by simpa using ih.1, ?_, ?_⟩
    · intro j q hj hq
      rw [List.getElem?_map] at hj
      cases hp : t[j]? with
      | none => simp [hp] at hj
      | some p =>
        simp only [hp, Option.map_some', Option.some.injEq] at hj
        subst hj
        have hact : p.active = true := by
          cases hd : p.dirty <;> cases ha : p.active <;> simp [afterCycle, hd, ha] at hq ⊢
        have := ih.2.1 j p hp hact
        cases hd : p.dirty <;> cases ha : p.active <;> simp [afterCycle, hd, ha, this]
    · intro q hq hd
      obtain ⟨p, -, hpq⟩ := List.mem_map.1 hq
      subst hpq
      cases hd' : p.dirty <;> cases ha : p.active <;> simp [afterCycle, hd', ha] at hd

theorem ownData_replace (pre post : List RDPINPUT_CONTACT_POINT)
    (p p' : RDPINPUT_CONTACT_POINT) (h : OwnData (pre ++ p :: post))
    (hp' : (p'.dirty = true ∨ p'.active = true) → p'.data.contactId = pre.length) :
    OwnData (pre ++ p' :: post) := by
  intro j q hj hq
  by_cases hjs : j = pre.length
  · subst hjs
    rw [getElem?_append_cons_self] at hj
    simp only [Option.some.injEq] at hj
    subst hj
    exact hp' hq
  · rw [getElem?_append_cons_ne pre p' p post j hjs] at hj
    exact h j q hj hq

theorem reachableWith_ownData (P : RDPINPUT_CONTACT_DATA → Prop)
    (t : List RDPINPUT_CONTACT_POINT) (h : ReachableWith P t) : OwnData t := by
  induction h with
  | init n hn =>
    intro j p hj hp
    have hmem := List.getElem?_mem hj
    rw [initialTable, List.mem_replicate] at hmem
    rw [hmem.2] at hp
    simp [zeroPoint] at hp
  | @touchBegin t e x y r hprev hr ih =>
    rcases rdpei_touch_begin_effect t e x y with ⟨-, h⟩ | ⟨pre, p, post, ht, -, -, h⟩
    · rw [h] at hr
      simp only [Option.some.injEq] at hr
      rw [← hr]; exact ih
    · rw [h] at hr
      simp only [Option.some.injEq] at hr
      rw [← hr]
      exact ownData_replace pre post p _ (ht ▸ ih) (fun _ => rfl)
  | @touchUpdate t e x y r hprev hr ih =>
    obtain ⟨hlen, hown, -⟩ := reachableWith_inv P t hprev
    rcases rdpei_touch_update_effect t e x y hown hlen with
      ⟨-, h⟩ | ⟨pre, p, post, ht, -, -, -, h⟩
    · rw [h] at hr
      simp only [Option.some.injEq] at hr
      rw [← hr]; exact ih
    · rw [h] at hr
      simp only [Option.some.injEq] at hr
      rw [← hr]
      exact ownData_replace pre post p _ (ht ▸ ih) (fun _ => rfl)
  | @touchEnd t e x y r hprev hr ih =>
    obtain ⟨hlen, hown, -⟩ := reachableWith_inv P t hprev
    rcases rdpei_touch_end_effect t e x y hown hlen with
      ⟨-, h⟩ | ⟨pre, p, post, ht, -, -, -, h⟩
    · rw [h] at hr
      simp only [Option.some.injEq] at hr
      rw [← hr]; exact ih
    · rw [h] at hr
      simp only [Option.some.injEq] at hr
      rw [← hr]
      exact ownData_replace pre post p _ (ht ▸ ih) (fun _ => rfl)
  | @addContact t c t' err hprev hP hr ih =>
    obtain ⟨pre, p, post, ht, hc, -, ht'⟩ := rdpei_add_contact_effect t t' c err hr
    rw [ht']
    exact ownData_replace pre post p _ (ht ▸ ih) (fun _ => hc.symm)
  | @addFrame t r hprev hr ih =>
    obtain ⟨hlen, -, -⟩ := reachableWith_inv P t hprev
    rw [rdpei_add_frame_eq t hlen] at hr
    simp only [Option.some.injEq] at hr
    rw [← hr]
    intro j q hj hq
    rw [List.getElem?_map] at hj
    cases hp : t[j]? with
    | none => simp [hp] at hj
    | some p =>
      simp only [hp, Option.map_some', Option.some.injEq] at hj
      subst hj
      have hrep : p.dirty = true ∨ p.active = true := by
        cases hd : p.dirty <;> cases ha : p.active <;> simp [afterCycle, hd, ha] at hq ⊢
      have := ih j p hp hrep
      cases hd : p.dirty <;> cases ha : p.active <;>
        simp [afterCycle, hd, ha, this, continuedContact_contactId]

/-! ## One-shot reports along a session -/

theorem oneShotReports_append (l₁ l₂ : List RDPINPUT_CONTACT_POINT) :
    oneShotReports (l₁ ++ l₂) = oneShotReports l₁ ++ oneShotReports l₂ := by
  simp [oneShotReports]

theorem oneShotReports_cons_clean (p : RDPINPUT_CONTACT_POINT)
    (l : List RDPINPUT_CONTACT_POINT) (hp : p.dirty = false) :
    oneShotReports (p :: l) = oneShotReports l := by
  simp [oneShotReports, hp]

theorem oneShotReports_cons_dirty (p : RDPINPUT_CONTACT_POINT)
    (l : List RDPINPUT_CONTACT_POINT) (hp : p.dirty = true) :
    oneShotReports (p :: l) = p.data :: oneShotReports l := by
  simp [oneShotReports, hp]

theorem oneShotReports_afterCycle (t : List RDPINPUT_CONTACT_POINT) :
    oneShotReports (t.map afterCycle) = [] := by
  simp [oneShotReports, List.filter_eq_nil_iff, afterCycle_dirty]

theorem oneShotReports_sublist_frame (t : List RDPINPUT_CONTACT_POINT) :
    (oneShotReports t).Sublist (t.filterMap frameEntry) := by
  induction t with
  | nil => simp [oneShotReports]
  | cons p t ih =>
    cases hd : p.dirty
    · rw [oneShotReports_cons_clean p t hd, List.filterMap_cons]
      cases hf : frameEntry p with
      | none => exact ih
      | some c => exact ih.cons c
    · rw [oneShotReports_cons_dirty p t hd, List.filterMap_cons]
      have hf : frameEntry p = some p.data := by simp [frameEntry, hd]
      rw [hf]
      exact ih.cons₂ p.data

theorem slotDirty_at (pre post : List RDPINPUT_CONTACT_POINT) (p : RDPINPUT_CONTACT_POINT) :
    slotDirty (pre ++ p :: post) (pre.length : Int) = p.dirty := by
  have h : (pre ++ p :: post)[((pre.length : Nat) : Int).toNat]? = some p := by
    rw [Int.toNat_ofNat]; exact getElem?_append_cons_self pre p post
  unfold slotDirty
  rw [h]

theorem logCall_unknown (log : SessionLog) (t : List RDPINPUT_CONTACT_POINT) (err : Nat)
    (record : Nat → RDPINPUT_CONTACT_DATA) :
    logCall log { contactPoints := t, error := err, contactId := some (-1) } record =
      { log with contactPoints := t } := by
  simp [logCall]

theorem logCall_slot (log : SessionLog) (t : List RDPINPUT_CONTACT_POINT) (err i : Nat)
    (record : Nat → RDPINPUT_CONTACT_DATA) :
    logCall log { contactPoints := t, error := err, contactId := some (i : Int) } record =
      { log with
        contactPoints := t, recorded := log.recorded ++ [record i],
        overwrote := log.overwrote || slotDirty log.contactPoints (i : Int) } := by
  simp [logCall]

theorem perm_record_slot (recorded reported : List RDPINPUT_CONTACT_DATA)
    (pre post : List RDPINPUT_CONTACT_POINT) (p p' : RDPINPUT_CONTACT_POINT)
    (hp : p.dirty = false) (hp' : p'.dirty = true)
    (h : recorded.Perm (reported ++ oneShotReports (pre ++ p :: post))) :
    (recorded ++ [p'.data]).Perm (reported ++ oneShotReports (pre ++ p' :: post)) := by
  rw [oneShotReports_append, oneShotReports_cons_clean p post hp] at h
  rw [oneShotReports_append, oneShotReports_cons_dirty p' post hp', ← List.append_assoc]
  refine (List.perm_append_singleton _ _).trans ?_
  refine List.Perm.trans ?_ List.perm_middle.symm
  rw [List.append_assoc]
  exact h.cons _

theorem logCall_frames (log : SessionLog) (r : TouchResult)
    (record : Nat → RDPINPUT_CONTACT_DATA) :
    (logCall log r record).frames = log.frames ∧
      (logCall log r record).reported = log.reported ∧
      (logCall log r record).contactPoints = r.contactPoints := by
  unfold logCall
  split
  · split <;> exact ⟨rfl, rfl, rfl⟩
  · exact ⟨rfl, rfl, rfl⟩

theorem sessionStep_inv (log log' : SessionLog) (step : SessionStep)
    (hinv : SessionInv log) (hstep : sessionStep log step = some log') :
    SessionInv log' := by
  obtain ⟨hreach, hperm, hmem⟩ := hinv
  obtain ⟨hlen, hown, -⟩ := reachableWith_inv _ _ hreach
  have hcall : ∀ (r : TouchResult) (record : Nat → RDPINPUT_CONTACT_DATA),
      Reachable r.contactPoints →
      ((r = { contactPoints := log.contactPoints, error := CHANNEL_RC_OK,
              contactId := some (-1) }) ∨
        ∃ pre p post p', log.contactPoints = pre ++ p :: post ∧ p'.dirty = true ∧
          p'.data = record pre.length ∧
          r = { contactPoints := pre ++ p' :: post, error := CHANNEL_RC_OK,
                contactId := some (pre.length : Int) }) →
      SessionInv (logCall log r record) := by
    intro r record hreach' hr
    obtain ⟨hf1, hf2, hf3⟩ := logCall_frames log r record
    refine ⟨by rw [hf3]; exact hreach', ?_, by rw [hf1, hf2]; exact hmem⟩
    rcases hr with hr | ⟨pre, p, post, p', ht, hp', hdata, hr⟩
    · rw [hr, logCall_unknown]
      exact hperm
    · rw [hr, logCall_slot]
      intro hov
      simp only [Bool.or_eq_false_iff] at hov
      have hp : p.dirty = false := by
        have := hov.2
        rw [ht, slotDirty_at] at this
        exact this
      have h := hperm hov.1
      rw [ht] at h
      show (log.recorded ++ [record pre.length]).Perm
        (log.reported ++ oneShotReports (pre ++ p' :: post))
      rw [← hdata]
      exact perm_record_slot _ _ pre post p p' hp hp' h
  cases step with
  | touchBegin e x y =>
    simp only [sessionStep] at hstep
    cases hr : rdpei_touch_begin log.contactPoints e x y with
    | none => simp [hr] at hstep
    | some r =>
      simp only [hr, Option.some.injEq] at hstep
      subst hstep
      apply hcall _ _ (ReachableWith.touchBegin e x y hreach hr)
      rcases rdpei_touch_begin_effect log.contactPoints e x y with
        ⟨-, h⟩ | ⟨pre, p, post, ht, -, -, h⟩
      · left
        rw [h] at hr
        exact (Option.some.inj hr).symm
      · right
        rw [h] at hr
        exact ⟨pre, p, post, _, ht, rfl, rfl, (Option.some.inj hr).symm⟩
  | touchUpdate e x y =>
    simp only [sessionStep] at hstep
    cases hr : rdpei_touch_update log.contactPoints e x y with
    | none => simp [hr] at hstep
    | some r =>
      simp only [hr, Option.some.injEq] at hstep
      subst hstep
      apply hcall _ _ (ReachableWith.touchUpdate e x y hreach hr)
      rcases rdpei_touch_update_effect log.contactPoints e x y hown hlen with
        ⟨-, h⟩ | ⟨pre, p, post, ht, -, -, -, h⟩
      · left
        rw [h] at hr
        exact (Option.some.inj hr).symm
      · right
        rw [h] at hr
        exact ⟨pre, p, post, _, ht, rfl, rfl, (Option.some.inj hr).symm⟩
  | touchEnd e x y =>
    simp only [sessionStep] at hstep
    cases hr : rdpei_touch_end log.contactPoints e x y with
    | none => simp [hr] at hstep
    | some r =>
      simp only [hr, Option.some.injEq] at hstep
      subst hstep
      apply hcall _ _ (ReachableWith.touchEnd e x y hreach hr)
      rcases rdpei_touch_end_effect log.contactPoints e x y hown hlen with
        ⟨-, h⟩ | ⟨pre, p, post, ht, -, -, -, h⟩
      · left
        rw [h] at hr
        exact (Option.some.inj hr).symm
      · right
        rw [h] at hr
        exact ⟨pre, p, post, _, ht, rfl, rfl, (Option.some.inj hr).symm⟩
  | addFrame =>
    simp only [sessionStep] at hstep
    cases hr : rdpei_add_frame log.contactPoints with
    | none => simp [hr] at hstep
    | some r =>
      simp only [hr, Option.some.injEq] at hstep
      subst hstep
      have hreach' := ReachableWith.addFrame hreach hr
      rw [rdpei_add_frame_eq _ hlen] at hr
      simp only [Option.some.injEq] at hr
      subst hr
      refine ⟨hreach', ?_, ?_⟩
      · intro hov
        show log.recorded.Perm
          ((log.reported ++ oneShotReports log.contactPoints) ++
            oneShotReports (log.contactPoints.map afterCycle))
        rw [oneShotReports_afterCycle, List.append_nil]
        exact hperm hov
      · intro c hc
        show ∃ f ∈ log.frames ++ [log.contactPoints.filterMap frameEntry], c ∈ f
        have hc' : c ∈ log.reported ++ oneShotReports log.contactPoints := hc
        rcases List.mem_append.1 hc' with h | h
        · obtain ⟨f, hf, hcf⟩ := hmem c h
          exact ⟨f, List.mem_append_left _ hf, hcf⟩
        · exact ⟨_, by simp, (oneShotReports_sublist_frame log.contactPoints).subset h⟩

theorem runSession_inv (steps : List SessionStep) :
    ∀ (log log' : SessionLog), SessionInv log → runSession log steps = some log' →
      SessionInv log' := by
  induction steps with
  | nil =>
    intro log log' hinv hrun
    simp only [runSession, Option.some.injEq] at hrun
    subst hrun
    exact hinv
  | cons step steps ih =>
    intro log log' hinv hrun
    simp only [runSession] at hrun
    cases hs : sessionStep log step with
    | none => simp [hs] at hrun
    | some mid =>
      simp only [hs] at hrun
      exact ih mid log' (sessionStep_inv log mid step hinv hs) hrun

theorem sessionStep_total (log : SessionLog) (step : SessionStep)
    (hreach : Reachable log.contactPoints) :
    ∃ log', sessionStep log step = some log' := by
  obtain ⟨hlen, hown, -⟩ := reachableWith_inv _ _ hreach
  cases step with
  | touchBegin e x y =>
    rcases rdpei_touch_begin_effect log.contactPoints e x y with
      ⟨-, h⟩ | ⟨pre, p, post, -, -, -, h⟩ <;>
      exact ⟨_, by simp only [sessionStep, h]; rfl⟩
  | touchUpdate e x y =>
    rcases rdpei_touch_update_effect log.contactPoints e x y hown hlen with
      ⟨-, h⟩ | ⟨pre, p, post, -, -, -, -, h⟩ <;>
      exact ⟨_, by simp only [sessionStep, h]; rfl⟩
  | touchEnd e x y =>
    rcases rdpei_touch_end_effect log.contactPoints e x y hown hlen with
      ⟨-, h⟩ | ⟨pre, p, post, -, -, -, -, h⟩ <;>
      exact ⟨_, by simp only [sessionStep, h]; rfl⟩
  | addFrame =>
    exact ⟨_, by simp only [sessionStep, rdpei_add_frame_eq _ hlen]; rfl⟩

theorem runSession_total (steps : List SessionStep) :
    ∀ log : SessionLog, SessionInv log → ∃ log', runSession log steps = some log' := by
  induction steps with
  | nil => intro log _; exact ⟨log, rfl⟩
  | cons step steps ih =>
    intro log hinv
    obtain ⟨mid, hmid⟩ := sessionStep_total log step hinv.1
    obtain ⟨log', hrun⟩ := ih mid (sessionStep_inv log mid step hinv hmid)
    exact ⟨log', by simp only [runSession, hmid, hrun]⟩

theorem runSession_append (steps₁ steps₂ : List SessionStep) :
    ∀ log : SessionLog, runSession log (steps₁ ++ steps₂) =
      (runSession log steps₁).bind (fun mid => runSession mid steps₂) := by
  induction steps₁ with
  | nil => intro log; simp [runSession]
  | cons step steps₁ ih =>
    intro log
    simp only [List.cons_append, runSession]
    cases hs : sessionStep log step with
    | none => simp
    | some mid => simp [ih mid]

/-! ## The sample tables are reachable -/

theorem sampleBegun_reachable (P : RDPINPUT_CONTACT_DATA → Prop) :
    ReachableWith P sampleBegun :=
  @ReachableWith.touchBegin P (initialTable 2) 42 100 100
    { contactPoints := sampleBegun, error := CHANNEL_RC_OK, contactId := some 0 }
    (ReachableWith.init 2 (by decide)) (by decide)

theorem sampleReported_reachable (P : RDPINPUT_CONTACT_DATA → Prop) :
    ReachableWith P sampleReported :=
  @ReachableWith.addFrame P sampleBegun
    { contactPoints := sampleReported, contactCount := 1,
      contacts := [downContact 0 100 100], error := CHANNEL_RC_OK }
    (sampleBegun_reachable P) (by decide)

theorem sampleEnded_reachable (P : RDPINPUT_CONTACT_DATA → Prop) :
    ReachableWith P sampleEnded :=
  @ReachableWith.touchEnd P sampleReported 42 105 100
    { contactPoints := sampleEnded, error := CHANNEL_RC_OK, contactId := some 0 }
    (sampleReported_reachable P) (by decide)

theorem sampleTwo_reachable (P : RDPINPUT_CONTACT_DATA → Prop) :
    ReachableWith P sampleTwo :=
  @ReachableWith.touchBegin P [beganPoint 0 1 10 10 zeroPoint, zeroPoint] 2 20 20
    { contactPoints := sampleTwo, error := CHANNEL_RC_OK, contactId := some 1 }
    (@ReachableWith.touchBegin P (initialTable 2) 1 10 10
      { contactPoints := [beganPoint 0 1 10 10 zeroPoint, zeroPoint],
        error := CHANNEL_RC_OK, contactId := some 0 }
      (ReachableWith.init 2 (by decide)) (by decide))
    (by decide)

theorem sampleTwin_reachable (P : RDPINPUT_CONTACT_DATA → Prop) :
    ReachableWith P sampleTwin :=
  @ReachableWith.touchBegin P [beganPoint 0 7 1 1 zeroPoint, zeroPoint] 7 2 2
    { contactPoints := sampleTwin, error := CHANNEL_RC_OK, contactId := some 1 }
    (@ReachableWith.touchBegin P (initialTable 2) 7 1 1
      { contactPoints := [beganPoint 0 7 1 1 zeroPoint, zeroPoint],
        error := CHANNEL_RC_OK, contactId := some 0 }
      (ReachableWith.init 2 (by decide)) (by decide))
    (by decide)

/-! ## External ids along the reachable tables -/

theorem reachableFresh_reachable (t : List RDPINPUT_CONTACT_POINT) (h : ReachableFresh t) :
    Reachable t := by
  induction h with
  | init n hn => exact ReachableWith.init n hn
  | touchBegin e x y _ _ hr ih => exact ReachableWith.touchBegin e x y ih hr
  | touchUpdate e x y _ hr ih => exact ReachableWith.touchUpdate e x y ih hr
  | touchEnd e x y _ hr ih => exact ReachableWith.touchEnd e x y ih hr
  | addContact c _ hr ih => exact ReachableWith.addContact c ih trivial hr
  | addFrame _ hr ih => exact ReachableWith.addFrame ih hr

theorem injectiveIds_replace (pre post : List RDPINPUT_CONTACT_POINT)
    (p p' : RDPINPUT_CONTACT_POINT) (h : InjectiveIds (pre ++ p :: post))
    (hp' : p'.active = true → ∀ (j : Nat) (q : RDPINPUT_CONTACT_POINT), j ≠ pre.length →
      (pre ++ p :: post)[j]? = some q → q.active = true → q.externalId ≠ p'.externalId) :
    InjectiveIds (pre ++ p' :: post) := by
  intro i j a b hi hj ha hb hab
  by_cases his : i = pre.length
  · by_cases hjs : j = pre.length
    · rw [his, hjs]
    · subst his
      rw [getElem?_append_cons_self] at hi
      simp only [Option.some.injEq] at hi
      subst hi
      rw [getElem?_append_cons_ne pre _ p post j hjs] at hj
      exact absurd hab.symm (hp' ha j b hjs hj hb)
  · by_cases hjs : j = pre.length
    · subst hjs
      rw [getElem?_append_cons_self] at hj
      simp only [Option.some.injEq] at hj
      subst hj
      rw [getElem?_append_cons_ne pre _ p post i his] at hi
      exact absurd hab (hp' hb i a his hi ha)
    · rw [getElem?_append_cons_ne pre p' p post i his] at hi
      rw [getElem?_append_cons_ne pre p' p post j hjs] at hj
      exact h i j a b hi hj ha hb hab

theorem injectiveIds_keep (pre post : List RDPINPUT_CONTACT_POINT)
    (p p' : RDPINPUT_CONTACT_POINT) (h : InjectiveIds (pre ++ p :: post))
    (hp' : p'.active = true → p.active = true ∧ p'.externalId = p.externalId) :
    InjectiveIds (pre ++ p' :: post) := by
  refine injectiveIds_replace pre post p p' h ?_
  intro ha j q hjs hj hq hqe
  obtain ⟨hpa, hpe⟩ := hp' ha
  exact hjs (h j pre.length q p hj (getElem?_append_cons_self pre p post) hq hpa
    (hqe.trans hpe))

theorem afterCycle_externalId (p : RDPINPUT_CONTACT_POINT) :
    (afterCycle p).externalId = p.externalId := by
  cases hd : p.dirty <;> cases ha : p.active <;> simp [afterCycle, hd, ha]

theorem reachableFresh_injectiveIds (t : List RDPINPUT_CONTACT_POINT)
    (h : ReachableFresh t) : InjectiveIds t := by
  induction h with
  | init n hn =>
    intro i j p q hi _ hp _ _
    have hmem := List.getElem?_mem hi
    rw [initialTable, List.mem_replicate] at hmem
    rw [hmem.2] at hp
    cases hp
  | @touchBegin t e x y r hprev hfresh hr ih =>
    rcases rdpei_touch_begin_effect t e x y with ⟨-, h⟩ | ⟨pre, p, post, ht, -, -, h⟩
    · rw [h] at hr
      simp only [Option.some.injEq] at hr
      rw [← hr]; exact ih
    · rw [h] at hr
      simp only [Option.some.injEq] at hr
      rw [← hr]
      refine injectiveIds_replace pre post p _ (ht ▸ ih) ?_
      intro _ j q _ hj hq
      rw [← ht] at hj
      exact hfresh q (List.getElem?_mem hj) hq
  | @touchUpdate t e x y r hprev hr ih =>
    obtain ⟨hlen, hown, -⟩ := reachableWith_inv _ t (reachableFresh_reachable t hprev)
    rcases rdpei_touch_update_effect t e x y hown hlen with
      ⟨-, h⟩ | ⟨pre, p, post, ht, -, hpa, -, h⟩
    · rw [h] at hr
      simp only [Option.some.injEq] at hr
      rw [← hr]; exact ih
    · rw [h] at hr
      simp only [Option.some.injEq] at hr
      rw [← hr]
      exact injectiveIds_keep pre post p _ (ht ▸ ih) (fun _ => ⟨hpa, rfl⟩)
  | @touchEnd t e x y r hprev hr ih =>
    obtain ⟨hlen, hown, -⟩ := reachableWith_inv _ t (reachableFresh_reachable t hprev)
    rcases rdpei_touch_end_effect t e x y hown hlen with
      ⟨-, h⟩ | ⟨pre, p, post, ht, -, hpa, -, h⟩
    · rw [h] at hr
      simp only [Option.some.injEq] at hr
      rw [← hr]; exact ih
    · rw [h] at hr
      simp only [Option.some.injEq] at hr
      rw [← hr]
      exact injectiveIds_keep pre post p _ (ht ▸ ih)
        (fun ha => by simp [endedPoint] at ha)
  | @addContact t c t' err hprev hr ih =>
    obtain ⟨pre, p, post, ht, -, -, ht'⟩ := rdpei_add_contact_effect t t' c err hr
    rw [ht']
    exact injectiveIds_keep pre post p _ (ht ▸ ih) (fun ha => ⟨ha, rfl⟩)
  | @addFrame t r hprev hr ih =>
    obtain ⟨hlen, -, -⟩ := reachableWith_inv _ t (reachableFresh_reachable t hprev)
    rw [rdpei_add_frame_eq t hlen] at hr
    simp only [Option.some.injEq] at hr
    rw [← hr]
    intro i j a b hi hj ha hb hab
    rw [List.getElem?_map] at hi hj
    cases hp : t[i]? with
    | none => simp [hp] at hi
    | some p =>
      cases hq : t[j]? with
      | none => simp [hq] at hj
      | some q =>
        simp only [hp, hq, Option.map_some', Option.some.injEq] at hi hj
        subst hi
        subst hj
        rw [afterCycle_active] at ha hb
        rw [afterCycle_externalId, afterCycle_externalId] at hab
        exact ih i j p q hp hq ha hb hab

/-! ## The reference frame -/

theorem range_filterMap_getElem? {α β : Type} (f : α → Option β) (l : List α) :
    (List.range l.length).filterMap (fun i => (l[i]?).bind f) = l.filterMap f := by
  induction l with
  | nil => simp
  | cons a l ih =>
    rw [List.length_cons, List.range_succ_eq_map, List.filterMap_cons, List.filterMap_map]
    simp only [List.getElem?_cons_zero, Option.some_bind, List.filterMap_cons]
    have : ((fun i => ((a :: l)[i]?).bind f) ∘ Nat.succ) = fun i => (l[i]?).bind f := by
      funext i
      simp
    rw [this, ih]

theorem referenceContribution_eq (p : RDPINPUT_CONTACT_POINT) :
    referenceContribution p = frameEntry p := by
  unfold referenceContribution frameEntry continuedContact
  split
  · rfl
  · split
    · split <;> rfl
    · rfl

theorem referenceFrame_eq (t : List RDPINPUT_CONTACT_POINT) :
    referenceFrame t = t.filterMap frameEntry := by
  unfold referenceFrame
  rw [range_filterMap_getElem?]
  congr 1
  funext p
  exact referenceContribution_eq p

theorem frame_length_eq_reporting (t : List RDPINPUT_CONTACT_POINT) :
    (t.filterMap frameEntry).length = (t.filter (fun p => p.dirty || p.active)).length := by
  induction t with
  | nil => rfl
  | cons p t ih =>
    cases hd : p.dirty <;> cases ha : p.active <;>
      simp [List.filterMap_cons, List.filter_cons, frameEntry, hd, ha, ih]

theorem filterMap_sublist_of_id {l : List Nat} (g : Nat → Option Nat)
    (hg : ∀ i j, g i = some j → j = i) : (l.filterMap g).Sublist l := by
  induction l with
  | nil => simp
  | cons a l ih =>
    rw [List.filterMap_cons]
    cases h : g a with
    | none => exact ih.cons a
    | some j =>
      rw [hg a j h]
      exact ih.cons₂ a

theorem frame_contactIds_sorted (t : List RDPINPUT_CONTACT_POINT) (hown : OwnData t) :
    ((t.filterMap frameEntry).map (fun c => c.contactId)).Sorted (· < ·) := by
  rw [← range_filterMap_getElem? frameEntry t, List.map_filterMap]
  refine (List.sorted_lt_range t.length).sublist (filterMap_sublist_of_id _ ?_)
  intro i j hij
  cases hp : t[i]? with
  | none => simp [hp] at hij
  | some p =>
    simp only [hp, Option.some_bind, Option.map_eq_some'] at hij
    obtain ⟨c, hc, hcj⟩ := hij
    obtain ⟨h1, h2⟩ := frameEntry_iterate_source 0 p c hc
    rw [← hcj, h1]
    exact hown i p hp h2

/-! ## Facts about the frame writers -/

theorem wrapInt32_of_range (z : Int) (h1 : -2 ^ 31 ≤ z) (h2 : z < 2 ^ 31) : wrapInt32 z = z := by
  unfold wrapInt32 toInt32 toUInt32
  have hk : ((z % 2 ^ 32).toNat : Int) = z % 2 ^ 32 :=
    Int.toNat_of_nonneg (Int.emod_nonneg _ (by norm_num))
  have hm : (z % 2 ^ 32).toNat % 2 ^ 32 = (z % 2 ^ 32).toNat := by
    apply Nat.mod_eq_of_lt
    have : z % 2 ^ 32 < 2 ^ 32 := Int.emod_lt_of_pos _ (by norm_num)
    omega
  rw [hm]
  split
  · rename_i h
    rw [hk]
    have : z % 2 ^ 32 < 2 ^ 31 := by omega
    omega
  · rename_i h
    rw [hk]
    omega

theorem pointer_flag_translation (f : Nat) :
    pointer_flag_to_contact_flags f < 64 ∧
    ((pointer_flag_to_contact_flags f &&& CONTACT_FLAG_DOWN ≠ 0) ↔ f &&& POINTER_FLAG_DOWN ≠ 0) ∧
    ((pointer_flag_to_contact_flags f &&& CONTACT_FLAG_UPDATE ≠ 0) ↔
      f &&& POINTER_FLAG_UPDATE ≠ 0) ∧
    ((pointer_flag_to_contact_flags f &&& CONTACT_FLAG_UP ≠ 0) ↔ f &&& POINTER_FLAG_UP ≠ 0) ∧
    ((pointer_flag_to_contact_flags f &&& CONTACT_FLAG_INRANGE ≠ 0) ↔
      f &&& POINTER_FLAG_INRANGE ≠ 0) ∧
    ((pointer_flag_to_contact_flags f &&& CONTACT_FLAG_INCONTACT ≠ 0) ↔
      f &&& POINTER_FLAG_INCONTACT ≠ 0) ∧
    ((pointer_flag_to_contact_flags f &&& CONTACT_FLAG_CANCELED ≠ 0) ↔
      f &&& POINTER_FLAG_CANCELED ≠ 0) := by
  unfold pointer_flag_to_contact_flags
  by_cases h1 : f &&& POINTER_FLAG_DOWN = 0 <;>
  by_cases h2 : f &&& POINTER_FLAG_UPDATE = 0 <;>
  by_cases h3 : f &&& POINTER_FLAG_UP = 0 <;>
  by_cases h4 : f &&& POINTER_FLAG_INRANGE = 0 <;>
  by_cases h5 : f &&& POINTER_FLAG_INCONTACT = 0 <;>
  by_cases h6 : f &&& POINTER_FLAG_CANCELED = 0 <;>
  simp only [h1, h2, h3, h4, h5, h6, ne_eq, not_true_eq_false, not_false_eq_true, if_true,
    if_false, iff_true, iff_false, true_iff, false_iff] <;>
  decide

theorem and_two_pow_ne_zero (x j : Nat) : x &&& 2 ^ j ≠ 0 ↔ x.testBit j = true := by
  constructor
  · intro h
    by_contra hb
    apply h
    apply Nat.eq_of_testBit_eq
    intro i
    rw [Nat.testBit_and, Nat.testBit_two_pow, Nat.zero_testBit]
    by_cases hji : j = i
    · subst hji
      simp [hb]
    · simp [hji]
  · intro h h0
    have h1 : (x &&& 2 ^ j).testBit j = true := by
      rw [Nat.testBit_and, Nat.testBit_two_pow_self, h]
      rfl
    rw [h0, Nat.zero_testBit] at h1
    cases h1

theorem pen_mask_testBit (k i : Nat) (hi : i < 15) :
    (pen_mask_to_fields_present k).testBit (i + 1) = k.testBit i := by
  unfold pen_mask_to_fields_present PEN_CONTACT_PENFLAGS_PRESENT
  rw [Nat.testBit_mod_two_pow, Nat.testBit_or, Nat.testBit_shiftLeft, Nat.testBit_mod_two_pow]
  have h1 : Nat.testBit 1 (i + 1) = false := by
    rw [Nat.testBit_succ]
    exact Nat.zero_testBit i
  have h2 : decide (i + 1 < 16) = true := by simp; omega
  have h3 : decide (i + 1 ≥ 1) = true := by simp
  have h4 : decide (i + 1 - 1 < 16) = true := by simp; omega
  rw [h1, h2, h3, h4]
  simp

theorem pen_mask_testBit_zero (k : Nat) : (pen_mask_to_fields_present k).testBit 0 = true := by
  unfold pen_mask_to_fields_present PEN_CONTACT_PENFLAGS_PRESENT
  rw [Nat.testBit_mod_two_pow, Nat.testBit_or]
  simp

theorem pen_mask_bits (k : Nat) :
    pen_mask_to_fields_present k &&& PEN_CONTACT_PENFLAGS_PRESENT ≠ 0 ∧
    ((pen_mask_to_fields_present k &&& PEN_CONTACT_PRESSURE_PRESENT ≠ 0) ↔
      k.testBit 0 = true) ∧
    ((pen_mask_to_fields_present k &&& PEN_CONTACT_ROTATION_PRESENT ≠ 0) ↔
      k.testBit 1 = true) ∧
    ((pen_mask_to_fields_present k &&& PEN_CONTACT_TILTX_PRESENT ≠ 0) ↔
      k.testBit 2 = true) ∧
    ((pen_mask_to_fields_present k &&& PEN_CONTACT_TILTY_PRESENT ≠ 0) ↔
      k.testBit 3 = true) := by
  refine ⟨?_, ?_, ?_, ?_, ?_⟩
  · exact (and_two_pow_ne_zero _ 0).2 (pen_mask_testBit_zero k)
  · rw [← pen_mask_testBit k 0 (by omega)]
    exact and_two_pow_ne_zero _ 1
  · rw [← pen_mask_testBit k 1 (by omega)]
    exact and_two_pow_ne_zero _ 2
  · rw [← pen_mask_testBit k 2 (by omega)]
    exact and_two_pow_ne_zero _ 3
  · rw [← pen_mask_testBit k 3 (by omega)]
    exact and_two_pow_ne_zero _ 4

theorem rdpei_write_pen_contact_eq (penInfo : POINTER_PEN_INFO) :
    rdpei_write_pen_contact penInfo =
      [ WireField.uint8 0,
        WireField.twoByteUnsigned (pen_mask_to_fields_present penInfo.penMask),
        WireField.fourByteSigned penInfo.pointerInfo.x,
        WireField.fourByteSigned penInfo.pointerInfo.y,
        WireField.fourByteUnsigned
          (pointer_flag_to_contact_flags penInfo.pointerInfo.pointerFlags) ] ++
      referencePenOptional (pen_mask_to_fields_present penInfo.penMask) penInfo := by
  unfold rdpei_write_pen_contact referencePenOptional penOptionalFields
  by_cases h1 : pen_mask_to_fields_present penInfo.penMask &&& PEN_CONTACT_PENFLAGS_PRESENT = 0 <;>
  by_cases h2 : pen_mask_to_fields_present penInfo.penMask &&& PEN_CONTACT_PRESSURE_PRESENT = 0 <;>
  by_cases h3 : pen_mask_to_fields_present penInfo.penMask &&& PEN_CONTACT_ROTATION_PRESENT = 0 <;>
  by_cases h4 : pen_mask_to_fields_present penInfo.penMask &&& PEN_CONTACT_TILTX_PRESENT = 0 <;>
  by_cases h5 : pen_mask_to_fields_present penInfo.penMask &&& PEN_CONTACT_TILTY_PRESENT = 0 <;>
  simp [List.filter_cons, h1, h2, h3, h4, h5]

/-! ## Facts about the inbound path -/

theorem Stream_Read_UINT32_of_room (s : wStream) (h : s.pointer + 4 ≤ s.buffer.length) :
    ∃ v, Stream_Read_UINT32 s = some (v, { s with pointer := s.pointer + 4 }) := by
  unfold Stream_Read_UINT32
  have hlen : 4 ≤ (s.buffer.drop s.pointer).length := by
    rw [List.length_drop]; omega
  match hd : s.buffer.drop s.pointer, hlen with
  | b0 :: b1 :: b2 :: b3 :: _, _ => exact ⟨_, rfl⟩

theorem rdpei_recv_pdu_header_reads (data : List Nat) (eventId pduLength : Nat)
    (h : rdpei_recv_pdu_header data = some (eventId, pduLength)) :
    6 ≤ data.length ∧
    ∃ s1, Stream_Read_UINT16 (Stream_Of data) = some (eventId, s1) ∧
      Stream_Read_UINT32 s1 =
        some (pduLength, { buffer := data, pointer := 6, length := data.length }) := by
  match data, h with
  | b0 :: b1 :: b2 :: b3 :: b4 :: b5 :: rest, h =>
    simp only [rdpei_recv_pdu_header, Stream_Read_UINT16, Stream_Read_UINT32, Stream_Of,
      List.drop, Option.some.injEq, Prod.mk.injEq] at h
    refine ⟨by simp, { buffer := b0 :: b1 :: b2 :: b3 :: b4 :: b5 :: rest, pointer := 2,
                       length := (b0 :: b1 :: b2 :: b3 :: b4 :: b5 :: rest).length }, ?_, ?_⟩
    · simp only [Stream_Read_UINT16, Stream_Of, List.drop]
      rw [h.1]
    · simp only [Stream_Read_UINT32, List.drop]
      rw [h.2]

theorem rdpei_send_cs_ready_pdu_eq (maxTouchContacts : Nat) (junk : Nat → Nat)
    (env : SendOutcome) :
    rdpei_send_cs_ready_pdu maxTouchContacts junk env =
      if env.streamNew then
        some (env.writeStatus,
          some [2, 0, 16, 0, 0, 0, 1, 0, 0, 0, 0, 0, 2, 0,
                maxTouchContacts % 256, maxTouchContacts / 256 % 256])
      else some (CHANNEL_RC_NO_MEMORY, none) := by
  obtain ⟨streamNew, ensureCapacity, writeStatus⟩ := env
  cases streamNew <;> rfl

theorem rdpei_recv_pdu_sc_ready (rdpei : RDPEI_PLUGIN) (context : RdpeiClientContext)
    (data : List Nat) (junk : Nat → Nat) (env : SendOutcome) (pduLength : Nat)
    (h : rdpei_recv_pdu_header data = some (EVENTID_SC_READY, pduLength))
    (hbody : 10 ≤ data.length) :
    rdpei_recv_pdu rdpei context data junk env =
      some { plugin := rdpei,
             error := if env.streamNew then env.writeStatus else CHANNEL_RC_NO_MEMORY,
             calls := [],
             sent :=
               if env.streamNew then
                 [[2, 0, 16, 0, 0, 0, 1, 0, 0, 0, 0, 0, 2, 0,
                   rdpei.maxTouchContacts % 256, rdpei.maxTouchContacts / 256 % 256]]
               else [] } := by
  obtain ⟨-, s1, h1, h2⟩ := rdpei_recv_pdu_header_reads data _ _ h
  obtain ⟨v, hv⟩ := Stream_Read_UINT32_of_room
    { buffer := data, pointer := 6, length := data.length } (by simpa using hbody)
  obtain ⟨streamNew, ensureCapacity, writeStatus⟩ := env
  simp only [rdpei_recv_pdu, h1, h2, if_true, rdpei_recv_sc_ready_pdu, hv,
    rdpei_send_cs_ready_pdu_eq]
  cases streamNew
  · simp [CHANNEL_RC_OK, CHANNEL_RC_NO_MEMORY]
  · by_cases hw : writeStatus = 0 <;> simp [CHANNEL_RC_OK, hw]

theorem rdpei_recv_pdu_suspend (rdpei : RDPEI_PLUGIN) (context : RdpeiClientContext)
    (data : List Nat) (junk : Nat → Nat) (env : SendOutcome) (pduLength : Nat)
    (h : rdpei_recv_pdu_header data = some (EVENTID_SUSPEND_TOUCH, pduLength)) :
    rdpei_recv_pdu rdpei context data junk env =
      some { plugin := rdpei,
             error := (context.SuspendTouch).getD CHANNEL_RC_OK,
             calls := (context.SuspendTouch).toList.map (fun _ => HostCall.SuspendTouch),
             sent := [] } := by
  obtain ⟨-, s1, h1, h2⟩ := rdpei_recv_pdu_header_reads data _ _ h
  obtain ⟨suspend, resume⟩ := context
  have hne : EVENTID_SUSPEND_TOUCH ≠ EVENTID_SC_READY := by decide
  simp only [rdpei_recv_pdu, h1, h2, hne, if_false, if_true, rdpei_recv_suspend_touch_pdu]
  cases suspend with
  | none => simp [IFCALLRET, CHANNEL_RC_OK]
  | some result => by_cases hr : result = 0 <;> simp [IFCALLRET, CHANNEL_RC_OK, hr]

theorem rdpei_recv_pdu_resume (rdpei : RDPEI_PLUGIN) (context : RdpeiClientContext)
    (data : List Nat) (junk : Nat → Nat) (env : SendOutcome) (pduLength : Nat)
    (h : rdpei_recv_pdu_header data = some (EVENTID_RESUME_TOUCH, pduLength)) :
    rdpei_recv_pdu rdpei context data junk env =
      some { plugin := rdpei,
             error := (context.ResumeTouch).getD CHANNEL_RC_OK,
             calls := (context.ResumeTouch).toList.map (fun _ => HostCall.ResumeTouch),
             sent := [] } := by
  obtain ⟨-, s1, h1, h2⟩ := rdpei_recv_pdu_header_reads data _ _ h
  obtain ⟨suspend, resume⟩ := context
  have hne : EVENTID_RESUME_TOUCH ≠ EVENTID_SC_READY := by decide
  have hne2 : EVENTID_RESUME_TOUCH ≠ EVENTID_SUSPEND_TOUCH := by decide
  simp only [rdpei_recv_pdu, h1, h2, hne, hne2, if_false, if_true, rdpei_recv_resume_touch_pdu]
  cases resume with
  | none => simp [IFCALLRET, CHANNEL_RC_OK]
  | some result => by_cases hr : result = 0 <;> simp [IFCALLRET, CHANNEL_RC_OK, hr]

theorem rdpei_recv_pdu_other (rdpei : RDPEI_PLUGIN) (context : RdpeiClientContext)
    (data : List Nat) (junk : Nat → Nat) (env : SendOutcome) (eventId pduLength : Nat)
    (h : rdpei_recv_pdu_header data = some (eventId, pduLength))
    (h1 : eventId ≠ EVENTID_SC_READY) (h2 : eventId ≠ EVENTID_SUSPEND_TOUCH)
    (h3 : eventId ≠ EVENTID_RESUME_TOUCH) :
    rdpei_recv_pdu rdpei context data junk env =
      some { plugin := rdpei, error := CHANNEL_RC_OK, calls := [], sent := [] } := by
  obtain ⟨-, s1, hr1, hr2⟩ := rdpei_recv_pdu_header_reads data _ _ h
  simp only [rdpei_recv_pdu, hr1, hr2, h1, h2, h3, if_false]

theorem stampFrame_contactPoints (rdpei : RDPEI_PLUGIN) (currentTime : Nat) :
    (stampFrame rdpei currentTime).contactPoints = rdpei.contactPoints := by
  unfold stampFrame
  split <;> rfl

theorem rdpei_send_touch_frame_status (rdpei : RDPEI_PLUGIN) (pointers : List POINTER_INFO)
    (currentTime : Nat) (env : SendOutcome) :
    (rdpei_send_touch_frame rdpei pointers currentTime env).plugin.contactPoints
        = rdpei.contactPoints ∧
      (rdpei_send_touch_frame rdpei pointers currentTime env).error = sendStatus env := by
  obtain ⟨streamNew, ensureCapacity, writeStatus⟩ := env
  have hs := stampFrame_contactPoints rdpei currentTime
  cases streamNew <;> cases ensureCapacity <;> by_cases hw : writeStatus = 0 <;>
    simp [rdpei_send_touch_frame, rdpei_send_touch_event_pdu_new, rdpei_write_touch_frame_new,
      sendStatus, CHANNEL_RC_OK, CHANNEL_RC_NO_MEMORY, hw, hs]

theorem rdpei_send_pen_frame_status (rdpei : RDPEI_PLUGIN) (pen : POINTER_PEN_INFO)
    (currentTime : Nat) (env : SendOutcome) :
    (rdpei_send_pen_frame rdpei pen currentTime env).plugin.contactPoints
        = rdpei.contactPoints ∧
      (rdpei_send_pen_frame rdpei pen currentTime env).error = sendStatus env := by
  obtain ⟨streamNew, ensureCapacity, writeStatus⟩ := env
  have hs := stampFrame_contactPoints rdpei currentTime
  cases streamNew <;> cases ensureCapacity <;> by_cases hw : writeStatus = 0 <;>
    simp [rdpei_send_pen_frame, rdpei_send_pen_event_pdu_new, rdpei_write_pen_frame_new,
      sendStatus, CHANNEL_RC_OK, CHANNEL_RC_NO_MEMORY, hw, hs]

theorem rdpei_recv_pdu_plugin (rdpei : RDPEI_PLUGIN) (context : RdpeiClientContext)
    (data : List Nat) (junk : Nat → Nat) (env : SendOutcome) (r : RecvResult)
    (h : rdpei_recv_pdu rdpei context data junk env = some r) : r.plugin = rdpei := by
  unfold rdpei_recv_pdu at h
  dsimp only at h
  repeat' split at h
  all_goals first
    | (cases h; done)
    | (cases h; rfl)

theorem rdpei_recv_pdu_readable (rdpei : RDPEI_PLUGIN) (context : RdpeiClientContext)
    (data : List Nat) (junk : Nat → Nat) (env : SendOutcome) (hdata : ReadablePdu data) :
    ∃ r, rdpei_recv_pdu rdpei context data junk env = some r ∧
      (∀ pduLength, rdpei_recv_pdu_header data = some (EVENTID_SC_READY, pduLength) →
        r.error = sendStatus { env with ensureCapacity := true }) := by
  unfold ReadablePdu at hdata
  cases hh : rdpei_recv_pdu_header data with
  | none => rw [hh] at hdata; exact absurd hdata id
  | some header =>
    obtain ⟨eventId, pduLength⟩ := header
    rw [hh] at hdata
    by_cases h1 : eventId = EVENTID_SC_READY
    · subst h1
      refine ⟨_, rdpei_recv_pdu_sc_ready rdpei context data junk env pduLength hh (hdata rfl),
        fun _ _ => ?_⟩
      obtain ⟨streamNew, ensureCapacity, writeStatus⟩ := env
      cases streamNew <;> simp [sendStatus]
    · have hne : ∀ len, some (eventId, pduLength) ≠ some (EVENTID_SC_READY, len) := by
        intro len h
        simp only [Option.some.injEq, Prod.mk.injEq] at h
        exact h1 h.1
      by_cases h2 : eventId = EVENTID_SUSPEND_TOUCH
      · subst h2
        exact ⟨_, rdpei_recv_pdu_suspend rdpei context data junk env pduLength hh,
          fun len h => absurd h (hne len)⟩
      · by_cases h3 : eventId = EVENTID_RESUME_TOUCH
        · subst h3
          exact ⟨_, rdpei_recv_pdu_resume rdpei context data junk env pduLength hh,
            fun len h => absurd h (hne len)⟩
        · exact ⟨_, rdpei_recv_pdu_other rdpei context data junk env eventId pduLength hh
            h1 h2 h3, fun len h => absurd h (hne len)⟩

/-! ## Repeated aggregation cycles -/

theorem afterCycle_twice_fixed (p : RDPINPUT_CONTACT_POINT) :
    afterCycle (afterCycle (afterCycle p)) = afterCycle (afterCycle p) := by
  cases hd : p.dirty <;> cases ha : p.active <;>
    simp [afterCycle, hd, ha, continuedContact_idem]

theorem frameEntry_twice_fixed (p : RDPINPUT_CONTACT_POINT) :
    frameEntry (afterCycle (afterCycle p)) = frameEntry (afterCycle p) := by
  cases hd : p.dirty <;> cases ha : p.active <;>
    simp [afterCycle, frameEntry, hd, ha, continuedContact_idem]

theorem frameEntry_afterCycle_eq (p : RDPINPUT_CONTACT_POINT) :
    frameEntry (afterCycle p) =
      if (afterCycle (afterCycle p)).active then some (afterCycle (afterCycle p)).data
      else none := by
  cases hd : p.dirty <;> cases ha : p.active <;>
    simp [afterCycle, frameEntry, hd, ha, continuedContact_idem]

theorem filterMap_active_data (l : List RDPINPUT_CONTACT_POINT) :
    l.filterMap (fun p => if p.active then some p.data else none) =
      (l.filter (fun p => p.active)).map (fun p => p.data) := by
  induction l with
  | nil => rfl
  | cons p l ih =>
    cases ha : p.active <;> simp [List.filterMap_cons, List.filter_cons, ha, ih]

theorem second_frame_eq (t : List RDPINPUT_CONTACT_POINT) :
    (t.map afterCycle).filterMap frameEntry =
      (((t.map afterCycle).map afterCycle).filter (fun p => p.active)).map (fun p => p.data) := by
  rw [← filterMap_active_data, List.filterMap_map, List.map_map, List.filterMap_map]
  apply List.filterMap_congr
  intro p _
  exact frameEntry_afterCycle_eq p

/-! ## The dispatch loop, cycle by cycle -/

/-- C1: from a table whose `maxTouchContacts` slots are all inactive, a run
of exactly `maxTouchContacts` calls of `rdpei_touch_begin` (any external ids
and positions) succeeds call by call, the k-th call returning slot k, so the
returned slots are pairwise distinct; every further call then returns the
slot -1 with `CHANNEL_RC_OK` and leaves the table as it is. -/
theorem touch_begin_fills_then_refuses (t : List RDPINPUT_CONTACT_POINT)
    (calls : List (Int × Int × Int))
    (hinactive : ∀ p ∈ t, p.active = false) (hcalls : calls.length = t.length) :
    ∃ t' ids, touchBeginAll t calls = some (t', ids) ∧
      ids = (List.range t.length).map (fun i => some ((i : Nat) : Int)) ∧
      ids.Nodup ∧ t'.length = t.length ∧
      ∀ e x y, rdpei_touch_begin t' e x y =
        some { contactPoints := t', error := CHANNEL_RC_OK, contactId := some (-1) } := by
  obtain ⟨t', hrun, hlen, hact⟩ := touchBeginAll_fill t [] calls (by simp) hinactive hcalls
  refine ⟨t', _, by simpa using hrun, by simp, ?_, by simpa using hlen, ?_⟩
  · refine (List.nodup_range t.length).map ?_
    intro a b hab
    simpa using hab
  · intro e x y
    exact rdpei_touch_begin_full t' e x y hact

/-- Witness of C1 on a table of three zeroed slots. -/
theorem touch_begin_fills_then_refuses_witness :
    (∀ p ∈ initialTable 3, p.active = false) ∧
    ([(42, 100, 100), (42, 5, 5), (-7, 0, 1)] : List (Int × Int × Int)).length
      = (initialTable 3).length ∧
    ∃ t' ids, touchBeginAll (initialTable 3) [(42, 100, 100), (42, 5, 5), (-7, 0, 1)]
        = some (t', ids) ∧
      ids = (List.range (initialTable 3).length).map (fun i => some ((i : Nat) : Int)) ∧
      ids.Nodup ∧ t'.length = (initialTable 3).length ∧
      ∀ e x y, rdpei_touch_begin t' e x y =
        some { contactPoints := t', error := CHANNEL_RC_OK, contactId := some (-1) } :=
  ⟨by decide, by decide,
   touch_begin_fills_then_refuses (initialTable 3) [(42, 100, 100), (42, 5, 5), (-7, 0, 1)]
     (by decide) (by decide)⟩

/-- C2: for every table, `rdpei_touch_begin` returns a slot (a value that is
not negative) exactly when some slot is inactive; the slot it returns is the
lowest index that was inactive before the call, and no other index is
changed; a slot that was active before the call is neither returned nor
modified, and with no inactive slot the call returns -1 and changes nothing. -/
theorem touch_begin_lowest_inactive (t : List RDPINPUT_CONTACT_POINT) (e x y : Int) :
    ∃ r, rdpei_touch_begin t e x y = some r ∧ r.error = CHANNEL_RC_OK ∧
      r.contactPoints.length = t.length ∧
      ((∃ s : Nat, r.contactId = some (s : Int)) ↔ ∃ p ∈ t, p.active = false) ∧
      ((∀ p ∈ t, p.active = true) → r.contactId = some (-1) ∧ r.contactPoints = t) ∧
      (∀ s : Nat, r.contactId = some (s : Int) →
        (∃ p, t[s]? = some p ∧ p.active = false) ∧
        (∀ j q, j < s → t[j]? = some q → q.active = true) ∧
        (∀ j, j ≠ s → r.contactPoints[j]? = t[j]?)) ∧
      (∀ (j : Nat) q, t[j]? = some q → q.active = true →
        r.contactId ≠ some (j : Int) ∧ r.contactPoints[j]? = some q) := by
  cases hfind : findInactive t 0 with
  | none =>
    have hall := (findInactive_none t 0).1 hfind
    refine ⟨_, rdpei_touch_begin_full t e x y hall, rfl, rfl, ?_, fun _ => ⟨rfl, rfl⟩, ?_, ?_⟩
    · constructor
      · rintro ⟨s, hs⟩
        simp only [Option.some.injEq] at hs
        omega
      · rintro ⟨p, hp, hpa⟩
        rw [hall p hp] at hpa
        cases hpa
    · intro s hs
      simp only [Option.some.injEq] at hs
      omega
    · intro j q hj _
      refine ⟨?_, hj⟩
      simp only [ne_eq, Option.some.injEq]
      omega
  | some i =>
    obtain ⟨pre, p, post, ht, hi, hpre, hp⟩ := (findInactive_some t 0 i).1 hfind
    subst ht
    have hidx : ∀ j q, (pre ++ p :: post)[j]? = some q → q.active = true → j ≠ pre.length := by
      intro j q hj hq hjeq
      subst hjeq
      rw [getElem?_append_cons_self] at hj
      simp only [Option.some.injEq] at hj
      rw [← hj, hp] at hq
      cases hq
    have hother : ∀ j, j ≠ pre.length →
        (pre ++ beganPoint pre.length e x y p :: post)[j]? = (pre ++ p :: post)[j]? :=
      fun j hj => getElem?_append_cons_ne pre _ _ post j hj
    refine ⟨_, rdpei_touch_begin_free pre post p e x y hpre hp, rfl, by simp, ?_, ?_, ?_, ?_⟩
    · constructor
      · intro _
        exact ⟨p, by simp, hp⟩
      · intro _
        exact ⟨pre.length, rfl⟩
    · intro hall
      have := hall p (by simp)
      rw [hp] at this
      cases this
    · intro s hs
      simp only [Option.some.injEq, Nat.cast_inj] at hs
      subst hs
      refine ⟨⟨p, getElem?_append_cons_self pre p post, hp⟩, ?_, ?_⟩
      · intro j q hj hq
        rw [List.getElem?_append_left hj] at hq
        exact hpre q (List.getElem?_mem hq)
      · intro j hj
        exact hother j hj
    · intro j q hj hq
      have hne := hidx j q hj hq
      refine ⟨?_, ?_⟩
      · simp only [ne_eq, Option.some.injEq, Nat.cast_inj]
        exact fun h => hne h.symm
      · rw [hother j hne]
        exact hj

/-- C3: when no active slot carries `externalId`, `rdpei_touch_update` and
`rdpei_touch_end` both return the slot -1 (with `CHANNEL_RC_OK`) and leave
the whole contact table, every field of every slot, as it was. -/
theorem touch_update_end_unknown_contact (t : List RDPINPUT_CONTACT_POINT) (e x y : Int)
    (hunknown : ∀ p ∈ t, p.active = true → p.externalId ≠ e) :
    rdpei_touch_update t e x y =
        some { contactPoints := t, error := CHANNEL_RC_OK, contactId := some (-1) } ∧
    rdpei_touch_end t e x y =
        some { contactPoints := t, error := CHANNEL_RC_OK, contactId := some (-1) } := by
  have h0 := (findExternal_none e t 0).2 hunknown
  constructor
  · simp [rdpei_touch_update, h0]
  · simp [rdpei_touch_end, h0]

/-- Witness of C3: external id 42 on a table whose only active slot carries 7. -/
theorem touch_update_end_unknown_contact_witness :
    (∀ p ∈ [{ zeroPoint with active := true, externalId := 7 }, zeroPoint],
        p.active = true → p.externalId ≠ 42) ∧
    (rdpei_touch_update [{ zeroPoint with active := true, externalId := 7 }, zeroPoint] 42 5 6 =
        some { contactPoints := [{ zeroPoint with active := true, externalId := 7 }, zeroPoint],
               error := CHANNEL_RC_OK, contactId := some (-1) } ∧
     rdpei_touch_end [{ zeroPoint with active := true, externalId := 7 }, zeroPoint] 42 5 6 =
        some { contactPoints := [{ zeroPoint with active := true, externalId := 7 }, zeroPoint],
               error := CHANNEL_RC_OK, contactId := some (-1) }) :=
  ⟨by decide,
   touch_update_end_unknown_contact
     [{ zeroPoint with active := true, externalId := 7 }, zeroPoint] 42 5 6 (by decide)⟩

/-- C4: after a `rdpei_touch_begin` that returned slot `s`, any number
`n ≥ 1` of aggregation cycles with no contact event in between builds `n`
frames; the first holds the record of slot `s` with flags exactly
DOWN | INRANGE | INCONTACT at `(x, y)`, every later one holds it with flags
exactly UPDATE | INRANGE | INCONTACT, and no entry of a later frame carries
DOWN.  When no other reporting slot of the table stores contact id `s` in its
record, which is so in every reachable table, these are the only entries with
that id, one per frame, so DOWN is shown for the slot exactly once. -/
theorem touch_begin_down_shown_once (t : List RDPINPUT_CONTACT_POINT) (e x y : Int)
    (r : TouchResult) (s n : Nat)
    (hlen : t.length ≤ MAX_CONTACTS)
    (hbegin : rdpei_touch_begin t e x y = some r) (hslot : r.contactId = some (s : Int))
    (hn : 1 ≤ n) :
    ∃ first rest t', aggregationCycles n r.contactPoints = some (first :: rest, t') ∧
      rest.length + 1 = n ∧
      downContact s x y ∈ first ∧
      (downContact s x y).contactFlags =
        (CONTACT_FLAG_DOWN ||| CONTACT_FLAG_INRANGE) ||| CONTACT_FLAG_INCONTACT ∧
      (updateContact s x y).contactFlags =
        (CONTACT_FLAG_UPDATE ||| CONTACT_FLAG_INRANGE) ||| CONTACT_FLAG_INCONTACT ∧
      (∀ f ∈ rest, updateContact s x y ∈ f ∧
        ∀ c ∈ f, c.contactFlags &&& CONTACT_FLAG_DOWN = 0) ∧
      ((∀ (j : Nat) q, t[j]? = some q → j ≠ s → (q.dirty = true ∨ q.active = true) →
          q.data.contactId ≠ s) →
        first.filter (fun c => decide (c.contactId = s)) = [downContact s x y] ∧
        ∀ f ∈ rest, f.filter (fun c => decide (c.contactId = s)) = [updateContact s x y]) ∧
      (Reachable t →
        first.filter (fun c => decide (c.contactId = s)) = [downContact s x y] ∧
        ∀ f ∈ rest, f.filter (fun c => decide (c.contactId = s)) = [updateContact s x y]) := by
  obtain ⟨pre, p, post, ht, hs, -, -, hr⟩ := rdpei_touch_begin_slot t e x y r s hbegin hslot
  obtain ⟨m, rfl⟩ : ∃ m, n = m + 1 := ⟨n - 1, by omega⟩
  have hlen' : r.contactPoints.length ≤ MAX_CONTACTS := by
    rw [hr]; rw [ht] at hlen; simpa using hlen
  have hrun := aggregationCycles_eq (m + 1) r.contactPoints hlen'
  rw [List.range_succ_eq_map, List.map_cons, List.map_map] at hrun
  have hfilter : ∀ (k : Nat) (c : RDPINPUT_CONTACT_DATA),
      frameEntry (afterCycle^[k] (beganPoint s e x y p)) = some c →
      (∀ (j : Nat) q, t[j]? = some q → j ≠ s → (q.dirty = true ∨ q.active = true) →
          q.data.contactId ≠ s) →
      (((r.contactPoints.map (afterCycle^[k])).filterMap frameEntry).filter
        (fun c => decide (c.contactId = s))) = [c] := by
    intro k c hc hown
    have hcid : c.contactId = s := by
      have := (frameEntry_iterate_source k _ c hc).1
      simpa [beganPoint, downContact] using this
    have hside : ∀ q, (q ∈ pre ∨ q ∈ post) → (q.dirty = true ∨ q.active = true) →
        q.data.contactId ≠ s := by
      intro q hq hrep
      obtain ⟨j, hj, hjq⟩ := mem_append_cons_getElem? pre p post q hq
      rw [← ht] at hjq
      exact hown j q hjq (by rw [← hs]; exact hj) hrep
    rw [hr, List.map_append, List.map_cons, List.filterMap_append, List.filterMap_cons, hc,
      List.filter_append, List.filter_cons,
      frame_filter_other k s pre (fun q hq => hside q (Or.inl hq)),
      frame_filter_other k s post (fun q hq => hside q (Or.inr hq))]
    simp [hcid]
  have hfirst : frameEntry (afterCycle^[0] (beganPoint s e x y p)) = some (downContact s x y) := by
    simp [frameEntry, beganPoint]
  have honly : (∀ (j : Nat) q, t[j]? = some q → j ≠ s → (q.dirty = true ∨ q.active = true) →
        q.data.contactId ≠ s) →
      (((r.contactPoints.map (afterCycle^[0])).filterMap frameEntry).filter
          (fun c => decide (c.contactId = s)) = [downContact s x y]) ∧
      ∀ f ∈ List.map ((fun k => (r.contactPoints.map (afterCycle^[k])).filterMap frameEntry) ∘
            Nat.succ) (List.range m),
        f.filter (fun c => decide (c.contactId = s)) = [updateContact s x y] := by
    intro hown
    refine ⟨hfilter 0 _ hfirst hown, ?_⟩
    intro f hf
    obtain ⟨k, -, hk⟩ := List.mem_map.1 hf
    subst hk
    exact hfilter (k + 1) _ (afterCycle_iterate_beganPoint k s e x y p) hown
  refine ⟨_, _, _, hrun, by simp, ?_, rfl, rfl, ?_, honly, ?_⟩
  · rw [List.mem_filterMap]
    refine ⟨beganPoint s e x y p, ?_, by simp [frameEntry, beganPoint]⟩
    rw [hr]
    simp
  · intro f hf
    obtain ⟨k, -, hk⟩ := List.mem_map.1 hf
    subst hk
    simp only [Function.comp]
    refine ⟨?_, ?_⟩
    · rw [List.mem_filterMap]
      refine ⟨afterCycle^[k + 1] (beganPoint s e x y p), ?_,
        afterCycle_iterate_beganPoint k s e x y p⟩
      rw [hr]
      exact List.mem_map.2 ⟨_, by simp, rfl⟩
    · intro c hc
      obtain ⟨a, ha, hac⟩ := List.mem_filterMap.1 hc
      obtain ⟨q, -, hqa⟩ := List.mem_map.1 ha
      subst hqa
      exact frameEntry_iterate_no_down k q c hac
  · intro hreach
    refine honly ?_
    intro j q hj hjs hrep
    rw [reachableWith_ownData _ t hreach j q hj hrep]
    exact hjs

/-- Witness of C4: `touchBegin(42, 100, 100)` on two zeroed slots, then three
cycles: the frames are DOWN, UPDATE, UPDATE for slot 0. -/
theorem touch_begin_down_shown_once_witness :
    (initialTable 2).length ≤ MAX_CONTACTS ∧
    rdpei_touch_begin (initialTable 2) 42 100 100 =
      some { contactPoints := sampleBegun, error := CHANNEL_RC_OK, contactId := some 0 } ∧
    (some 0 : Option Int) = some ((0 : Nat) : Int) ∧ 1 ≤ 3 ∧
    (aggregationCycles 3 sampleBegun).map (fun run => run.1) =
      some [[downContact 0 100 100], [updateContact 0 100 100], [updateContact 0 100 100]] ∧
    ∃ first rest t', aggregationCycles 3 sampleBegun = some (first :: rest, t') ∧
      rest.length + 1 = 3 ∧
      downContact 0 100 100 ∈ first ∧
      (downContact 0 100 100).contactFlags =
        (CONTACT_FLAG_DOWN ||| CONTACT_FLAG_INRANGE) ||| CONTACT_FLAG_INCONTACT ∧
      (updateContact 0 100 100).contactFlags =
        (CONTACT_FLAG_UPDATE ||| CONTACT_FLAG_INRANGE) ||| CONTACT_FLAG_INCONTACT ∧
      (∀ f ∈ rest, updateContact 0 100 100 ∈ f ∧
        ∀ c ∈ f, c.contactFlags &&& CONTACT_FLAG_DOWN = 0) ∧
      ((∀ (j : Nat) q, (initialTable 2)[j]? = some q → j ≠ 0 →
          (q.dirty = true ∨ q.active = true) → q.data.contactId ≠ 0) →
        first.filter (fun c => decide (c.contactId = 0)) = [downContact 0 100 100] ∧
        ∀ f ∈ rest, f.filter (fun c => decide (c.contactId = 0)) = [updateContact 0 100 100]) ∧
      (Reachable (initialTable 2) →
        first.filter (fun c => decide (c.contactId = 0)) = [downContact 0 100 100] ∧
        ∀ f ∈ rest, f.filter (fun c => decide (c.contactId = 0)) = [updateContact 0 100 100]) :=
  ⟨by decide, by decide, rfl, by decide, by decide,
   touch_begin_down_shown_once (initialTable 2) 42 100 100
     { contactPoints := sampleBegun, error := CHANNEL_RC_OK, contactId := some 0 } 0 3
     (by decide) (by decide) rfl (by decide)⟩

/-- C5, as stated, fails: `touchBegin(42, 100, 100)` and `touchUpdate(42, 101, 101)`
both succeed with no cycle in between; the cycle that follows builds the frame
with the UPDATE record alone, and the DOWN record of the first call is in no
frame. -/
theorem one_shot_down_overwritten :
    ∃ log, runSession (startLog (initialTable 1))
        ([SessionStep.touchBegin 42 100 100, SessionStep.touchUpdate 42 101 101] ++
          [SessionStep.addFrame]) = some log ∧
      log.recorded = [downContact 0 100 100, updateContact 0 101 101] ∧
      log.frames = [[updateContact 0 101 101]] ∧
      log.reported = [updateContact 0 101 101] ∧
      ¬ log.recorded.Perm log.reported :=
  ⟨{ contactPoints :=
       [{ updatedPoint 0 101 101 (beganPoint 0 42 100 100 zeroPoint) with dirty := false }],
     recorded := [downContact 0 100 100, updateContact 0 101 101],
     frames := [[updateContact 0 101 101]],
     reported := [updateContact 0 101 101],
     overwrote := true },
   by decide, rfl, rfl, rfl, fun h => absurd h.length_eq (by decide)⟩

/-- C5, amended: a session that starts on a reachable table with no dirty
slot and ends with an aggregation cycle runs to its end, and if no successful
call wrote its record into a slot that was still dirty, then the one-shot
events recorded by the successful calls (DOWN of `rdpei_touch_begin`, UPDATE
of `rdpei_touch_update`, UP of `rdpei_touch_end`) are, counted with
multiplicity, exactly the one-shot reports of the frames: none is lost, none
is reported twice; each of them is an entry of a frame that was built, and no
slot is left dirty. -/
theorem one_shot_reported_once (t : List RDPINPUT_CONTACT_POINT) (steps : List SessionStep)
    (hreach : Reachable t) (hclean : ∀ p ∈ t, p.dirty = false) :
    ∃ log, runSession (startLog t) (steps ++ [SessionStep.addFrame]) = some log ∧
      (∀ c ∈ log.reported, ∃ f ∈ log.frames, c ∈ f) ∧
      (∀ p ∈ log.contactPoints, p.dirty = false) ∧
      (log.overwrote = false → log.recorded.Perm log.reported) := by
  have hstart : SessionInv (startLog t) := by
    refine ⟨hreach, fun _ => ?_, by simp [startLog]⟩
    have h0 : oneShotReports t = [] := by
      simp only [oneShotReports, List.map_eq_nil_iff, List.filter_eq_nil_iff]
      intro p hp
      simp [hclean p hp]
    simp [startLog, h0]
  obtain ⟨mid, hmid⟩ := runSession_total steps _ hstart
  have hinv := runSession_inv steps _ mid hstart hmid
  obtain ⟨hlen, -, -⟩ := reachableWith_inv _ _ hinv.1
  obtain ⟨log, hlast⟩ := sessionStep_total mid SessionStep.addFrame hinv.1
  obtain ⟨-, hperm, hmem⟩ := sessionStep_inv mid log _ hinv hlast
  refine ⟨log, ?_, hmem, ?_, ?_⟩
  · rw [runSession_append, hmid]
    simp only [Option.some_bind, runSession, hlast]
  · simp only [sessionStep, rdpei_add_frame_eq _ hlen, Option.some.injEq] at hlast
    subst hlast
    intro p hp
    obtain ⟨q, -, hq⟩ := List.mem_map.1 hp
    rw [← hq]
    exact afterCycle_dirty q
  · intro hkept
    have := hperm hkept
    simp only [sessionStep, rdpei_add_frame_eq _ hlen, Option.some.injEq] at hlast
    subst hlast
    simpa [oneShotReports_afterCycle] using this

/-- Witness of C5 (amended): two contacts, every call followed by a cycle before
the next call on the same slot; four one-shot events are recorded, none is
overwritten, and the frames report the same four. -/
theorem one_shot_reported_once_witness :
    Reachable (initialTable 2) ∧ (∀ p ∈ initialTable 2, p.dirty = false) ∧
    (runSession (startLog (initialTable 2))
        ([SessionStep.touchBegin 42 100 100, SessionStep.addFrame,
          SessionStep.touchUpdate 42 101 101, SessionStep.touchBegin 1 2 3,
          SessionStep.addFrame, SessionStep.touchEnd 42 5 5] ++
          [SessionStep.addFrame])).map
        (fun log => (log.overwrote, log.recorded, log.frames)) =
      some (false,
        [downContact 0 100 100, updateContact 0 101 101, downContact 1 2 3, upContact 0 5 5],
        [[downContact 0 100 100], [updateContact 0 101 101, downContact 1 2 3],
         [upContact 0 5 5, updateContact 1 2 3]]) ∧
    ∃ log, runSession (startLog (initialTable 2))
        ([SessionStep.touchBegin 42 100 100, SessionStep.addFrame,
          SessionStep.touchUpdate 42 101 101, SessionStep.touchBegin 1 2 3,
          SessionStep.addFrame, SessionStep.touchEnd 42 5 5] ++ [SessionStep.addFrame])
          = some log ∧
      (∀ c ∈ log.reported, ∃ f ∈ log.frames, c ∈ f) ∧
      (∀ p ∈ log.contactPoints, p.dirty = false) ∧
      (log.overwrote = false → log.recorded.Perm log.reported) :=
  ⟨ReachableWith.init 2 (by decide), by decide, by decide,
   one_shot_reported_once (initialTable 2)
     [SessionStep.touchBegin 42 100 100, SessionStep.addFrame,
      SessionStep.touchUpdate 42 101 101, SessionStep.touchBegin 1 2 3,
      SessionStep.addFrame, SessionStep.touchEnd 42 5 5]
     (ReachableWith.init 2 (by decide)) (by decide)⟩

/-- C6, as stated, fails: after `touchBegin(7, 1, 1)` and `touchBegin(7, 2, 2)`
slot 1 holds an active contact of external id 7.  `touchEnd(7, 1, 5)` returns
slot 0, the lowest slot with that id; the frame of the next cycle is the UP
record of slot 0 and the DOWN record of slot 1, so it has no entry with
contact id 1 and flags UP; slot 1 is still active, and the next
`touchBegin` gets slot 0, not slot 1. -/
theorem touch_end_twin_contact_not_ended :
    touchBeginAll (initialTable 2) [(7, 1, 1), (7, 2, 2)] =
      some (sampleTwin, [some 0, some 1]) ∧
    Reachable sampleTwin ∧
    (sampleTwin[1]?).map (fun p => (p.active, p.externalId)) = some (true, 7) ∧
    (rdpei_touch_end sampleTwin 7 1 5).map (fun r => r.contactId) = some (some 0) ∧
    ((rdpei_touch_end sampleTwin 7 1 5).bind
        (fun r => rdpei_add_frame r.contactPoints)).map (fun f => f.contacts) =
      some [upContact 0 1 5, downContact 1 2 2] ∧
    (∀ c ∈ [upContact 0 1 5, downContact 1 2 2],
      ¬ (c.contactId = 1 ∧ c.contactFlags = CONTACT_FLAG_UP)) ∧
    ((rdpei_touch_end sampleTwin 7 1 5).bind
        (fun r => rdpei_add_frame r.contactPoints)).map
      (fun f => (f.contactPoints[1]?).map (fun q => q.active)) = some (some true) ∧
    (((rdpei_touch_end sampleTwin 7 1 5).bind
        (fun r => rdpei_add_frame r.contactPoints)).bind
      (fun f => rdpei_touch_begin f.contactPoints 9 3 3)).map (fun b => b.contactId) =
      some (some 0) :=
  ⟨by decide, sampleTwin_reachable _, by decide, by decide, by decide, by decide, by decide,
   by decide⟩

/-- C6, amended: in a reachable table where `e` resolves to slot `s` (the
lowest active slot that carries `e`),
`rdpei_touch_end e x y` followed at once by one aggregation cycle gives a
frame that holds the record with contact id `s`, position `(x, y)` and flags
exactly UP; slot `s` is then inactive (and no longer dirty), and a later
`rdpei_touch_begin` succeeds with a slot not above `s`, which is `s` itself
whenever every slot below `s` was active. -/
theorem touch_end_reports_up_and_frees (t : List RDPINPUT_CONTACT_POINT) (e x y : Int)
    (s : Nat) (p : RDPINPUT_CONTACT_POINT)
    (hreach : Reachable t) (hres : Resolves t e s p) :
    ∃ r f, rdpei_touch_end t e x y = some r ∧ r.contactId = some (s : Int) ∧
      r.error = CHANNEL_RC_OK ∧
      rdpei_add_frame r.contactPoints = some f ∧
      upContact s x y ∈ f.contacts ∧
      (upContact s x y).contactId = s ∧ (upContact s x y).x = x ∧ (upContact s x y).y = y ∧
      (upContact s x y).contactFlags = CONTACT_FLAG_UP ∧
      (∃ q, f.contactPoints[s]? = some q ∧ q.active = false ∧ q.dirty = false) ∧
      ∀ e' x' y', ∃ b k, rdpei_touch_begin f.contactPoints e' x' y' = some b ∧
        b.contactId = some ((k : Nat) : Int) ∧ k ≤ s ∧
        ((∀ (j : Nat) q, j < s → t[j]? = some q → q.active = true) → k = s) := by
  obtain ⟨hlen, hown, -⟩ := reachableWith_inv _ t hreach
  obtain ⟨pre, post, ht, hs, hpre, hpa, hpe, hid, hlt⟩ := resolves_split t e s p hown hlen hres
  subst ht
  subst hs
  have hend := rdpei_touch_end_found pre post p e x y hpre hpa hpe hid hlt
  have hlen' : (pre ++ endedPoint pre.length x y p :: post).length ≤ MAX_CONTACTS := by
    simpa using hlen
  have hframe := rdpei_add_frame_eq _ hlen'
  have hslot : ((pre ++ endedPoint pre.length x y p :: post).map afterCycle)[pre.length]? =
      some (afterCycle (endedPoint pre.length x y p)) := by
    rw [List.getElem?_map, getElem?_append_cons_self]; rfl
  have hinact : (afterCycle (endedPoint pre.length x y p)).active = false := by
    rw [afterCycle_active]; rfl
  refine ⟨_, _, hend, rfl, rfl, hframe, ?_, rfl, rfl, rfl, rfl,
    ⟨_, hslot, hinact, afterCycle_dirty _⟩, ?_⟩
  · rw [List.mem_filterMap]
    exact ⟨endedPoint pre.length x y p, by simp, by simp [frameEntry, endedPoint]⟩
  · intro e' x' y'
    rcases rdpei_touch_begin_effect
        ((pre ++ endedPoint pre.length x y p :: post).map afterCycle) e' x' y' with
      ⟨hall, -⟩ | ⟨pre', p', post', ht', hpre', hp', hb⟩
    · have := hall _ (List.getElem?_mem hslot)
      rw [hinact] at this
      cases this
    · refine ⟨_, pre'.length, hb, rfl, ?_, ?_⟩
      · by_contra hgt
        have hlt' : pre.length < pre'.length := by omega
        rw [ht', List.getElem?_append_left hlt'] at hslot
        have := hpre' _ (List.getElem?_mem hslot)
        rw [hinact] at this
        cases this
      · intro hbelow
        by_contra hne
        have hk : pre'.length < pre.length := by
          have hle : pre'.length ≤ pre.length := by
            by_contra hgt
            have hlt' : pre.length < pre'.length := by omega
            rw [ht', List.getElem?_append_left hlt'] at hslot
            have := hpre' _ (List.getElem?_mem hslot)
            rw [hinact] at this
            cases this
          omega
        have h1 : ((pre ++ endedPoint pre.length x y p :: post).map afterCycle)[pre'.length]? =
            some p' := by
          rw [ht']; exact getElem?_append_cons_self pre' p' post'
        rw [List.getElem?_map, List.getElem?_append_left hk] at h1
        cases hq : pre[pre'.length]? with
        | none => simp [hq] at h1
        | some q =>
          simp only [hq, Option.map_some', Option.some.injEq] at h1
          have hqa : q.active = true :=
            hbelow pre'.length q hk (by rw [List.getElem?_append_left hk]; exact hq)
          rw [← h1, afterCycle_active, hqa] at hp'
          cases hp'

/-- Witness of C6 (amended), the scenario of the specification: external id 42 holds slot 0
(begun at (100, 100) and reported once); `touchEnd(42, 105, 100)` and one cycle
give the frame with the single record of slot 0 at (105, 100) with flag UP,
and the next `touchBegin` returns slot 0. -/
theorem touch_end_reports_up_and_frees_witness :
    Reachable sampleReported ∧
    Resolves sampleReported 42 0 { beganPoint 0 42 100 100 zeroPoint with dirty := false } ∧
    (rdpei_add_frame sampleEnded).map (fun f => f.contacts) = some [upContact 0 105 100] ∧
    ((rdpei_add_frame sampleEnded).bind
        (fun f => rdpei_touch_begin f.contactPoints 7 1 1)).map (fun b => b.contactId)
      = some (some 0) ∧
    ∃ r f, rdpei_touch_end sampleReported 42 105 100 = some r ∧
      r.contactId = some ((0 : Nat) : Int) ∧
      r.error = CHANNEL_RC_OK ∧
      rdpei_add_frame r.contactPoints = some f ∧
      upContact 0 105 100 ∈ f.contacts ∧
      (upContact 0 105 100).contactId = 0 ∧ (upContact 0 105 100).x = 105 ∧
      (upContact 0 105 100).y = 100 ∧
      (upContact 0 105 100).contactFlags = CONTACT_FLAG_UP ∧
      (∃ q, f.contactPoints[0]? = some q ∧ q.active = false ∧ q.dirty = false) ∧
      ∀ e' x' y', ∃ b k, rdpei_touch_begin f.contactPoints e' x' y' = some b ∧
        b.contactId = some ((k : Nat) : Int) ∧ k ≤ 0 ∧
        ((∀ (j : Nat) q, j < 0 → sampleReported[j]? = some q → q.active = true) → k = 0) :=
  ⟨sampleReported_reachable _, (resolves_iff_findExternal _ _ _ _).2 (by decide),
   by decide, by decide,
   touch_end_reports_up_and_frees sampleReported 42 105 100 0
     { beganPoint 0 42 100 100 zeroPoint with dirty := false }
     (sampleReported_reachable _) ((resolves_iff_findExternal _ _ _ _).2 (by decide))⟩

/-- C7, as stated, fails: after `touchBegin(7, 1, 1)` and `touchBegin(7, 2, 2)`
the active contact in slot 1 was last seen at (2, 2).  Ending id 7 at (1, 5)
differs from (2, 2) in both axes, yet no update runs: the guard reads slot 0,
last seen at (1, 1), and the call is the UP record and the reset of slot 0
alone.  Ending id 7 at (2, 5) differs from (2, 2) in one axis only, yet the
update runs (it moves the last position of slot 0 to (2, 5)).  Slot 1 is
left as it was in both cases. -/
theorem touch_end_guard_reads_lowest_twin :
    Reachable sampleTwin ∧
    (sampleTwin[1]?).map (fun p => (p.active, p.externalId, p.lastX, p.lastY)) =
      some (true, 7, 2, 2) ∧
    rdpei_touch_end sampleTwin 7 1 5 = rdpei_touch_end_release sampleTwin 0 1 5 0 ∧
    (rdpei_touch_end sampleTwin 7 1 5).map (fun r => r.contactPoints[1]?) =
      some (sampleTwin[1]?) ∧
    rdpei_touch_end sampleTwin 7 2 5 ≠ rdpei_touch_end_release sampleTwin 0 2 5 0 ∧
    rdpei_touch_end sampleTwin 7 2 5 =
      (rdpei_touch_update sampleTwin 7 2 5).bind
        (fun u => rdpei_touch_end_release u.contactPoints 0 2 5 0) ∧
    (rdpei_touch_end sampleTwin 7 2 5).map
        (fun r => (r.contactPoints[0]?).map (fun q => (q.lastX, q.lastY))) =
      some (some (2, 5)) ∧
    (rdpei_touch_end sampleTwin 7 2 5).map (fun r => r.contactPoints[1]?) =
      some (sampleTwin[1]?) :=
  ⟨sampleTwin_reachable _, by decide, by decide, by decide, by decide, by decide, by decide,
   by decide⟩

/-- C7, amended: in a reachable table where `e` resolves to slot `s` holding
`p` (the lowest active slot that carries `e`),
`rdpei_touch_end e x y` runs `rdpei_touch_update e x y` before it records the
UP report exactly when `x` differs from `p.lastX` and `y` differs from
`p.lastY`; otherwise (one axis or no axis differs) it only records the UP
report and frees the slot, and the stored last position stays as it was. -/
theorem touch_end_both_axes_rule (t : List RDPINPUT_CONTACT_POINT) (e x y : Int)
    (s : Nat) (p : RDPINPUT_CONTACT_POINT)
    (hreach : Reachable t) (hres : Resolves t e s p) :
    ∃ r, rdpei_touch_end t e x y = some r ∧ r.contactId = some (s : Int) ∧
      r.contactPoints[s]? = some (endedPoint s x y p) ∧
      (∀ j, j ≠ s → r.contactPoints[j]? = t[j]?) ∧
      ((p.lastX ≠ x ∧ p.lastY ≠ y) →
        (∃ u, rdpei_touch_update t e x y = some u ∧
          u.contactPoints[s]? = some (updatedPoint s x y p) ∧
          rdpei_touch_end t e x y =
            rdpei_touch_end_release u.contactPoints s x y (s : Int)) ∧
        (endedPoint s x y p).lastX = x ∧ (endedPoint s x y p).lastY = y) ∧
      (¬ (p.lastX ≠ x ∧ p.lastY ≠ y) →
        rdpei_touch_end t e x y = rdpei_touch_end_release t s x y (s : Int) ∧
        (endedPoint s x y p).lastX = p.lastX ∧ (endedPoint s x y p).lastY = p.lastY) := by
  obtain ⟨hlen, hown, -⟩ := reachableWith_inv _ t hreach
  obtain ⟨pre, post, ht, hs, hpre, hpa, hpe, hid, hlt⟩ := resolves_split t e s p hown hlen hres
  subst ht
  subst hs
  have hend := rdpei_touch_end_found pre post p e x y hpre hpa hpe hid hlt
  have hupd := rdpei_touch_update_found pre post p e x y hpre hpa hpe hid hlt
  have h0 : findExternal e (pre ++ p :: post) 0 = some (pre.length, p) :=
    (resolves_iff_findExternal _ e _ p).1 hres
  have h1 : toInt32 p.contactId = (pre.length : Int) := by rw [hid, toInt32_of_lt _ hlt]
  have h2 : (0 : Int) ≤ (pre.length : Int) := Int.natCast_nonneg _
  refine ⟨_, hend, rfl, getElem?_append_cons_self _ _ _,
    fun j hj => getElem?_append_cons_ne pre _ _ post j hj, ?_, ?_⟩
  · intro hboth
    refine ⟨⟨_, hupd, getElem?_append_cons_self _ _ _, ?_⟩, ?_, ?_⟩
    · simp only [rdpei_touch_end, h0, h1, ge_iff_le, h2, if_true, if_pos hboth, hupd]
      simp [CHANNEL_RC_OK]
    · simp [endedPoint, hboth]
    · simp [endedPoint, hboth]
  · intro hnot
    refine ⟨?_, ?_, ?_⟩
    · simp only [rdpei_touch_end, h0, h1, ge_iff_le, h2, if_true, if_neg hnot]
    · simp [endedPoint, hnot]
    · simp [endedPoint, hnot]

/-- Witness of C7 (amended): the contact of external id 42 was last seen at (100, 100);
ending it at (105, 100) changes one axis only. -/
theorem touch_end_both_axes_rule_witness :
    Reachable sampleReported ∧
    Resolves sampleReported 42 0 { beganPoint 0 42 100 100 zeroPoint with dirty := false } ∧
    rdpei_touch_end sampleReported 42 105 100 =
      some { contactPoints := sampleEnded, error := CHANNEL_RC_OK, contactId := some 0 } ∧
    (sampleEnded[0]?).map (fun q => (q.lastX, q.lastY)) = some (100, 100) ∧
    ∃ r, rdpei_touch_end sampleReported 42 105 100 = some r ∧
      r.contactId = some ((0 : Nat) : Int) ∧
      r.contactPoints[0]? = some
        (endedPoint 0 105 100 { beganPoint 0 42 100 100 zeroPoint with dirty := false }) ∧
      (∀ j, j ≠ 0 → r.contactPoints[j]? = sampleReported[j]?) ∧
      (((100 : Int) ≠ 105 ∧ (100 : Int) ≠ 100) →
        (∃ u, rdpei_touch_update sampleReported 42 105 100 = some u ∧
          u.contactPoints[0]? = some
            (updatedPoint 0 105 100
              { beganPoint 0 42 100 100 zeroPoint with dirty := false }) ∧
          rdpei_touch_end sampleReported 42 105 100 =
            rdpei_touch_end_release u.contactPoints 0 105 100 ((0 : Nat) : Int)) ∧
        (endedPoint 0 105 100
          { beganPoint 0 42 100 100 zeroPoint with dirty := false }).lastX = 105 ∧
        (endedPoint 0 105 100
          { beganPoint 0 42 100 100 zeroPoint with dirty := false }).lastY = 100) ∧
      (¬ ((100 : Int) ≠ 105 ∧ (100 : Int) ≠ 100) →
        rdpei_touch_end sampleReported 42 105 100 =
          rdpei_touch_end_release sampleReported 0 105 100 ((0 : Nat) : Int) ∧
        (endedPoint 0 105 100
          { beganPoint 0 42 100 100 zeroPoint with dirty := false }).lastX = 100 ∧
        (endedPoint 0 105 100
          { beganPoint 0 42 100 100 zeroPoint with dirty := false }).lastY = 100) :=
  ⟨sampleReported_reachable _, (resolves_iff_findExternal _ _ _ _).2 (by decide),
   by decide, by decide,
   touch_end_both_axes_rule sampleReported 42 105 100 0
     { beganPoint 0 42 100 100 zeroPoint with dirty := false }
     (sampleReported_reachable _) ((resolves_iff_findExternal _ _ _ _).2 (by decide))⟩

/-- C8, the code at the failing input: one contact begun at (100, 100) and
reported, then `touchEnd(42, 105, 105)`, which differs in both axes.  The
update made inside `rdpei_touch_end` moves the stored last position to
(105, 105), but the frames built afterwards hold the UP record only: no frame
holds a record with the UPDATE flag at (105, 105). -/
theorem touch_end_update_record_overwritten :
    ∃ log, runSession (startLog (initialTable 10))
        [SessionStep.touchBegin 42 100 100, SessionStep.addFrame,
         SessionStep.touchEnd 42 105 105, SessionStep.addFrame, SessionStep.addFrame,
         SessionStep.addFrame] = some log ∧
      log.frames = [[downContact 0 100 100], [upContact 0 105 105], [], []] ∧
      (log.contactPoints[0]?).map (fun q => (q.lastX, q.lastY)) = some (105, 105) ∧
      ∀ f ∈ log.frames, ∀ c ∈ f,
        ¬ (c.contactFlags &&& CONTACT_FLAG_UPDATE ≠ 0 ∧ c.x = 105 ∧ c.y = 105) :=
  ⟨(runSession (startLog (initialTable 10))
        [SessionStep.touchBegin 42 100 100, SessionStep.addFrame,
         SessionStep.touchEnd 42 105 105, SessionStep.addFrame, SessionStep.addFrame,
         SessionStep.addFrame]).get (by decide),
   (Option.some_get _).symm, by decide, by decide, by decide⟩

/-- C9: in a reachable table where two distinct external ids `a` and `b`
resolve to slots `i` and `j`, the two slots are distinct, and
`rdpei_touch_end a x y` as well as `rdpei_touch_update a x y` change no slot
other than `i`: slot `j` keeps every field, and `b` still resolves to slot `j`
with the same content afterwards. -/
theorem touch_end_leaves_other_contact (t : List RDPINPUT_CONTACT_POINT) (a b x y : Int)
    (i j : Nat) (p q : RDPINPUT_CONTACT_POINT)
    (hreach : Reachable t) (ha : Resolves t a i p) (hb : Resolves t b j q) (hab : a ≠ b) :
    i ≠ j ∧
    (∃ r, rdpei_touch_end t a x y = some r ∧ r.contactId = some (i : Int) ∧
      (∀ k, k ≠ i → r.contactPoints[k]? = t[k]?) ∧
      r.contactPoints[j]? = some q ∧ Resolves r.contactPoints b j q) ∧
    (∃ r, rdpei_touch_update t a x y = some r ∧ r.contactId = some (i : Int) ∧
      (∀ k, k ≠ i → r.contactPoints[k]? = t[k]?) ∧
      r.contactPoints[j]? = some q ∧ Resolves r.contactPoints b j q) := by
  have hij : i ≠ j := by
    intro hij
    subst hij
    have h1 := ha.1
    rw [hb.1] at h1
    simp only [Option.some.injEq] at h1
    subst h1
    exact hab (ha.2.2.1.symm.trans hb.2.2.1)
  obtain ⟨hlen, hown, -⟩ := reachableWith_inv _ t hreach
  obtain ⟨pre, post, ht, hs, hpre, hpa, hpe, hid, hlt⟩ := resolves_split t a i p hown hlen ha
  subst ht
  subst hs
  have hkeep : ∀ (p' : RDPINPUT_CONTACT_POINT),
      (p'.active = true → p'.externalId ≠ b) →
      (∀ k, k ≠ pre.length → (pre ++ p' :: post)[k]? = (pre ++ p :: post)[k]?) ∧
      (pre ++ p' :: post)[j]? = some q ∧ Resolves (pre ++ p' :: post) b j q := by
    intro p' hp'
    have hother : ∀ k, k ≠ pre.length → (pre ++ p' :: post)[k]? = (pre ++ p :: post)[k]? :=
      fun k hk => getElem?_append_cons_ne pre _ _ post k hk
    have hj : (pre ++ p' :: post)[j]? = some q := by
      rw [hother j (fun h => hij h.symm)]; exact hb.1
    refine ⟨hother, hj, hj, hb.2.1, hb.2.2.1, ?_⟩
    intro k c hk hc hca
    by_cases hks : k = pre.length
    · subst hks
      rw [getElem?_append_cons_self] at hc
      simp only [Option.some.injEq] at hc
      subst hc
      exact hp' hca
    · rw [hother k hks] at hc
      exact hb.2.2.2 k c hk hc hca
  refine ⟨hij, ⟨_, rdpei_touch_end_found pre post p a x y hpre hpa hpe hid hlt, rfl, ?_⟩,
    ⟨_, rdpei_touch_update_found pre post p a x y hpre hpa hpe hid hlt, rfl, ?_⟩⟩
  · exact hkeep _ (fun h => by simp [endedPoint] at h)
  · exact hkeep _ (fun _ => by
      show p.externalId ≠ b
      rw [hpe]; exact hab)

/-- Witness of C9: external ids 1 and 2 hold slots 0 and 1. -/
theorem touch_end_leaves_other_contact_witness :
    Reachable sampleTwo ∧
    Resolves sampleTwo 1 0 (beganPoint 0 1 10 10 zeroPoint) ∧
    Resolves sampleTwo 2 1 (beganPoint 1 2 20 20 zeroPoint) ∧ (1 : Int) ≠ 2 ∧
    ((0 : Nat) ≠ 1 ∧
    (∃ r, rdpei_touch_end sampleTwo 1 11 12 = some r ∧ r.contactId = some ((0 : Nat) : Int) ∧
      (∀ k, k ≠ 0 → r.contactPoints[k]? = sampleTwo[k]?) ∧
      r.contactPoints[1]? = some (beganPoint 1 2 20 20 zeroPoint) ∧
      Resolves r.contactPoints 2 1 (beganPoint 1 2 20 20 zeroPoint)) ∧
    (∃ r, rdpei_touch_update sampleTwo 1 11 12 = some r ∧
      r.contactId = some ((0 : Nat) : Int) ∧
      (∀ k, k ≠ 0 → r.contactPoints[k]? = sampleTwo[k]?) ∧
      r.contactPoints[1]? = some (beganPoint 1 2 20 20 zeroPoint) ∧
      Resolves r.contactPoints 2 1 (beganPoint 1 2 20 20 zeroPoint))) :=
  ⟨sampleTwo_reachable _, (resolves_iff_findExternal _ _ _ _).2 (by decide),
   (resolves_iff_findExternal _ _ _ _).2 (by decide), by decide,
   touch_end_leaves_other_contact sampleTwo 1 2 11 12 0 1
     (beganPoint 0 1 10 10 zeroPoint) (beganPoint 1 2 20 20 zeroPoint)
     (sampleTwo_reachable _) ((resolves_iff_findExternal _ _ _ _).2 (by decide))
     ((resolves_iff_findExternal _ _ _ _).2 (by decide)) (by decide)⟩

/-- C10, as stated, fails: after `touchBegin(42, 100, 100)`, one cycle and
`touchEnd(42, 105, 100)` the table is reachable and its slot 0 is dirty (the
UP record is pending) and not active. -/
theorem dirty_slot_not_active_after_touch_end :
    Reachable sampleEnded ∧
      ∃ p ∈ sampleEnded, p.dirty = true ∧ p.active = false ∧
        p.data = upContact 0 105 100 :=
  ⟨sampleEnded_reachable _,
   endedPoint 0 105 100 { beganPoint 0 42 100 100 zeroPoint with dirty := false },
   by decide, rfl, rfl, rfl⟩

/-- C10, amended: in every table reachable through `rdpei_touch_begin`,
`rdpei_touch_update`, `rdpei_touch_end`, `rdpei_add_frame` and raw upserts of
records that satisfy `P`, a dirty slot is active, or holds the pending UP
record of the `rdpei_touch_end` that freed it (flags exactly UP), or holds a
record written by a raw upsert.  With no raw upsert (`P` never holds) a dirty
slot is active or holds that UP record. -/
theorem dirty_slot_active_or_pending (P : RDPINPUT_CONTACT_DATA → Prop)
    (t : List RDPINPUT_CONTACT_POINT) (hreach : ReachableWith P t) :
    ∀ p ∈ t, p.dirty = true →
      p.active = true ∨ (p.active = false ∧ p.data.contactFlags = CONTACT_FLAG_UP) ∨
        P p.data := by
  intro p hp hd
  rcases (reachableWith_inv P t hreach).2.2 p hp hd with h | h | h
  · exact Or.inl h
  · cases ha : p.active
    · exact Or.inr (Or.inl ⟨rfl, h⟩)
    · exact Or.inl rfl
  · exact Or.inr (Or.inr h)

/-- Witness of C10 (amended): the table after begin, cycle and end, with no raw upsert. -/
theorem dirty_slot_active_or_pending_witness :
    ReachableWith (fun _ => False) sampleEnded ∧
    ∀ p ∈ sampleEnded, p.dirty = true →
      p.active = true ∨ (p.active = false ∧ p.data.contactFlags = CONTACT_FLAG_UP) ∨
        False :=
  ⟨sampleEnded_reachable _,
   dirty_slot_active_or_pending (fun _ => False) sampleEnded (sampleEnded_reachable _)⟩

/-- C11, as stated, fails: `touchBegin(7, 1, 1)` and `touchBegin(7, 2, 2)` on
two zeroed slots both succeed, with slots 0 and 1, and leave two distinct
active slots that carry the external id 7. -/
theorem touch_begin_twice_same_external_id :
    touchBeginAll (initialTable 2) [(7, 1, 1), (7, 2, 2)] =
        some (sampleTwin, [some 0, some 1]) ∧
      (∃ p q, sampleTwin[0]? = some p ∧ sampleTwin[1]? = some q ∧ p.active = true ∧
        q.active = true ∧ p.externalId = q.externalId) ∧
      ¬ InjectiveIds sampleTwin :=
  ⟨by decide,
   ⟨beganPoint 0 7 1 1 zeroPoint, beganPoint 1 7 2 2 zeroPoint, rfl, rfl, rfl, rfl, rfl⟩,
   fun h => absurd
     (h 0 1 (beganPoint 0 7 1 1 zeroPoint) (beganPoint 1 7 2 2 zeroPoint) rfl rfl rfl rfl rfl)
     (by decide)⟩

/-- C11, amended: in every table reachable from the zeroed table through
calls of `rdpei_touch_begin` with an external id that no active slot carries
at the time of the call, and through any calls of `rdpei_touch_update`,
`rdpei_touch_end`, `rdpei_add_contact` and `rdpei_add_frame`, no two distinct
active slots carry the same external id. -/
theorem fresh_external_ids_injective (t : List RDPINPUT_CONTACT_POINT)
    (hreach : ReachableFresh t) :
    ∀ (i j : Nat) (p q : RDPINPUT_CONTACT_POINT), t[i]? = some p → t[j]? = some q →
      p.active = true → q.active = true → p.externalId = q.externalId → i = j :=
  reachableFresh_injectiveIds t hreach

/-- Witness of C11 (amended): external ids 1 and 2 begun on two zeroed slots. -/
theorem fresh_external_ids_injective_witness :
    ReachableFresh sampleTwo ∧
    ∀ (i j : Nat) (p q : RDPINPUT_CONTACT_POINT), sampleTwo[i]? = some p →
      sampleTwo[j]? = some q → p.active = true → q.active = true →
      p.externalId = q.externalId → i = j :=
  ⟨@ReachableFresh.touchBegin [beganPoint 0 1 10 10 zeroPoint, zeroPoint] 2 20 20
      { contactPoints := sampleTwo, error := CHANNEL_RC_OK, contactId := some 1 }
      (@ReachableFresh.touchBegin (initialTable 2) 1 10 10
        { contactPoints := [beganPoint 0 1 10 10 zeroPoint, zeroPoint],
          error := CHANNEL_RC_OK, contactId := some 0 }
        (ReachableFresh.init 2 (by decide)) (by decide) (by decide))
      (by decide) (by decide),
   fresh_external_ids_injective sampleTwo
     (@ReachableFresh.touchBegin [beganPoint 0 1 10 10 zeroPoint, zeroPoint] 2 20 20
      { contactPoints := sampleTwo, error := CHANNEL_RC_OK, contactId := some 1 }
      (@ReachableFresh.touchBegin (initialTable 2) 1 10 10
        { contactPoints := [beganPoint 0 1 10 10 zeroPoint, zeroPoint],
          error := CHANNEL_RC_OK, contactId := some 0 }
        (ReachableFresh.init 2 (by decide)) (by decide) (by decide))
      (by decide) (by decide))⟩

/-- C12: on a table with an inactive slot, `rdpei_touch_begin externalId x y`
returns a slot `s` that was inactive and leaves it with active = TRUE, state
ENGAGED, the external id, last position `(x, y)`, dirty = TRUE and the pending
record with contact id `s`, position `(x, y)`, flags exactly
DOWN | INRANGE | INCONTACT and every other field zero; the record is written
by `rdpei_add_contact`, the raw upsert, applied to the table in which slot `s`
has been claimed, and no other slot is changed. -/
theorem touch_begin_claims_slot (t : List RDPINPUT_CONTACT_POINT) (e x y : Int)
    (hfree : ∃ p ∈ t, p.active = false) :
    ∃ r s p, rdpei_touch_begin t e x y = some r ∧ r.error = CHANNEL_RC_OK ∧
      r.contactId = some ((s : Nat) : Int) ∧ t[s]? = some p ∧ p.active = false ∧
      (∃ q, r.contactPoints[s]? = some q ∧ q.active = true ∧
        q.state = RDPINPUT_CONTACT_STATE_ENGAGED ∧ q.externalId = e ∧
        q.lastX = x ∧ q.lastY = y ∧ q.contactId = s ∧ q.flags = p.flags ∧ q.dirty = true ∧
        q.data =
          { contactId := s, fieldsPresent := 0, x := x, y := y,
            contactFlags :=
              (CONTACT_FLAG_DOWN ||| CONTACT_FLAG_INRANGE) ||| CONTACT_FLAG_INCONTACT,
            contactRectLeft := 0, contactRectTop := 0, contactRectRight := 0,
            contactRectBottom := 0, orientation := 0, pressure := 0 }) ∧
      (∃ claimed, claimed[s]? = some
          { p with
            contactId := s, externalId := e, active := true,
            state := RDPINPUT_CONTACT_STATE_ENGAGED, lastX := x, lastY := y } ∧
        (∀ j, j ≠ s → claimed[j]? = t[j]?) ∧
        rdpei_add_contact claimed (downContact s x y) =
          some (r.contactPoints, CHANNEL_RC_OK)) ∧
      (∀ j, j ≠ s → r.contactPoints[j]? = t[j]?) := by
  rcases rdpei_touch_begin_effect t e x y with ⟨hall, -⟩ | ⟨pre, p, post, ht, -, hp, h⟩
  · obtain ⟨p, hp, hpa⟩ := hfree
    rw [hall p hp] at hpa
    cases hpa
  · subst ht
    refine ⟨_, pre.length, p, h, rfl, rfl, getElem?_append_cons_self pre p post, hp,
      ⟨_, getElem?_append_cons_self pre _ post, rfl, rfl, rfl, rfl, rfl, rfl, rfl, rfl, rfl⟩,
      ⟨pre ++ { p with
                contactId := pre.length, externalId := e, active := true,
                state := RDPINPUT_CONTACT_STATE_ENGAGED, lastX := x, lastY := y } :: post,
        getElem?_append_cons_self pre _ post,
        fun j hj => getElem?_append_cons_ne pre _ _ post j hj, ?_⟩,
      fun j hj => getElem?_append_cons_ne pre _ _ post j hj⟩
    rw [rdpei_add_contact_at pre post _ _ rfl]
    rfl

/-- Witness of C12: `touchBegin(42, 100, 100)` on two zeroed slots. -/
theorem touch_begin_claims_slot_witness :
    (∃ p ∈ initialTable 2, p.active = false) ∧
    ∃ r s p, rdpei_touch_begin (initialTable 2) 42 100 100 = some r ∧
      r.error = CHANNEL_RC_OK ∧
      r.contactId = some ((s : Nat) : Int) ∧ (initialTable 2)[s]? = some p ∧
      p.active = false ∧
      (∃ q, r.contactPoints[s]? = some q ∧ q.active = true ∧
        q.state = RDPINPUT_CONTACT_STATE_ENGAGED ∧ q.externalId = 42 ∧
        q.lastX = 100 ∧ q.lastY = 100 ∧ q.contactId = s ∧ q.flags = p.flags ∧
        q.dirty = true ∧
        q.data =
          { contactId := s, fieldsPresent := 0, x := 100, y := 100,
            contactFlags :=
              (CONTACT_FLAG_DOWN ||| CONTACT_FLAG_INRANGE) ||| CONTACT_FLAG_INCONTACT,
            contactRectLeft := 0, contactRectTop := 0, contactRectRight := 0,
            contactRectBottom := 0, orientation := 0, pressure := 0 }) ∧
      (∃ claimed, claimed[s]? = some
          { p with
            contactId := s, externalId := 42, active := true,
            state := RDPINPUT_CONTACT_STATE_ENGAGED, lastX := 100, lastY := 100 } ∧
        (∀ j, j ≠ s → claimed[j]? = (initialTable 2)[j]?) ∧
        rdpei_add_contact claimed (downContact s 100 100) =
          some (r.contactPoints, CHANNEL_RC_OK)) ∧
      (∀ j, j ≠ s → r.contactPoints[j]? = (initialTable 2)[j]?) :=
  ⟨by decide, touch_begin_claims_slot (initialTable 2) 42 100 100 (by decide)⟩

/-- C13: in a reachable table in which some active slot carries
`externalId`, `rdpei_touch_update externalId x y` returns the lowest index `s`
of an active slot with that id; it leaves slot `s` with last position
`(x, y)`, dirty = TRUE and the pending record with contact id `s`, position
`(x, y)`, flags exactly UPDATE | INRANGE | INCONTACT and every other field
zero, its active flag, external id, contact id, state and flags unchanged;
no other slot is changed, so no inactive slot becomes active. -/
theorem touch_update_records_move (t : List RDPINPUT_CONTACT_POINT) (e x y : Int)
    (hreach : Reachable t) (hcarried : ∃ p ∈ t, p.active = true ∧ p.externalId = e) :
    ∃ r s p, Resolves t e s p ∧ rdpei_touch_update t e x y = some r ∧
      r.error = CHANNEL_RC_OK ∧ r.contactId = some ((s : Nat) : Int) ∧
      (∃ q, r.contactPoints[s]? = some q ∧ q.lastX = x ∧ q.lastY = y ∧ q.dirty = true ∧
        q.data =
          { contactId := s, fieldsPresent := 0, x := x, y := y,
            contactFlags :=
              (CONTACT_FLAG_UPDATE ||| CONTACT_FLAG_INRANGE) ||| CONTACT_FLAG_INCONTACT,
            contactRectLeft := 0, contactRectTop := 0, contactRectRight := 0,
            contactRectBottom := 0, orientation := 0, pressure := 0 } ∧
        q.active = p.active ∧ q.externalId = p.externalId ∧ q.contactId = p.contactId ∧
        q.state = p.state ∧ q.flags = p.flags) ∧
      (∀ j, j ≠ s → r.contactPoints[j]? = t[j]?) ∧
      r.contactPoints.length = t.length ∧
      (∀ (j : Nat) a b, t[j]? = some a → r.contactPoints[j]? = some b →
        b.active = a.active) := by
  obtain ⟨hlen, hown, -⟩ := reachableWith_inv _ t hreach
  rcases findExternal_split t e hown hlen with
    hnone | ⟨pre, p, post, ht, hf, hpre, hpa, hpe, hid, hlt⟩
  · obtain ⟨p, hp, hpa, hpe⟩ := hcarried
    exact absurd hpe (hnone p hp hpa)
  · have hupd := rdpei_touch_update_found pre post p e x y hpre hpa hpe hid hlt
    rw [← ht] at hupd
    refine ⟨_, pre.length, p, (resolves_iff_findExternal t e _ p).2 hf, hupd, rfl, rfl,
      ⟨_, getElem?_append_cons_self pre _ post, rfl, rfl, rfl, rfl, rfl, rfl, rfl, rfl, rfl⟩,
      ?_, ?_, ?_⟩
    · intro j hj
      rw [ht]
      exact getElem?_append_cons_ne pre _ _ post j hj
    · rw [ht]; simp
    · intro j a b hja hjb
      by_cases hj : j = pre.length
      · subst hj
        rw [ht, getElem?_append_cons_self] at hja
        rw [getElem?_append_cons_self] at hjb
        simp only [Option.some.injEq] at hja hjb
        rw [← hja, ← hjb]
        rfl
      · have : (pre ++ updatedPoint pre.length x y p :: post)[j]? = t[j]? := by
          rw [ht]; exact getElem?_append_cons_ne pre _ _ post j hj
        rw [this, hja] at hjb
        simp only [Option.some.injEq] at hjb
        rw [hjb]

/-- Witness of C13: external id 2 holds slot 1 of the table with two contacts. -/
theorem touch_update_records_move_witness :
    Reachable sampleTwo ∧ (∃ p ∈ sampleTwo, p.active = true ∧ p.externalId = 2) ∧
    (rdpei_touch_update sampleTwo 2 21 22).map (fun r => r.contactId) = some (some 1) ∧
    ∃ r s p, Resolves sampleTwo 2 s p ∧ rdpei_touch_update sampleTwo 2 21 22 = some r ∧
      r.error = CHANNEL_RC_OK ∧ r.contactId = some ((s : Nat) : Int) ∧
      (∃ q, r.contactPoints[s]? = some q ∧ q.lastX = 21 ∧ q.lastY = 22 ∧ q.dirty = true ∧
        q.data =
          { contactId := s, fieldsPresent := 0, x := 21, y := 22,
            contactFlags :=
              (CONTACT_FLAG_UPDATE ||| CONTACT_FLAG_INRANGE) ||| CONTACT_FLAG_INCONTACT,
            contactRectLeft := 0, contactRectTop := 0, contactRectRight := 0,
            contactRectBottom := 0, orientation := 0, pressure := 0 } ∧
        q.active = p.active ∧ q.externalId = p.externalId ∧ q.contactId = p.contactId ∧
        q.state = p.state ∧ q.flags = p.flags) ∧
      (∀ j, j ≠ s → r.contactPoints[j]? = sampleTwo[j]?) ∧
      r.contactPoints.length = sampleTwo.length ∧
      (∀ (j : Nat) a b, sampleTwo[j]? = some a → r.contactPoints[j]? = some b →
        b.active = a.active) :=
  ⟨sampleTwo_reachable _, by decide, by decide,
   touch_update_records_move sampleTwo 2 21 22 (sampleTwo_reachable _) (by decide)⟩

/-- C14: for every table and every record whose contact id is below
`maxTouchContacts`, `rdpei_add_contact` returns `CHANNEL_RC_OK`, puts a copy of
the record in the slot with that index and sets its dirty flag; the other
fields of that slot (active, external id, last position, contact id, state,
flags) and every other slot are unchanged. -/
theorem add_contact_replaces_record (t : List RDPINPUT_CONTACT_POINT)
    (c : RDPINPUT_CONTACT_DATA) (hslot : c.contactId < t.length) :
    ∃ t' p, rdpei_add_contact t c = some (t', CHANNEL_RC_OK) ∧
      t[c.contactId]? = some p ∧
      (∃ q, t'[c.contactId]? = some q ∧ q.data = c ∧ q.dirty = true ∧
        q.active = p.active ∧ q.externalId = p.externalId ∧ q.lastX = p.lastX ∧
        q.lastY = p.lastY ∧ q.contactId = p.contactId ∧ q.state = p.state ∧
        q.flags = p.flags) ∧
      (∀ j, j ≠ c.contactId → t'[j]? = t[j]?) ∧ t'.length = t.length := by
  obtain ⟨pre, p, post, ht, hpre⟩ := exists_split_at t c.contactId hslot
  subst ht
  refine ⟨_, p, rdpei_add_contact_at pre post p c hpre.symm, ?_, ?_, ?_, by simp⟩
  · rw [← hpre]; exact getElem?_append_cons_self pre p post
  · rw [← hpre]
    exact ⟨_, getElem?_append_cons_self pre _ post, rfl, rfl, rfl, rfl, rfl, rfl, rfl, rfl, rfl⟩
  · intro j hj
    rw [← hpre] at hj
    exact getElem?_append_cons_ne pre _ _ post j hj

/-- Witness of C14: a pen-like record for slot 1 of the table with one contact. -/
theorem add_contact_replaces_record_witness :
    (upContact 1 3 4).contactId < sampleBegun.length ∧
    ∃ t' p, rdpei_add_contact sampleBegun (upContact 1 3 4) = some (t', CHANNEL_RC_OK) ∧
      sampleBegun[(upContact 1 3 4).contactId]? = some p ∧
      (∃ q, t'[(upContact 1 3 4).contactId]? = some q ∧ q.data = upContact 1 3 4 ∧
        q.dirty = true ∧
        q.active = p.active ∧ q.externalId = p.externalId ∧ q.lastX = p.lastX ∧
        q.lastY = p.lastY ∧ q.contactId = p.contactId ∧ q.state = p.state ∧
        q.flags = p.flags) ∧
      (∀ j, j ≠ (upContact 1 3 4).contactId → t'[j]? = sampleBegun[j]?) ∧
      t'.length = sampleBegun.length :=
  ⟨by decide, add_contact_replaces_record sampleBegun (upContact 1 3 4) (by decide)⟩

/-- C15: for every table of at most `MAX_CONTACTS` slots (the size of the frame
array), `rdpei_add_frame` returns `CHANNEL_RC_OK` and builds the frame of the
reference: the contributions of the slots in increasing slot order, a dirty
slot giving its record verbatim, an active slot that is not dirty giving its
record with DOWN rewritten to UPDATE | INRANGE | INCONTACT, any other slot
giving nothing.  `contactCount` is the number of entries, which is the
number of slots that are dirty or active and so at most `maxTouchContacts`;
afterwards no slot is dirty; and when every reporting slot stores its own
index in its record, as in every reachable table, the contact ids of the
entries increase strictly. -/
theorem add_frame_matches_reference (t : List RDPINPUT_CONTACT_POINT)
    (hlen : t.length ≤ MAX_CONTACTS) :
    ∃ r, rdpei_add_frame t = some r ∧ r.error = CHANNEL_RC_OK ∧
      r.contacts = referenceFrame t ∧
      r.contactCount = r.contacts.length ∧
      r.contactCount = (t.filter (fun p => p.dirty || p.active)).length ∧
      r.contactCount ≤ t.length ∧
      r.contactPoints.length = t.length ∧
      (∀ p ∈ r.contactPoints, p.dirty = false) ∧
      (∀ (j : Nat) a b, t[j]? = some a → r.contactPoints[j]? = some b →
        b.active = a.active ∧ b.externalId = a.externalId) ∧
      (OwnData t → (r.contacts.map (fun c => c.contactId)).Sorted (· < ·)) ∧
      (Reachable t → (r.contacts.map (fun c => c.contactId)).Sorted (· < ·)) := by
  refine ⟨_, rdpei_add_frame_eq t hlen, rfl, (referenceFrame_eq t).symm, rfl,
    frame_length_eq_reporting t, ?_, by simp, ?_, ?_, frame_contactIds_sorted t,
    fun h => frame_contactIds_sorted t (reachableWith_ownData _ t h)⟩
  · show (t.filterMap frameEntry).length ≤ t.length
    exact List.length_filterMap_le _ _
  · intro p hp
    obtain ⟨q, -, hq⟩ := List.mem_map.1 hp
    rw [← hq]
    exact afterCycle_dirty q
  · intro j a b hja hjb
    rw [List.getElem?_map, hja] at hjb
    simp only [Option.map_some', Option.some.injEq] at hjb
    rw [← hjb]
    exact ⟨afterCycle_active a, afterCycle_externalId a⟩

/-- Witness of C15: a just ended slot, a continuing slot whose record still
shows DOWN, and an idle slot give the frame UP, UPDATE | INRANGE | INCONTACT. -/
theorem add_frame_matches_reference_witness :
    sampleMixed.length ≤ MAX_CONTACTS ∧
    referenceFrame sampleMixed = [upContact 0 5 5, updateContact 1 20 20] ∧
    ∃ r, rdpei_add_frame sampleMixed = some r ∧ r.error = CHANNEL_RC_OK ∧
      r.contacts = referenceFrame sampleMixed ∧
      r.contactCount = r.contacts.length ∧
      r.contactCount = (sampleMixed.filter (fun p => p.dirty || p.active)).length ∧
      r.contactCount ≤ sampleMixed.length ∧
      r.contactPoints.length = sampleMixed.length ∧
      (∀ p ∈ r.contactPoints, p.dirty = false) ∧
      (∀ (j : Nat) a b, sampleMixed[j]? = some a → r.contactPoints[j]? = some b →
        b.active = a.active ∧ b.externalId = a.externalId) ∧
      (OwnData sampleMixed → (r.contacts.map (fun c => c.contactId)).Sorted (· < ·)) ∧
      (Reachable sampleMixed → (r.contacts.map (fun c => c.contactId)).Sorted (· < ·)) :=
  ⟨by decide, by decide, add_frame_matches_reference sampleMixed (by decide)⟩

/-- C16, as stated, fails: the plugin holds a frame of one entry (left by
`rdpei_add_frame`); `rdpei_send_touch_frame` hands the PDU to the channel,
whose `Write` returns an error, and `rdpei_send_pen_frame` finds no stream:
both return the error and `frame.contactCount` is still 1. -/
theorem send_failure_keeps_contact_count :
    rdpei_add_frame_plugin samplePluginBegun =
        some (samplePluginPending, [downContact 0 100 100]) ∧
      (rdpei_send_touch_frame samplePluginPending [samplePointer] 1000 sendWriteFails).error
        = 1 ∧
      (rdpei_send_touch_frame samplePluginPending [samplePointer] 1000 sendWriteFails).sent
        ≠ none ∧
      (rdpei_send_touch_frame samplePluginPending [samplePointer] 1000
          sendWriteFails).plugin.frame.contactCount = 1 ∧
      (rdpei_send_pen_frame samplePluginPending samplePen 1000 sendNoStream).error
        = CHANNEL_RC_NO_MEMORY ∧
      (rdpei_send_pen_frame samplePluginPending samplePen 1000
          sendNoStream).plugin.frame.contactCount = 1 := by
  decide

/-- C16, amended: `rdpei_send_touch_frame` and `rdpei_send_pen_frame` return
`CHANNEL_RC_OK` exactly when the stream is allocated, the capacity is there
and the channel `Write` returns 0; then `frame.contactCount` is 0 on return
and `previousFrameTime` is the time of this frame.  When the encode/transport
step fails they return its error at once and leave `frame.contactCount` and
`previousFrameTime` as they were.  In both cases the contact table is
untouched. -/
theorem send_resets_frame_on_success (rdpei : RDPEI_PLUGIN) (pointers : List POINTER_INFO)
    (pen : POINTER_PEN_INFO) (currentTime : Nat) (env : SendOutcome) :
    (((rdpei_send_touch_frame rdpei pointers currentTime env).error = CHANNEL_RC_OK ↔
        (env.streamNew = true ∧ env.ensureCapacity = true ∧ env.writeStatus = 0)) ∧
      ((rdpei_send_touch_frame rdpei pointers currentTime env).error = CHANNEL_RC_OK →
        (rdpei_send_touch_frame rdpei pointers currentTime env).plugin.frame.contactCount = 0 ∧
        (rdpei_send_touch_frame rdpei pointers currentTime env).plugin.previousFrameTime
          = currentTime) ∧
      ((rdpei_send_touch_frame rdpei pointers currentTime env).error ≠ CHANNEL_RC_OK →
        (rdpei_send_touch_frame rdpei pointers currentTime env).plugin.frame.contactCount
          = rdpei.frame.contactCount ∧
        (rdpei_send_touch_frame rdpei pointers currentTime env).plugin.previousFrameTime
          = rdpei.previousFrameTime) ∧
      (rdpei_send_touch_frame rdpei pointers currentTime env).plugin.contactPoints
        = rdpei.contactPoints) ∧
    (((rdpei_send_pen_frame rdpei pen currentTime env).error = CHANNEL_RC_OK ↔
        (env.streamNew = true ∧ env.ensureCapacity = true ∧ env.writeStatus = 0)) ∧
      ((rdpei_send_pen_frame rdpei pen currentTime env).error = CHANNEL_RC_OK →
        (rdpei_send_pen_frame rdpei pen currentTime env).plugin.frame.contactCount = 0 ∧
        (rdpei_send_pen_frame rdpei pen currentTime env).plugin.previousFrameTime
          = currentTime) ∧
      ((rdpei_send_pen_frame rdpei pen currentTime env).error ≠ CHANNEL_RC_OK →
        (rdpei_send_pen_frame rdpei pen currentTime env).plugin.frame.contactCount
          = rdpei.frame.contactCount ∧
        (rdpei_send_pen_frame rdpei pen currentTime env).plugin.previousFrameTime
          = rdpei.previousFrameTime) ∧
      (rdpei_send_pen_frame rdpei pen currentTime env).plugin.contactPoints
        = rdpei.contactPoints) := by
  obtain ⟨streamNew, ensureCapacity, writeStatus⟩ := env
  have hstamp : (stampFrame rdpei currentTime).currentFrameTime = currentTime ∧
      (stampFrame rdpei currentTime).previousFrameTime = rdpei.previousFrameTime ∧
      (stampFrame rdpei currentTime).frame.contactCount = rdpei.frame.contactCount ∧
      (stampFrame rdpei currentTime).contactPoints = rdpei.contactPoints := by
    unfold stampFrame
    split <;> exact ⟨rfl, rfl, rfl, rfl⟩
  obtain ⟨hs1, hs2, hs3, hs4⟩ := hstamp
  constructor
  · cases streamNew <;> cases ensureCapacity <;>
      by_cases hw : writeStatus = 0 <;>
      simp [rdpei_send_touch_frame, rdpei_send_touch_event_pdu_new,
        rdpei_write_touch_frame_new, CHANNEL_RC_OK, CHANNEL_RC_NO_MEMORY, hw, hs1, hs2, hs3, hs4]
  · cases streamNew <;> cases ensureCapacity <;>
      by_cases hw : writeStatus = 0 <;>
      simp [rdpei_send_pen_frame, rdpei_send_pen_event_pdu_new,
        rdpei_write_pen_frame_new, CHANNEL_RC_OK, CHANNEL_RC_NO_MEMORY, hw, hs1, hs2, hs3, hs4]

/-- C17, the code at the failing input: on the fresh plugin the first call of
`rdpei_send_touch_frame`, at clock 1000, finds no stream and hands nothing to
the channel; the second call, at clock 1020, succeeds.  Its frame is the
first one ever sent, yet the offset given to the encoder is 1020 (the fields
1020 and 1020000 of the PDU), not zero. -/
theorem first_sent_frame_offset_after_failed_send :
    (rdpei_send_touch_frame freshPlugin [samplePointer] 1000 sendNoStream).error
        = CHANNEL_RC_NO_MEMORY ∧
      (rdpei_send_touch_frame freshPlugin [samplePointer] 1000 sendNoStream).sent = none ∧
      (rdpei_send_touch_frame freshPlugin [samplePointer] 1000
          sendNoStream).plugin.frame.frameOffset = 0 ∧
      (rdpei_send_touch_frame
          (rdpei_send_touch_frame freshPlugin [samplePointer] 1000 sendNoStream).plugin
          [samplePointer] 1020 sendSucceeds).error = CHANNEL_RC_OK ∧
      (rdpei_send_touch_frame
          (rdpei_send_touch_frame freshPlugin [samplePointer] 1000 sendNoStream).plugin
          [samplePointer] 1020 sendSucceeds).plugin.frame.frameOffset = 1020 ∧
      (rdpei_send_touch_frame
          (rdpei_send_touch_frame freshPlugin [samplePointer] 1000 sendNoStream).plugin
          [samplePointer] 1020 sendSucceeds).sent =
        some { eventId := EVENTID_TOUCH,
               body :=
                 [ WireField.fourByteUnsigned 1020, WireField.twoByteUnsigned 1,
                   WireField.twoByteUnsigned 1, WireField.eightByteUnsigned 1020000,
                   WireField.uint8 1, WireField.twoByteUnsigned 1,
                   WireField.fourByteSigned 100, WireField.fourByteSigned 100,
                   WireField.fourByteUnsigned 25, WireField.twoByteSigned 98,
                   WireField.twoByteSigned 98, WireField.twoByteSigned 102,
                   WireField.twoByteSigned 102 ] } := by
  decide

/-- C18: for every maximum contact count and every content of the fresh
buffer, `rdpei_send_cs_ready_pdu` (with a stream allocated) hands 16 bytes to
the channel and returns the status of `Write`; read back the way
`rdpei_recv_pdu` reads a header, the bytes give the event kind CS_READY and
the length 16, the number of bytes handed over: the 6 bytes of the header and
the 10 bytes of the body, which are the flags (4 bytes, "show touch
visuals"), the protocol version (4 bytes) and the maximum contact count
(2 bytes).  With no stream nothing is handed over and `CHANNEL_RC_NO_MEMORY`
is returned. -/
theorem cs_ready_header_round_trip (maxTouchContacts : Nat) (junk : Nat → Nat)
    (ensureCapacity : Bool) (writeStatus : Nat) :
    ∃ bytes,
      rdpei_send_cs_ready_pdu maxTouchContacts junk
          { streamNew := true, ensureCapacity := ensureCapacity, writeStatus := writeStatus }
        = some (writeStatus, some bytes) ∧
      bytes.length = RDPINPUT_HEADER_LENGTH + 10 ∧
      rdpei_recv_pdu_header bytes = some (EVENTID_CS_READY, bytes.length) ∧
      bytes =
        [2, 0, 16, 0, 0, 0, 1, 0, 0, 0, 0, 0, 2, 0,
         maxTouchContacts % 256, maxTouchContacts / 256 % 256] ∧
      (Stream_Read_UINT32 (Stream_Of (bytes.drop 6))).map (fun read => read.1)
        = some READY_FLAGS_SHOW_TOUCH_VISUALS ∧
      (Stream_Read_UINT32 (Stream_Of (bytes.drop 10))).map (fun read => read.1)
        = some RDPINPUT_PROTOCOL_V200 ∧
      (Stream_Read_UINT16 (Stream_Of (bytes.drop 14))).map (fun read => read.1)
        = some (maxTouchContacts % 65536) ∧
      rdpei_send_cs_ready_pdu maxTouchContacts junk
          { streamNew := false, ensureCapacity := ensureCapacity, writeStatus := writeStatus }
        = some (CHANNEL_RC_NO_MEMORY, none) := by
  refine ⟨[2, 0, 16, 0, 0, 0, 1, 0, 0, 0, 0, 0, 2, 0,
      maxTouchContacts % 256, maxTouchContacts / 256 % 256], rfl, rfl, rfl, rfl, rfl, rfl, ?_, rfl⟩
  show some (maxTouchContacts % 256 + 256 * (maxTouchContacts / 256 % 256)) =
    some (maxTouchContacts % 65536)
  congr 1
  omega

/-- C19: `rdpei_write_touch_frame_new`, when the capacity for the contacts is
there, returns `CHANNEL_RC_OK` and writes exactly: the compact contact count,
the compact frame offset `offset * 1000` (as `UINT64`), and for each pointer
in input order the 1-byte contact id (`pointerId % 10`), the compact presence
mask "contact rectangle present", the signed x and y, the contact flags
translated from the pointer flags, and the rectangle left = x - 2,
top = y - 2, right = x + 2, bottom = y + 2 (as `INT32`); nothing else, so
2 + 9 * count fields.  The translation maps each of the six pointer flags to
its contact flag and sets no other bit. -/
theorem touch_frame_field_sequence (pointers : List POINTER_INFO) (offset : Nat) :
    rdpei_write_touch_frame_new pointers offset true =
      (CHANNEL_RC_OK,
        [ WireField.twoByteUnsigned pointers.length,
          WireField.eightByteUnsigned (offset * 1000 % 2 ^ 64) ] ++
        pointers.flatMap (fun p =>
          [ WireField.uint8 (p.pointerId % 10),
            WireField.twoByteUnsigned CONTACT_DATA_CONTACTRECT_PRESENT,
            WireField.fourByteSigned p.x,
            WireField.fourByteSigned p.y,
            WireField.fourByteUnsigned (pointer_flag_to_contact_flags p.pointerFlags),
            WireField.twoByteSigned (wrapInt32 (p.x - 2)),
            WireField.twoByteSigned (wrapInt32 (p.y - 2)),
            WireField.twoByteSigned (wrapInt32 (p.x + 2)),
            WireField.twoByteSigned (wrapInt32 (p.y + 2)) ])) ∧
    (rdpei_write_touch_frame_new pointers offset true).2.length = 2 + 9 * pointers.length ∧
    (offset * 1000 < 2 ^ 64 → offset * 1000 % 2 ^ 64 = offset * 1000) ∧
    (∀ p ∈ pointers, -2 ^ 31 + 2 ≤ p.x → p.x ≤ 2 ^ 31 - 3 → -2 ^ 31 + 2 ≤ p.y →
      p.y ≤ 2 ^ 31 - 3 →
      wrapInt32 (p.x - 2) = p.x - 2 ∧ wrapInt32 (p.y - 2) = p.y - 2 ∧
      wrapInt32 (p.x + 2) = p.x + 2 ∧ wrapInt32 (p.y + 2) = p.y + 2) ∧
    (∀ f : Nat, pointer_flag_to_contact_flags f < 64 ∧
      ((pointer_flag_to_contact_flags f &&& CONTACT_FLAG_DOWN ≠ 0) ↔
        f &&& POINTER_FLAG_DOWN ≠ 0) ∧
      ((pointer_flag_to_contact_flags f &&& CONTACT_FLAG_UPDATE ≠ 0) ↔
        f &&& POINTER_FLAG_UPDATE ≠ 0) ∧
      ((pointer_flag_to_contact_flags f &&& CONTACT_FLAG_UP ≠ 0) ↔
        f &&& POINTER_FLAG_UP ≠ 0) ∧
      ((pointer_flag_to_contact_flags f &&& CONTACT_FLAG_INRANGE ≠ 0) ↔
        f &&& POINTER_FLAG_INRANGE ≠ 0) ∧
      ((pointer_flag_to_contact_flags f &&& CONTACT_FLAG_INCONTACT ≠ 0) ↔
        f &&& POINTER_FLAG_INCONTACT ≠ 0) ∧
      ((pointer_flag_to_contact_flags f &&& CONTACT_FLAG_CANCELED ≠ 0) ↔
        f &&& POINTER_FLAG_CANCELED ≠ 0)) ∧
    rdpei_write_touch_frame_new pointers offset false =
      (CHANNEL_RC_NO_MEMORY,
        [ WireField.twoByteUnsigned pointers.length,
          WireField.eightByteUnsigned (offset * 1000 % 2 ^ 64) ]) := by
  refine ⟨rfl, ?_, fun h => Nat.mod_eq_of_lt h, ?_, pointer_flag_translation, rfl⟩
  · show ([ WireField.twoByteUnsigned pointers.length,
            WireField.eightByteUnsigned (offset * 1000 % 2 ^ 64) ] ++
          pointers.flatMap rdpei_write_touch_contact).length = 2 + 9 * pointers.length
    induction pointers with
    | nil => rfl
    | cons p ps ih =>
      simp only [List.length_append, List.length_cons, List.length_nil, List.flatMap_cons,
        rdpei_write_touch_contact] at ih ⊢
      omega
  · intro p _ h1 h2 h3 h4
    exact ⟨wrapInt32_of_range _ (by omega) (by omega), wrapInt32_of_range _ (by omega) (by omega),
      wrapInt32_of_range _ (by omega) (by omega), wrapInt32_of_range _ (by omega) (by omega)⟩

/-- C20: `rdpei_write_pen_frame_new`, when the capacity is there, writes the
count and the offset and, for every pen record, the contact id 0, the
presence mask computed from the pen mask, x, y and the contact flags, followed
by exactly the optional fields that the reference selects from the mask that
was written: pen flags, pressure, rotation, tilt-x, tilt-y in this order,
each one present exactly when its bit is set in that mask.  The pen flags are
always present, and the bits of pressure, rotation, tilt-x and tilt-y are the
bits 0 to 3 of the pen mask. -/
theorem pen_frame_optional_fields_follow_mask (pens : List POINTER_PEN_INFO) (offset : Nat) :
    rdpei_write_pen_frame_new pens offset true =
      (CHANNEL_RC_OK,
        [ WireField.twoByteUnsigned pens.length,
          WireField.eightByteUnsigned (offset * 1000 % 2 ^ 64) ] ++
        pens.flatMap (fun pen =>
          [ WireField.uint8 0,
            WireField.twoByteUnsigned (pen_mask_to_fields_present pen.penMask),
            WireField.fourByteSigned pen.pointerInfo.x,
            WireField.fourByteSigned pen.pointerInfo.y,
            WireField.fourByteUnsigned
              (pointer_flag_to_contact_flags pen.pointerInfo.pointerFlags) ] ++
          referencePenOptional (pen_mask_to_fields_present pen.penMask) pen)) ∧
    (∀ (mask : Nat) (pen : POINTER_PEN_INFO),
      referencePenOptional mask pen =
        (if mask &&& PEN_CONTACT_PENFLAGS_PRESENT ≠ 0 then
            [WireField.fourByteUnsigned (pen_flag_to_rdp_pen_flag pen.penFlags)] else []) ++
        (if mask &&& PEN_CONTACT_PRESSURE_PRESENT ≠ 0 then
            [WireField.fourByteUnsigned pen.pressure] else []) ++
        (if mask &&& PEN_CONTACT_ROTATION_PRESENT ≠ 0 then
            [WireField.twoByteUnsigned pen.rotation] else []) ++
        (if mask &&& PEN_CONTACT_TILTX_PRESENT ≠ 0 then
            [WireField.twoByteUnsigned (toUInt32 pen.tiltX)] else []) ++
        (if mask &&& PEN_CONTACT_TILTY_PRESENT ≠ 0 then
            [WireField.twoByteUnsigned (toUInt32 pen.tiltY)] else []) ∧
      (referencePenOptional mask pen).length =
        ([PEN_CONTACT_PENFLAGS_PRESENT, PEN_CONTACT_PRESSURE_PRESENT,
          PEN_CONTACT_ROTATION_PRESENT, PEN_CONTACT_TILTX_PRESENT,
          PEN_CONTACT_TILTY_PRESENT].filter (fun bit => mask &&& bit ≠ 0)).length) ∧
    (∀ penMask : Nat,
      pen_mask_to_fields_present penMask &&& PEN_CONTACT_PENFLAGS_PRESENT ≠ 0 ∧
      ((pen_mask_to_fields_present penMask &&& PEN_CONTACT_PRESSURE_PRESENT ≠ 0) ↔
        penMask.testBit 0 = true) ∧
      ((pen_mask_to_fields_present penMask &&& PEN_CONTACT_ROTATION_PRESENT ≠ 0) ↔
        penMask.testBit 1 = true) ∧
      ((pen_mask_to_fields_present penMask &&& PEN_CONTACT_TILTX_PRESENT ≠ 0) ↔
        penMask.testBit 2 = true) ∧
      ((pen_mask_to_fields_present penMask &&& PEN_CONTACT_TILTY_PRESENT ≠ 0) ↔
        penMask.testBit 3 = true)) ∧
    rdpei_write_pen_frame_new pens offset false =
      (CHANNEL_RC_NO_MEMORY,
        [ WireField.twoByteUnsigned pens.length,
          WireField.eightByteUnsigned (offset * 1000 % 2 ^ 64) ]) := by
  refine ⟨?_, ?_, pen_mask_bits, rfl⟩
  · have h : (fun pen => rdpei_write_pen_contact pen) = fun pen =>
        [ WireField.uint8 0,
          WireField.twoByteUnsigned (pen_mask_to_fields_present pen.penMask),
          WireField.fourByteSigned pen.pointerInfo.x,
          WireField.fourByteSigned pen.pointerInfo.y,
          WireField.fourByteUnsigned
            (pointer_flag_to_contact_flags pen.pointerInfo.pointerFlags) ] ++
        referencePenOptional (pen_mask_to_fields_present pen.penMask) pen := by
      funext pen
      exact rdpei_write_pen_contact_eq pen
    show (CHANNEL_RC_OK, _ ++ pens.flatMap (fun pen => rdpei_write_pen_contact pen)) = _
    rw [h]
  · intro mask pen
    unfold referencePenOptional penOptionalFields
    by_cases h1 : mask &&& PEN_CONTACT_PENFLAGS_PRESENT = 0 <;>
    by_cases h2 : mask &&& PEN_CONTACT_PRESSURE_PRESENT = 0 <;>
    by_cases h3 : mask &&& PEN_CONTACT_ROTATION_PRESENT = 0 <;>
    by_cases h4 : mask &&& PEN_CONTACT_TILTX_PRESENT = 0 <;>
    by_cases h5 : mask &&& PEN_CONTACT_TILTY_PRESENT = 0 <;>
    simp [List.filter_cons, h1, h2, h3, h4, h5]

/-- C21: for every received buffer whose header carries the event kind
SUSPEND_TOUCH or RESUME_TOUCH, `rdpei_recv_pdu` returns, hands nothing to the
channel and leaves the plugin as it was.  When the corresponding callback is
installed it is called exactly once, no other callback is called, and the
value returned is the result of the callback, unchanged; with no callback
installed nothing is called and `CHANNEL_RC_OK` is returned.  So the value
returned is `CHANNEL_RC_OK` exactly when the callback returned it or none is
installed. -/
theorem recv_suspend_resume_returns_callback_result (rdpei : RDPEI_PLUGIN)
    (context : RdpeiClientContext) (data : List Nat) (junk : Nat → Nat) (env : SendOutcome)
    (pduLength : Nat)
    (hkind : rdpei_recv_pdu_header data = some (EVENTID_SUSPEND_TOUCH, pduLength) ∨
      rdpei_recv_pdu_header data = some (EVENTID_RESUME_TOUCH, pduLength)) :
    ∃ r, rdpei_recv_pdu rdpei context data junk env = some r ∧ r.sent = [] ∧
        r.plugin = rdpei ∧
      (rdpei_recv_pdu_header data = some (EVENTID_SUSPEND_TOUCH, pduLength) →
        (∀ result, context.SuspendTouch = some result →
          r.calls = [HostCall.SuspendTouch] ∧ r.error = result) ∧
        (context.SuspendTouch = none → r.calls = [] ∧ r.error = CHANNEL_RC_OK) ∧
        (r.error = CHANNEL_RC_OK ↔
          context.SuspendTouch = some CHANNEL_RC_OK ∨ context.SuspendTouch = none)) ∧
      (rdpei_recv_pdu_header data = some (EVENTID_RESUME_TOUCH, pduLength) →
        (∀ result, context.ResumeTouch = some result →
          r.calls = [HostCall.ResumeTouch] ∧ r.error = result) ∧
        (context.ResumeTouch = none → r.calls = [] ∧ r.error = CHANNEL_RC_OK) ∧
        (r.error = CHANNEL_RC_OK ↔
          context.ResumeTouch = some CHANNEL_RC_OK ∨ context.ResumeTouch = none)) := by
  have hdiff : EVENTID_SUSPEND_TOUCH ≠ EVENTID_RESUME_TOUCH := by decide
  rcases hkind with h | h
  · refine ⟨_, rdpei_recv_pdu_suspend rdpei context data junk env pduLength h, rfl, rfl,
      fun _ => ?_, fun h' => ?_⟩
    · obtain ⟨suspend, resume⟩ := context
      cases suspend with
      | none => simp
      | some result => simp
    · rw [h] at h'
      simp only [Option.some.injEq, Prod.mk.injEq, and_true] at h'
      exact absurd h' hdiff
  · refine ⟨_, rdpei_recv_pdu_resume rdpei context data junk env pduLength h, rfl, rfl,
      fun h' => ?_, fun _ => ?_⟩
    · rw [h] at h'
      simp only [Option.some.injEq, Prod.mk.injEq, and_true] at h'
      exact absurd h'.symm hdiff
    · obtain ⟨suspend, resume⟩ := context
      cases resume with
      | none => simp
      | some result => simp

/-- Witness of C21: a SUSPEND_TOUCH PDU with a host whose callback fails with
code 31; the call returns 31 after one call of `SuspendTouch`.  A RESUME_TOUCH
PDU with the same host returns 0 after one call of `ResumeTouch`, and with no
callback installed both return 0 and call nothing. -/
theorem recv_suspend_resume_returns_callback_result_witness :
    (rdpei_recv_pdu_header sampleSuspendPdu = some (EVENTID_SUSPEND_TOUCH, 6) ∨
      rdpei_recv_pdu_header sampleSuspendPdu = some (EVENTID_RESUME_TOUCH, 6)) ∧
    rdpei_recv_pdu freshPlugin sampleHost sampleSuspendPdu (fun _ => 0) sendSucceeds =
      some { plugin := freshPlugin, error := 31, calls := [HostCall.SuspendTouch],
             sent := [] } ∧
    rdpei_recv_pdu freshPlugin sampleHost sampleResumePdu (fun _ => 0) sendSucceeds =
      some { plugin := freshPlugin, error := 0, calls := [HostCall.ResumeTouch],
             sent := [] } ∧
    rdpei_recv_pdu freshPlugin sampleNoHost sampleSuspendPdu (fun _ => 0) sendSucceeds =
      some { plugin := freshPlugin, error := 0, calls := [], sent := [] } ∧
    ∃ r, rdpei_recv_pdu freshPlugin sampleHost sampleSuspendPdu (fun _ => 0) sendSucceeds
        = some r ∧ r.sent = [] ∧ r.plugin = freshPlugin ∧
      (rdpei_recv_pdu_header sampleSuspendPdu = some (EVENTID_SUSPEND_TOUCH, 6) →
        (∀ result, sampleHost.SuspendTouch = some result →
          r.calls = [HostCall.SuspendTouch] ∧ r.error = result) ∧
        (sampleHost.SuspendTouch = none → r.calls = [] ∧ r.error = CHANNEL_RC_OK) ∧
        (r.error = CHANNEL_RC_OK ↔
          sampleHost.SuspendTouch = some CHANNEL_RC_OK ∨ sampleHost.SuspendTouch = none)) ∧
      (rdpei_recv_pdu_header sampleSuspendPdu = some (EVENTID_RESUME_TOUCH, 6) →
        (∀ result, sampleHost.ResumeTouch = some result →
          r.calls = [HostCall.ResumeTouch] ∧ r.error = result) ∧
        (sampleHost.ResumeTouch = none → r.calls = [] ∧ r.error = CHANNEL_RC_OK) ∧
        (r.error = CHANNEL_RC_OK ↔
          sampleHost.ResumeTouch = some CHANNEL_RC_OK ∨ sampleHost.ResumeTouch = none)) :=
  ⟨Or.inl (by decide), by decide, by decide, by decide,
   recv_suspend_resume_returns_callback_result freshPlugin sampleHost sampleSuspendPdu
     (fun _ => 0) sendSucceeds 6 (Or.inl (by decide))⟩

/-- C22: for every received buffer whose header carries the event kind
SC_READY (with the 4 bytes of the protocol version behind the header),
`rdpei_recv_pdu` looks at no byte of the version: it calls no callback, calls
`rdpei_send_cs_ready_pdu` once and returns its result.  With a stream
allocated exactly one buffer goes to the channel, the CS_READY PDU of 16
bytes, and the status of `Write` is returned; with no stream nothing goes out
and `CHANNEL_RC_NO_MEMORY` is returned.  Any two SC_READY buffers, whatever
their version bytes, give the same result.  For an event kind other than
SC_READY, SUSPEND_TOUCH and RESUME_TOUCH nothing goes out, no callback is
called and `CHANNEL_RC_OK` is returned. -/
theorem recv_sc_ready_replies_cs_ready (rdpei : RDPEI_PLUGIN) (context : RdpeiClientContext)
    (data : List Nat) (junk : Nat → Nat) (env : SendOutcome) (eventId pduLength : Nat)
    (hheader : rdpei_recv_pdu_header data = some (eventId, pduLength))
    (hbody : eventId = EVENTID_SC_READY → 10 ≤ data.length) :
    (eventId = EVENTID_SC_READY →
      ∃ r, rdpei_recv_pdu rdpei context data junk env = some r ∧ r.calls = [] ∧
        r.plugin = rdpei ∧
        rdpei_send_cs_ready_pdu rdpei.maxTouchContacts junk env = some (r.error, r.sent.head?) ∧
        r.sent.length ≤ 1 ∧
        (env.streamNew = true →
          r.error = env.writeStatus ∧
          r.sent = [[2, 0, 16, 0, 0, 0, 1, 0, 0, 0, 0, 0, 2, 0,
                     rdpei.maxTouchContacts % 256, rdpei.maxTouchContacts / 256 % 256]] ∧
          ∀ bytes ∈ r.sent, rdpei_recv_pdu_header bytes = some (EVENTID_CS_READY, 16)) ∧
        (env.streamNew = false → r.error = CHANNEL_RC_NO_MEMORY ∧ r.sent = []) ∧
        ∀ (data' : List Nat) (pduLength' : Nat),
          rdpei_recv_pdu_header data' = some (EVENTID_SC_READY, pduLength') →
          10 ≤ data'.length → rdpei_recv_pdu rdpei context data' junk env = some r) ∧
    (eventId ≠ EVENTID_SC_READY → eventId ≠ EVENTID_SUSPEND_TOUCH →
      eventId ≠ EVENTID_RESUME_TOUCH →
      rdpei_recv_pdu rdpei context data junk env =
        some { plugin := rdpei, error := CHANNEL_RC_OK, calls := [], sent := [] }) := by
  refine ⟨fun hid => ?_,
    fun h1 h2 h3 => rdpei_recv_pdu_other rdpei context data junk env eventId pduLength
      hheader h1 h2 h3⟩
  subst hid
  refine ⟨_, rdpei_recv_pdu_sc_ready rdpei context data junk env pduLength hheader (hbody rfl),
    rfl, rfl, ?_, ?_, ?_, ?_, fun data' pduLength' h' hlen' =>
      rdpei_recv_pdu_sc_ready rdpei context data' junk env pduLength' h' hlen'⟩
  · rw [rdpei_send_cs_ready_pdu_eq]
    cases env.streamNew <;> rfl
  · show (if env.streamNew = true then _ else _ : List (List Nat)).length ≤ 1
    cases env.streamNew <;> simp
  · intro hs
    refine ⟨by simp [hs], by simp [hs], ?_⟩
    intro bytes hb
    simp only [hs, if_true, List.mem_singleton] at hb
    subst hb
    rfl
  · intro hs
    exact ⟨by simp [hs], by simp [hs]⟩

/-- Witness of C22: an SC_READY buffer that announces the version 0x00010000
is answered by the CS_READY PDU for 10 contacts; a buffer of the event kind 6
is ignored. -/
theorem recv_sc_ready_replies_cs_ready_witness :
    rdpei_recv_pdu_header sampleScReadyPdu = some (EVENTID_SC_READY, 10) ∧
    rdpei_recv_pdu freshPlugin sampleHost sampleScReadyPdu (fun _ => 0) sendSucceeds =
      some { plugin := freshPlugin, error := 0, calls := [],
             sent := [[2, 0, 16, 0, 0, 0, 1, 0, 0, 0, 0, 0, 2, 0, 10, 0]] } ∧
    rdpei_recv_pdu freshPlugin sampleHost sampleOtherPdu (fun _ => 0) sendSucceeds =
      some { plugin := freshPlugin, error := 0, calls := [], sent := [] } ∧
    ((EVENTID_SC_READY = EVENTID_SC_READY →
      ∃ r, rdpei_recv_pdu freshPlugin sampleHost sampleScReadyPdu (fun _ => 0) sendSucceeds
          = some r ∧ r.calls = [] ∧ r.plugin = freshPlugin ∧
        rdpei_send_cs_ready_pdu freshPlugin.maxTouchContacts (fun _ => 0) sendSucceeds
          = some (r.error, r.sent.head?) ∧
        r.sent.length ≤ 1 ∧
        (sendSucceeds.streamNew = true →
          r.error = sendSucceeds.writeStatus ∧
          r.sent = [[2, 0, 16, 0, 0, 0, 1, 0, 0, 0, 0, 0, 2, 0,
                     freshPlugin.maxTouchContacts % 256,
                     freshPlugin.maxTouchContacts / 256 % 256]] ∧
          ∀ bytes ∈ r.sent, rdpei_recv_pdu_header bytes = some (EVENTID_CS_READY, 16)) ∧
        (sendSucceeds.streamNew = false → r.error = CHANNEL_RC_NO_MEMORY ∧ r.sent = []) ∧
        ∀ (data' : List Nat) (pduLength' : Nat),
          rdpei_recv_pdu_header data' = some (EVENTID_SC_READY, pduLength') →
          10 ≤ data'.length →
          rdpei_recv_pdu freshPlugin sampleHost data' (fun _ => 0) sendSucceeds = some r) ∧
    (EVENTID_SC_READY ≠ EVENTID_SC_READY → EVENTID_SC_READY ≠ EVENTID_SUSPEND_TOUCH →
      EVENTID_SC_READY ≠ EVENTID_RESUME_TOUCH →
      rdpei_recv_pdu freshPlugin sampleHost sampleScReadyPdu (fun _ => 0) sendSucceeds =
        some { plugin := freshPlugin, error := CHANNEL_RC_OK, calls := [], sent := [] })) :=
  ⟨by decide, by decide, by decide,
   recv_sc_ready_replies_cs_ready freshPlugin sampleHost sampleScReadyPdu (fun _ => 0)
     sendSucceeds EVENTID_SC_READY 10 (by decide) (fun _ => by decide)⟩

/-- C23: for every plugin state (so every contact table) and every outcome
of `Stream_New`, of `Stream_EnsureRemainingCapacity` and of the channel
`Write`, the calls `rdpei_send_touch_frame` and `rdpei_send_pen_frame` leave
the contact table as it was and return the status of this attempt
(`CHANNEL_RC_NO_MEMORY` without a stream or capacity, else the status of
`Write`); `rdpei_send_cs_ready_pdu`, which reads `maxTouchContacts` only,
returns the status of its attempt; `rdpei_recv_pdu` on a readable buffer
returns and leaves the whole plugin as it was, its result for SC_READY being
the status of the reply.  The status of a call depends on the outcomes of
that call alone: after a call that failed, the next call returns the status
of its own attempt and the table is still the same. -/
theorem codec_calls_keep_contact_table (rdpei : RDPEI_PLUGIN) (pointers : List POINTER_INFO)
    (pen : POINTER_PEN_INFO) (currentTime : Nat) (context : RdpeiClientContext)
    (data : List Nat) (junk : Nat → Nat) (env : SendOutcome) (hdata : ReadablePdu data) :
    ((rdpei_send_touch_frame rdpei pointers currentTime env).plugin.contactPoints
        = rdpei.contactPoints ∧
      (rdpei_send_touch_frame rdpei pointers currentTime env).error = sendStatus env) ∧
    ((rdpei_send_pen_frame rdpei pen currentTime env).plugin.contactPoints
        = rdpei.contactPoints ∧
      (rdpei_send_pen_frame rdpei pen currentTime env).error = sendStatus env) ∧
    (rdpei_send_cs_ready_pdu rdpei.maxTouchContacts junk env).map (fun reply => reply.1)
      = some (sendStatus { env with ensureCapacity := true }) ∧
    (∃ r, rdpei_recv_pdu rdpei context data junk env = some r ∧ r.plugin = rdpei ∧
      r.plugin.contactPoints = rdpei.contactPoints ∧
      ∀ pduLength, rdpei_recv_pdu_header data = some (EVENTID_SC_READY, pduLength) →
        r.error = sendStatus { env with ensureCapacity := true }) ∧
    (∀ (pointers' : List POINTER_INFO) (pen' : POINTER_PEN_INFO) (currentTime' : Nat)
        (env' : SendOutcome),
      (rdpei_send_touch_frame
          (rdpei_send_touch_frame rdpei pointers currentTime env).plugin
          pointers' currentTime' env').error = sendStatus env' ∧
      (rdpei_send_touch_frame
          (rdpei_send_touch_frame rdpei pointers currentTime env).plugin
          pointers' currentTime' env').plugin.contactPoints = rdpei.contactPoints ∧
      (rdpei_send_pen_frame
          (rdpei_send_pen_frame rdpei pen currentTime env).plugin
          pen' currentTime' env').error = sendStatus env' ∧
      (rdpei_send_pen_frame
          (rdpei_send_pen_frame rdpei pen currentTime env).plugin
          pen' currentTime' env').plugin.contactPoints = rdpei.contactPoints) := by
  obtain ⟨r, hr, herr⟩ := rdpei_recv_pdu_readable rdpei context data junk env hdata
  have hplugin := rdpei_recv_pdu_plugin rdpei context data junk env r hr
  refine ⟨rdpei_send_touch_frame_status rdpei pointers currentTime env,
    rdpei_send_pen_frame_status rdpei pen currentTime env, ?_,
    ⟨r, hr, hplugin, by rw [hplugin], herr⟩, ?_⟩
  · rw [rdpei_send_cs_ready_pdu_eq]
    obtain ⟨streamNew, ensureCapacity, writeStatus⟩ := env
    cases streamNew <;> simp [sendStatus]
  · intro pointers' pen' currentTime' env'
    have h1 := rdpei_send_touch_frame_status
      (rdpei_send_touch_frame rdpei pointers currentTime env).plugin pointers' currentTime' env'
    have h2 := rdpei_send_pen_frame_status
      (rdpei_send_pen_frame rdpei pen currentTime env).plugin pen' currentTime' env'
    exact ⟨h1.2, h1.1.trans (rdpei_send_touch_frame_status rdpei pointers currentTime env).1,
      h2.2, h2.1.trans (rdpei_send_pen_frame_status rdpei pen currentTime env).1⟩

/-- Witness of C23: the plugin with one contact begun and reported, a send
whose `Write` fails with code 1, and an SC_READY buffer. -/
theorem codec_calls_keep_contact_table_witness :
    ReadablePdu sampleScReadyPdu ∧
    (rdpei_send_touch_frame samplePluginPending [samplePointer] 1000 sendWriteFails).error = 1 ∧
    (rdpei_send_touch_frame samplePluginPending [samplePointer] 1000
        sendWriteFails).plugin.contactPoints = sampleReported ∧
    ((rdpei_send_touch_frame samplePluginPending [samplePointer] 1000
          sendWriteFails).plugin.contactPoints = samplePluginPending.contactPoints ∧
      (rdpei_send_touch_frame samplePluginPending [samplePointer] 1000 sendWriteFails).error
        = sendStatus sendWriteFails) ∧
    ((rdpei_send_pen_frame samplePluginPending samplePen 1000
          sendWriteFails).plugin.contactPoints = samplePluginPending.contactPoints ∧
      (rdpei_send_pen_frame samplePluginPending samplePen 1000 sendWriteFails).error
        = sendStatus sendWriteFails) ∧
    (rdpei_send_cs_ready_pdu samplePluginPending.maxTouchContacts (fun _ => 0)
        sendWriteFails).map (fun reply => reply.1)
      = some (sendStatus { sendWriteFails with ensureCapacity := true }) ∧
    (∃ r, rdpei_recv_pdu samplePluginPending sampleHost sampleScReadyPdu (fun _ => 0)
        sendWriteFails = some r ∧ r.plugin = samplePluginPending ∧
      r.plugin.contactPoints = samplePluginPending.contactPoints ∧
      ∀ pduLength,
        rdpei_recv_pdu_header sampleScReadyPdu = some (EVENTID_SC_READY, pduLength) →
        r.error = sendStatus { sendWriteFails with ensureCapacity := true }) ∧
    (∀ (pointers' : List POINTER_INFO) (pen' : POINTER_PEN_INFO) (currentTime' : Nat)
        (env' : SendOutcome),
      (rdpei_send_touch_frame
          (rdpei_send_touch_frame samplePluginPending [samplePointer] 1000
            sendWriteFails).plugin
          pointers' currentTime' env').error = sendStatus env' ∧
      (rdpei_send_touch_frame
          (rdpei_send_touch_frame samplePluginPending [samplePointer] 1000
            sendWriteFails).plugin
          pointers' currentTime' env').plugin.contactPoints
        = samplePluginPending.contactPoints ∧
      (rdpei_send_pen_frame
          (rdpei_send_pen_frame samplePluginPending samplePen 1000 sendWriteFails).plugin
          pen' currentTime' env').error = sendStatus env' ∧
      (rdpei_send_pen_frame
          (rdpei_send_pen_frame samplePluginPending samplePen 1000 sendWriteFails).plugin
          pen' currentTime' env').plugin.contactPoints
        = samplePluginPending.contactPoints) :=
  ⟨by decide, by decide, by decide,
   codec_calls_keep_contact_table samplePluginPending [samplePointer] samplePen 1000
     sampleHost sampleScReadyPdu (fun _ => 0) sendWriteFails (by decide)⟩

/-- C25: in every table reachable from the zeroed table through
`rdpei_touch_begin`, `rdpei_touch_update`, `rdpei_touch_end`,
`rdpei_add_contact` (with any record) and `rdpei_add_frame`, every active slot
at index `i` stores the contact id `i`.  So when the lookup for an external id
finds slot `s`, `rdpei_touch_update` and `rdpei_touch_end` return `s` and
write their record, whose contact id is `s`, into slot `s` itself; every
other slot is left as it was. -/
theorem active_slot_stores_own_index (t : List RDPINPUT_CONTACT_POINT)
    (hreach : Reachable t) :
    (∀ (i : Nat) (p : RDPINPUT_CONTACT_POINT), t[i]? = some p → p.active = true →
      p.contactId = i) ∧
    ∀ (e x y : Int) (s : Nat) (p : RDPINPUT_CONTACT_POINT), Resolves t e s p →
      (∃ r q, rdpei_touch_update t e x y = some r ∧ r.contactId = some (s : Int) ∧
        r.contactPoints[s]? = some q ∧ q.data = updateContact s x y ∧
        q.data.contactId = s ∧ q.dirty = true ∧ q.externalId = e ∧
        ∀ j, j ≠ s → r.contactPoints[j]? = t[j]?) ∧
      (∃ r q, rdpei_touch_end t e x y = some r ∧ r.contactId = some (s : Int) ∧
        r.contactPoints[s]? = some q ∧ q.data = upContact s x y ∧
        q.data.contactId = s ∧ q.dirty = true ∧ q.active = false ∧
        ∀ j, j ≠ s → r.contactPoints[j]? = t[j]?) := by
  obtain ⟨hlen, hown, -⟩ := reachableWith_inv _ t hreach
  refine ⟨hown, ?_⟩
  intro e x y s p hres
  obtain ⟨pre, post, ht, hs, hpre, hpa, hpe, hid, hlt⟩ := resolves_split t e s p hown hlen hres
  subst ht
  subst hs
  have hupd := rdpei_touch_update_found pre post p e x y hpre hpa hpe hid hlt
  have hend := rdpei_touch_end_found pre post p e x y hpre hpa hpe hid hlt
  exact ⟨⟨_, _, hupd, rfl, getElem?_append_cons_self pre _ post, rfl, rfl, rfl, hpe,
      fun j hj => getElem?_append_cons_ne pre _ _ post j hj⟩,
    ⟨_, _, hend, rfl, getElem?_append_cons_self pre _ post, rfl, rfl, rfl, rfl,
      fun j hj => getElem?_append_cons_ne pre _ _ post j hj⟩⟩

/-- Witness of C25: the table with the external ids 1 and 2 in slots 0 and 1;
an update for id 2 returns slot 1 and leaves slot 0 alone. -/
theorem active_slot_stores_own_index_witness :
    Reachable sampleTwo ∧
    (rdpei_touch_update sampleTwo 2 21 22).map (fun r => r.contactPoints) =
      some [beganPoint 0 1 10 10 zeroPoint,
            updatedPoint 1 21 22 (beganPoint 1 2 20 20 zeroPoint)] ∧
    (∀ (i : Nat) (p : RDPINPUT_CONTACT_POINT), sampleTwo[i]? = some p → p.active = true →
      p.contactId = i) ∧
    ∀ (e x y : Int) (s : Nat) (p : RDPINPUT_CONTACT_POINT), Resolves sampleTwo e s p →
      (∃ r q, rdpei_touch_update sampleTwo e x y = some r ∧ r.contactId = some (s : Int) ∧
        r.contactPoints[s]? = some q ∧ q.data = updateContact s x y ∧
        q.data.contactId = s ∧ q.dirty = true ∧ q.externalId = e ∧
        ∀ j, j ≠ s → r.contactPoints[j]? = sampleTwo[j]?) ∧
      (∃ r q, rdpei_touch_end sampleTwo e x y = some r ∧ r.contactId = some (s : Int) ∧
        r.contactPoints[s]? = some q ∧ q.data = upContact s x y ∧
        q.data.contactId = s ∧ q.dirty = true ∧ q.active = false ∧
        ∀ j, j ≠ s → r.contactPoints[j]? = sampleTwo[j]?) :=
  ⟨sampleTwo_reachable _, by decide,
   active_slot_stores_own_index sampleTwo (sampleTwo_reachable _)⟩

/-- C26: on every table of at most `MAX_CONTACTS` slots three consecutive
calls of `rdpei_add_frame` return, and the third gives exactly what the
second gave: the same table, the same frame, the same count (the table after
the second cycle is a fixed point of the cycle).  That frame is the list of
the records of the active slots, in slot order, the active slots being the
ones that were active at the start, and none of its entries has the DOWN
flag. -/
theorem aggregation_stable_after_two_cycles (t : List RDPINPUT_CONTACT_POINT)
    (hlen : t.length ≤ MAX_CONTACTS) :
    ∃ r1 r2 r3, rdpei_add_frame t = some r1 ∧ rdpei_add_frame r1.contactPoints = some r2 ∧
      rdpei_add_frame r2.contactPoints = some r3 ∧
      r3.contactPoints = r2.contactPoints ∧ r3.contacts = r2.contacts ∧
      r3.contactCount = r2.contactCount ∧ r3 = r2 ∧
      aggregationCycles 3 t = some ([r1.contacts, r2.contacts, r2.contacts], r2.contactPoints) ∧
      r2.contacts = (r2.contactPoints.filter (fun p => p.active)).map (fun p => p.data) ∧
      r2.contactPoints.map (fun p => p.active) = t.map (fun p => p.active) ∧
      r2.contactCount = (t.filter (fun p => p.active)).length ∧
      ∀ c ∈ r2.contacts, c.contactFlags &&& CONTACT_FLAG_DOWN = 0 := by
  have hlen1 : (t.map afterCycle).length ≤ MAX_CONTACTS := by simpa using hlen
  have hlen2 : ((t.map afterCycle).map afterCycle).length ≤ MAX_CONTACTS := by simpa using hlen
  have h1 := rdpei_add_frame_eq t hlen
  have h2 := rdpei_add_frame_eq (t.map afterCycle) hlen1
  have h3 := rdpei_add_frame_eq ((t.map afterCycle).map afterCycle) hlen2
  have htable : ((t.map afterCycle).map afterCycle).map afterCycle =
      (t.map afterCycle).map afterCycle := by
    simp only [List.map_map]
    apply List.map_congr_left
    intro p _
    exact afterCycle_twice_fixed p
  have hframe : ((t.map afterCycle).map afterCycle).filterMap frameEntry =
      (t.map afterCycle).filterMap frameEntry := by
    simp only [List.filterMap_map, List.map_map]
    apply List.filterMap_congr
    intro p _
    exact frameEntry_twice_fixed p
  have hsame : ({ contactPoints := ((t.map afterCycle).map afterCycle).map afterCycle,
                  contactCount := (((t.map afterCycle).map afterCycle).filterMap
                    frameEntry).length,
                  contacts := ((t.map afterCycle).map afterCycle).filterMap frameEntry,
                  error := CHANNEL_RC_OK } : FrameResult) =
      { contactPoints := (t.map afterCycle).map afterCycle,
        contactCount := ((t.map afterCycle).filterMap frameEntry).length,
        contacts := (t.map afterCycle).filterMap frameEntry, error := CHANNEL_RC_OK } := by
    rw [htable, hframe]
  have hactive : ((t.map afterCycle).map afterCycle).map (fun p => p.active) =
      t.map (fun p => p.active) := by
    simp only [List.map_map]
    apply List.map_congr_left
    intro p _
    simp [afterCycle_active]
  refine ⟨_, _, _, h1, h2, h3, htable, hframe, by rw [hframe], hsame, ?_,
    second_frame_eq t, hactive, ?_, ?_⟩
  · simp only [aggregationCycles, h1, h2, h3]
    rw [hframe, htable]
  · show ((t.map afterCycle).filterMap frameEntry).length = _
    rw [second_frame_eq t, List.length_map, ← List.countP_eq_length_filter,
      ← List.countP_eq_length_filter, List.map_map, List.countP_map]
    apply List.countP_congr
    intro p _
    simp [afterCycle_active]
  · intro c hc
    obtain ⟨q, hq, hqc⟩ := List.mem_filterMap.1 hc
    obtain ⟨p, -, hp⟩ := List.mem_map.1 hq
    rw [← hp] at hqc
    exact frameEntry_afterCycle_no_down p c hqc

/-- Witness of C26: a slot just ended, a continuing slot whose record still
shows DOWN, and an idle slot.  The first frame holds UP and the rewritten
record, the second and the third hold the continuing contact alone. -/
theorem aggregation_stable_after_two_cycles_witness :
    sampleMixed.length ≤ MAX_CONTACTS ∧
    (aggregationCycles 3 sampleMixed).map (fun run => run.1) =
      some [[upContact 0 5 5, updateContact 1 20 20], [updateContact 1 20 20],
            [updateContact 1 20 20]] ∧
    ∃ r1 r2 r3, rdpei_add_frame sampleMixed = some r1 ∧
      rdpei_add_frame r1.contactPoints = some r2 ∧
      rdpei_add_frame r2.contactPoints = some r3 ∧
      r3.contactPoints = r2.contactPoints ∧ r3.contacts = r2.contacts ∧
      r3.contactCount = r2.contactCount ∧ r3 = r2 ∧
      aggregationCycles 3 sampleMixed
        = some ([r1.contacts, r2.contacts, r2.contacts], r2.contactPoints) ∧
      r2.contacts = (r2.contactPoints.filter (fun p => p.active)).map (fun p => p.data) ∧
      r2.contactPoints.map (fun p => p.active) = sampleMixed.map (fun p => p.active) ∧
      r2.contactCount = (sampleMixed.filter (fun p => p.active)).length ∧
      ∀ c ∈ r2.contacts, c.contactFlags &&& CONTACT_FLAG_DOWN = 0 :=
  ⟨by decide, by decide, aggregation_stable_after_two_cycles sampleMixed (by decide)⟩

end Rdpei
